import Mathlib

/-!
# Procurement management front end: handlers and guards

A shallow embedding of the React handlers of `src/frontend/src` that the
specification talks about.  Conventions used throughout:

* In the totals and the payloads that only pass numbers on, the numbers of a
  form or a response are given by their values, as exact rationals. A field
  that may be blank or absent is an `Option ℚ`; `parseFloat(x || 0)` maps the
  blank field to `0`.
* Where a handler computes with money (`PaymentModal`) or reads a quantity
  from text (`CreateRequestView`, `CreatePurchaseOrderForm.handleSubmit`),
  Numbers are IEEE 754 doubles and `parseInt`, `parseFloat` read the text of
  the input, as in JavaScript.
* Record ids are natural numbers.
* An `async` handler is a pure function from its inputs and from the outcomes
  of the `fetch` calls it awaits to the list of effects it performs, in order.
  React state setters that only drive rendering are left out, except
  `setError` and `setLoading`, which are kept; console logging is left out.
* A rendered actions cell is the list of its buttons and labels; a button is
  named by what its `onClick` calls.
* Strings are sequences of Unicode code points; `trim` follows ECMAScript.
* `NaN` is sent as `null`, as `JSON.stringify` does.
* A handler is modelled on every state its component can hold. The constraint
  attributes of the inputs (`required`, `min`, `step`), which a browser checks
  before it calls a submit handler, are not part of the handlers; for the
  creation forms they are given apart, as `submittable`.
* Dates are compared through their time values in milliseconds.
-/

namespace Procurement

/-! ## Numbers, JSON values, requests and effects -/

/-- The JavaScript expression `parseFloat(x || 0)` on a numeric field: a blank
(or absent) field is falsy and gives `0`; a numeric one gives its value. -/
def parseFloatOr0 (x : Option ℚ) : ℚ :=
  match x with
  | none => 0
  | some q => q

/-- JSON values as built by the object literals given to `JSON.stringify`. -/
inductive Json where
  | null
  | bool (b : Bool)
  | num (q : ℚ)
  | str (s : String)
  | arr (xs : List Json)
  | obj (fields : List (String × Json))

/-- Field lookup of a JSON object, first match. -/
def Json.get? : Json → String → Option Json
  | .obj fields, k => (fields.find? (fun p => p.1 == k)).map Prod.snd
  | _, _ => none

/-- The  `fetch` request as far as the handlers determine it. `csrf` records
whether `apiFetch` attaches the `X-CSRFToken` header. -/
structure Request where
  method : String
  url : String
  body : Option Json
  csrf : Bool

/-- The constant `API_BASE_URL` of `AdminDashboard.jsx`. -/
def API_BASE_URL : String := "http://localhost:8000/api"

/-- The helper `apiFetch(url, options)` of `AdminDashboard.jsx`: the method
defaults to `GET` and the CSRF header is added when a method is given and it is
not `GET`. -/
def apiFetch (url : String) (method : Option String) (body : Option Json) : Request :=
  { method := method.getD "GET"
    url := url
    body := body
    csrf := match method with
      | none => false
      | some m => m != "GET" }

/-- What a handler reads from a parsed response body: `data.message` and
`data.error` (`none` when absent or falsy) and the text `JSON.stringify(data)`. -/
structure Body where
  message : Option String
  stringified : String
  error : Option String := none

/-- The response a `fetch` resolves to: `res.ok` and the result of
`await res.json()` (an error message when parsing throws). -/
structure Response where
  ok : Bool
  json : Except String Body

/-- Outcome of awaiting one `fetch`: it resolves to a response or rejects with
an error whose `message` is given. -/
inductive FetchResult where
  | resolved (res : Response)
  | rejected (message : String)

/-- Observable effects of a handler, in program order. -/
inductive Effect where
  | confirm (msg : String)
  | fetch (req : Request)
  | alert (msg : String)
  | setError (msg : String)
  | setLoading (b : Bool)
  | callback (name : String) (args : List Json)
  | navigate (path : String)
  | setItem (key value : String)
  | setSuccess (msg : String)

/-- The requests issued in a trace, in order. -/
def requestsOf : List Effect → List Request
  | [] => []
  | .fetch r :: es => r :: requestsOf es
  | _ :: es => requestsOf es

/-- The requests of a trace whose method is not `GET`. -/
def mutatingRequestsOf (es : List Effect) : List Request :=
  (requestsOf es).filter (fun r => r.method != "GET")

/-! ## CreatePurchaseOrderForm: totals -/

/-- One entry of `formData.items` in `CreatePurchaseOrderForm`. -/
structure LineItem where
  product : Option Nat
  quantity : Option ℚ
  unit_price : Option ℚ

/-- The `formData` state of `CreatePurchaseOrderForm`, reduced to the fields
the handlers below read. A blank select is `none`, a blank text or date input
the empty string. -/
structure POFormData where
  vendor : Option Nat
  items : List LineItem
  tax_amount : Option ℚ
  shipping_cost : Option ℚ
  purchase_request : Option Nat := none
  assigned_to : Option Nat := none
  expected_delivery_date : String := ""
  delivery_deadline : String := ""
  notes : String := ""

namespace AdminDashboard.CreatePurchaseOrderForm

/-- `calculateSubtotal` of `AdminDashboard.jsx`: a left fold from `0` adding
`parseFloat(quantity || 0) * parseFloat(unit_price || 0)` per item. -/
def calculateSubtotal (formData : POFormData) : ℚ :=
  formData.items.foldl
    (fun sum item =>
      let lineTotal := parseFloatOr0 item.quantity * parseFloatOr0 item.unit_price
      sum + lineTotal)
    0

/-- `calculateTotal` of `AdminDashboard.jsx`. -/
def calculateTotal (formData : POFormData) : ℚ :=
  let subtotal := calculateSubtotal formData
  let tax := parseFloatOr0 formData.tax_amount
  let shipping := parseFloatOr0 formData.shipping_cost
  subtotal + tax + shipping

end AdminDashboard.CreatePurchaseOrderForm

namespace Purchaseorderscomponent.CreatePurchaseOrderForm

/-- `calculateSubtotal` of `Purchaseorderscomponent.jsx` (same text as the one
in `AdminDashboard.jsx`). -/
def calculateSubtotal (formData : POFormData) : ℚ :=
  formData.items.foldl
    (fun sum item =>
      let lineTotal := parseFloatOr0 item.quantity * parseFloatOr0 item.unit_price
      sum + lineTotal)
    0

/-- `calculateTotal` of `Purchaseorderscomponent.jsx`. -/
def calculateTotal (formData : POFormData) : ℚ :=
  let subtotal := calculateSubtotal formData
  let tax := parseFloatOr0 formData.tax_amount
  let shipping := parseFloatOr0 formData.shipping_cost
  subtotal + tax + shipping

end Purchaseorderscomponent.CreatePurchaseOrderForm

/-- The sum over the line items of quantity times unit price, blank fields
counting as `0`. -/
def lineItemsSum (items : List LineItem) : ℚ :=
  (items.map (fun item => parseFloatOr0 item.quantity * parseFloatOr0 item.unit_price)).sum

/-! ## Invoices and payments -/

/-- An invoice as the admin and vendor screens receive it, reduced to the
fields the handlers and tables read. `paid_amount` may be absent. `due_date` is
the time value of `new Date(invoice.due_date)` in milliseconds, `none` for an
invalid date; `invoice_file` is the uploaded file's path, if any. -/
structure Invoice where
  id : Nat
  vendor : Nat
  status : String
  total_amount : ℚ
  paid_amount : Option ℚ
  due_date : Option Int := none
  invoice_file : Option String := none

namespace AdminInvoices

/-- The constant `API_BASE_URL` of `AdminInvoices.jsx`; `env` is
`process.env.REACT_APP_API_BASE_URL` (`none` when unset or empty). -/
def API_BASE_URL (env : Option String) : String :=
  env.getD "http://localhost:8000/api"

/-- `AdminInvoices.fetchInvoices`: one `GET`, then `setLoading(false)`. -/
def fetchInvoices (env : Option String) : List Effect :=
  [.fetch { method := "GET", url := API_BASE_URL env ++ "/invoices/", body := none, csrf := false },
   .setLoading false]

/-- `AdminInvoices.handleMarkPaid(invoiceId, totalAmount)`: `confirmed` is the
answer to `window.confirm` and `res` the outcome of the `fetch`. -/
def handleMarkPaid (env : Option String) (invoiceId : Nat) (totalAmount : ℚ)
    (confirmed : Bool) (res : FetchResult) : List Effect :=
  .confirm "Mark this invoice as paid?" ::
    if !confirmed then []
    else
      .fetch { method := "PATCH"
               url := API_BASE_URL env ++ "/invoices/" ++ toString invoiceId ++ "/"
               body := some (.obj [("status", .str "paid"), ("paid_amount", .num totalAmount)])
               csrf := true } ::
        match res with
        | .rejected _ => []
        | .resolved r =>
          if r.ok then .alert "Invoice marked as paid!" :: fetchInvoices env else []

end AdminInvoices

/-! ### Outcomes of requests -/

/-- Whether a `fetch` outcome is a response with `res.ok`. -/
def FetchResult.isOk : FetchResult → Bool
  | .resolved res => res.ok
  | .rejected _ => false

/-- A response with `res.ok` and an empty JSON object as body. -/
def okResult : FetchResult :=
  .resolved { ok := true, json := .ok { message := none, stringified := "\x7b\x7d" } }

/-- A response without `res.ok` and an empty JSON object as body. -/
def failedResult : FetchResult :=
  .resolved { ok := false, json := .ok { message := none, stringified := "\x7b\x7d" } }

/-- Whether a trace reports an error through `setError` with a non-empty text. -/
def endsInError (trace : List Effect) : Bool :=
  trace.any (fun e => match e with
    | .setError msg => msg != ""
    | _ => false)

/-- The invoice of the end-to-end scenario of §8: total 118500, nothing paid. -/
def sampleInvoice : Invoice :=
  { id := 1, vendor := 1, status := "approved", total_amount := 118500, paid_amount := some 0 }

/-! ## Admin dashboard: refresh and quotation acceptance -/

namespace AdminDashboard

/-- `fetchInvoices` of `AdminDashboard`: one `GET`; failures are only logged. -/
def fetchInvoices : List Effect :=
  [.fetch (apiFetch (API_BASE_URL ++ "/invoices/") none none)]

/-- The paths `fetchDashboardData` fetches inside its `try` block, in order. -/
def dashboardPaths : List String :=
  ["/dashboard/stats/", "/vendors/", "/products/", "/categories/", "/employees/",
   "/purchase-requests/", "/vendor-quotations/"]

/-- The `try` block of `fetchDashboardData`: the `GET`s are awaited one after
the other; a rejected `fetch`, or a failing `res.json()` on an `ok` response,
jumps to the `catch` and ends the sequence. `results k` is the outcome of the
`k`-th of these fetches. -/
def fetchEach : List String → (Nat → FetchResult) → Nat → List Effect
  | [], _, _ => []
  | path :: rest, results, k =>
    .fetch (apiFetch (API_BASE_URL ++ path) none none) ::
      match results k with
      | .rejected _ => []
      | .resolved res =>
        if res.ok then
          match res.json with
          | .error _ => []
          | .ok _ => fetchEach rest results (k + 1)
        else fetchEach rest results (k + 1)

/-- `fetchDashboardData` of `AdminDashboard`. -/
def fetchDashboardData (results : Nat → FetchResult) : List Effect :=
  fetchInvoices ++ fetchEach dashboardPaths results 0 ++ [.setLoading false]

set_option linter.unusedVariables false in
/-- `AdminDashboard.handleAcceptQuotation(quotationId, rfqId, createPO = true)`:
`createPO` is `none` when the argument is omitted, `confirmed` is the answer to
`window.confirm`, `res` the outcome of the `POST` and `refresh` the outcomes of
the fetches of the `fetchDashboardData()` call that follows a success. -/
def handleAcceptQuotation (quotationId rfqId : Nat) (createPO : Option Bool)
    (confirmed : Bool) (res : FetchResult) (refresh : Nat → FetchResult) : List Effect :=
  let createPO := createPO.getD true
  .confirm "Accept this quotation and create a Purchase Order?" ::
    if !confirmed then []
    else
      .fetch (apiFetch (API_BASE_URL ++ "/rfqs/" ++ toString rfqId ++ "/accept_quotation/")
        (some "POST")
        (some (.obj [("create_po", .bool createPO), ("expected_delivery_date", .null)]))) ::
        match res with
        | .rejected message => [.alert ("Error: " ++ message)]
        | .resolved r =>
          match r.json with
          | .error message => [.alert ("Error: " ++ message)]
          | .ok data =>
            if r.ok then
              .alert (data.message.getD
                  "Quotation accepted and Purchase Order created successfully!") ::
                fetchDashboardData refresh
            else [.alert ("Failed to accept quotation: " ++ data.stringified)]

end AdminDashboard

/-! ## Row actions of the admin tables -/

/-- A purchase request row as `PurchaseRequestsView` receives it. -/
structure PurchaseRequest where
  id : Nat
  status : String

/-- A quotation row as `QuotationsManagementView` receives it; `rfq` is the id
of the RFQ it answers. -/
structure Quotation where
  id : Nat
  rfq : Nat
  status : String

/-- What a rendered button does when clicked. -/
inductive Click where
  | onApprove (requestId : Nat)
  | onReject (request : PurchaseRequest)
  | onSendRFQ (request : PurchaseRequest)
  | handleViewDetails (quote : Quotation)
  | onAccept (quotationId rfqId : Nat) (createPO : Bool)
  | handleReject (quote : Quotation)
  | onClose
  | viewInvoice (invoice : Invoice)
  | handleDownloadInvoice (invoice : Invoice)
  | handleDownloadVendorFile (invoice : Invoice)
  | handleApproveInvoice (invoiceId : Nat)
  | handleMarkAsPaid (invoice : Invoice)
  | handleApprove (invoiceId : Nat)
  | handleMarkPaid (invoiceId : Nat) (totalAmount : ℚ)
  | onSubmitQuotation (rfqId : Nat)
  | viewOrder (orderId : Nat)
  | handleEdit (orderId : Nat)
  | handleDelete (orderId : Nat) (poNumber : String)

/-- A rendered element of an actions cell: a button, a plain text label or a
disabled button, which shows its text and cannot be clicked. -/
inductive Widget where
  | button (click : Click)
  | label (text : String)
  | disabledButton (text : String)

namespace PurchaseRequestsView

/-- The actions cell of a row of `PurchaseRequestsView`. -/
def rowActions (req : PurchaseRequest) : List Widget :=
  (if req.status == "pending" then
      [.button (.onApprove req.id), .button (.onReject req)] else []) ++
  (if req.status == "approved" then [.button (.onSendRFQ req)] else []) ++
  (if req.status == "rejected" then [.label "Rejected"] else []) ++
  (if req.status == "rfq_sent" then [.label "RFQ Sent"] else [])

end PurchaseRequestsView

/-- Whether a cell offers the approve action. -/
def offersApprove (cell : List Widget) : Bool :=
  cell.any (fun w => match w with
    | .button (.onApprove _) => true
    | _ => false)

/-- Whether a cell offers the reject action, of a request or of a quotation. -/
def offersReject (cell : List Widget) : Bool :=
  cell.any (fun w => match w with
    | .button (.onReject _) => true
    | .button (.handleReject _) => true
    | _ => false)

/-- Whether a cell offers the Send-RFQ action. -/
def offersSendRFQ (cell : List Widget) : Bool :=
  cell.any (fun w => match w with
    | .button (.onSendRFQ _) => true
    | _ => false)

/-- Whether a cell offers the accept action of a quotation. -/
def offersAccept (cell : List Widget) : Bool :=
  cell.any (fun w => match w with
    | .button (.onAccept _ _ _) => true
    | _ => false)

namespace QuotationsManagementView

/-- The actions cell of a row of `QuotationsManagementView`. -/
def rowActions (quote : Quotation) : List Widget :=
  [.button (.handleViewDetails quote)] ++
  (if quote.status == "submitted" then
      [.button (.onAccept quote.id quote.rfq true), .button (.handleReject quote)] else []) ++
  (if quote.status == "accepted" then [.label "✓ Accepted"] else []) ++
  (if quote.status == "rejected" then [.label "✗ Rejected"] else [])

end QuotationsManagementView

namespace QuotationDetailsModal

/-- The actions bar of `QuotationDetailsModal`, with the `onAccept` and
`onReject` props as `QuotationsManagementView` passes them for the selected
quotation. -/
def modalActions (quotation : Quotation) : List Widget :=
  (if quotation.status == "submitted" then
      [.button (.onAccept quotation.id quotation.rfq true), .button (.handleReject quotation)]
    else []) ++
  [.button .onClose]

end QuotationDetailsModal

/-! ## Reject and Send-RFQ modals -/

/-- The code points `String.prototype.trim` strips: the ECMAScript `WhiteSpace`
(TAB, VT, FF, ZWNBSP and the Unicode space separators) and `LineTerminator`
(LF, CR, LS, PS) productions. -/
def isJsWhitespace (c : Char) : Bool :=
  let n := c.toNat
  n == 0x9 || n == 0xA || n == 0xB || n == 0xC || n == 0xD || n == 0x20 || n == 0xA0 ||
  n == 0x1680 || (0x2000 ≤ n && n ≤ 0x200A) || n == 0x2028 || n == 0x2029 || n == 0x202F ||
  n == 0x205F || n == 0x3000 || n == 0xFEFF

/-- JavaScript `s.trim()`: whitespace removed from both ends. -/
def jsTrim (s : String) : String :=
  String.mk ((s.data.dropWhile isJsWhitespace).reverse.dropWhile isJsWhitespace).reverse

/-- Whether a string is empty or consists only of whitespace. -/
def isBlank (s : String) : Bool :=
  s.data.all isJsWhitespace

namespace RejectModal

/-- `RejectModal.handleSubmit` with the `reason` state: a reason whose trim is
the empty (falsy) string is refused with an alert; otherwise `onSubmit(reason)`
is awaited between the two `setLoading` calls. -/
def handleSubmit (reason : String) : List Effect :=
  if jsTrim reason == "" then
    [.alert "Please provide a rejection reason"]
  else
    [.setLoading true, .callback "onSubmit" [.str reason], .setLoading false]

end RejectModal

namespace RejectQuotationModal

/-- `RejectQuotationModal.handleSubmit` with the `reason` state (same text as
`RejectModal.handleSubmit`). -/
def handleSubmit (reason : String) : List Effect :=
  if jsTrim reason == "" then
    [.alert "Please provide a rejection reason"]
  else
    [.setLoading true, .callback "onSubmit" [.str reason], .setLoading false]

end RejectQuotationModal

/-- The calls of the prop callback `name` in a trace, with their arguments. -/
def callsOf (name : String) : List Effect → List (List Json)
  | [] => []
  | .callback n args :: es => if n == name then args :: callsOf name es else callsOf name es
  | _ :: es => callsOf name es

namespace SendRFQModal

/-- `SendRFQModal.handleSubmit` with the component state `selectedVendors`,
`responseDeadline` and `adminNotes`; `res` is the outcome of the `POST`. -/
def handleSubmit (request : PurchaseRequest) (selectedVendors : List Nat)
    (responseDeadline adminNotes : String) (res : FetchResult) : List Effect :=
  if selectedVendors.length == 0 then
    [.setError "Please select at least one vendor"]
  else
    [.setLoading true, .setError "",
      .fetch (apiFetch
        (API_BASE_URL ++ "/purchase-requests/" ++ toString request.id ++ "/send-rfq/")
        (some "POST")
        (some (.obj [
          ("vendor_ids", .arr (selectedVendors.map (fun v => Json.num v))),
          ("response_deadline",
            if responseDeadline == "" then .null else .str responseDeadline),
          ("admin_notes", .str adminNotes)])))] ++
    (match res with
      | .rejected message => [.setError ("Error: " ++ message)]
      | .resolved r =>
        match r.json with
        | .error message => [.setError ("Error: " ++ message)]
        | .ok data =>
          if r.ok then
            [.alert (data.message.getD "RFQ sent successfully!"), .callback "onSuccess" []]
          else [.setError data.stringified]) ++
    [.setLoading false]

end SendRFQModal

/-! ## Invoice screens: actions and status badge -/

/-- JavaScript `s.toUpperCase()` for the status words, which are ASCII: every
lower-case letter is replaced by its upper-case letter. -/
def toUpperCase (s : String) : String :=
  String.mk (s.data.map Char.toUpper)

/-- The comparison `new Date(d) < new Date()` of the invoice screens: `due` is
the time value of the first date (`none` when invalid, which compares false)
and `now` that of the current time. -/
def dateBefore (due : Option Int) (now : Int) : Bool :=
  match due with
  | none => false
  | some d => d < now

namespace InvoicesManagementView

/-- The local `isOverdue` of a row of `InvoicesManagementView`. -/
def isOverdue (invoice : Invoice) (now : Int) : Bool :=
  invoice.status != "paid" && dateBefore invoice.due_date now

/-- The text of the status badge of a row of `InvoicesManagementView`. -/
def statusBadge (invoice : Invoice) (now : Int) : String :=
  if isOverdue invoice now && invoice.status == "pending" then "OVERDUE"
  else toUpperCase invoice.status

/-- The actions cell of a row of `InvoicesManagementView`; `handleMarkAsPaid`
opens `PaymentModal` for the invoice. -/
def rowActions (invoice : Invoice) : List Widget :=
  [.button (.viewInvoice invoice), .button (.handleDownloadInvoice invoice)] ++
  (if invoice.invoice_file.isSome then [.button (.handleDownloadVendorFile invoice)] else []) ++
  (if invoice.status == "pending" then [.button (.handleApproveInvoice invoice.id)] else []) ++
  (if invoice.status == "approved" || invoice.status == "pending" then
      [.button (.handleMarkAsPaid invoice)] else [])

end InvoicesManagementView

namespace InvoiceDetailsModal

/-- The actions bar of `InvoiceDetailsModal`, with the `onApprove` and
`onMarkAsPaid` props as `InvoicesManagementView` passes them. -/
def modalActions (invoice : Invoice) : List Widget :=
  (if invoice.status == "pending" then [.button (.handleApproveInvoice invoice.id)] else []) ++
  (if invoice.status == "approved" || invoice.status == "pending" then
      [.button (.handleMarkAsPaid invoice)] else []) ++
  [.button .onClose]

end InvoiceDetailsModal

namespace AdminInvoices

/-- The footer of an invoice card of `AdminInvoices`. -/
def cardActions (inv : Invoice) : List Widget :=
  (if inv.status == "pending" then [.button (.handleApprove inv.id)] else []) ++
  (if inv.status == "approved" then [.button (.handleMarkPaid inv.id inv.total_amount)] else [])

end AdminInvoices

namespace InvoiceCard

/-- `InvoiceCard.isOverdue` of the vendor dashboard. -/
def isOverdue (invoice : Invoice) (now : Int) : Bool :=
  if invoice.status == "paid" then false
  else dateBefore invoice.due_date now

/-- The text of the status badge of the vendor's `InvoiceCard`. -/
def statusBadge (invoice : Invoice) (now : Int) : String :=
  if isOverdue invoice now && invoice.status == "pending" then "OVERDUE"
  else toUpperCase invoice.status

end InvoiceCard

/-- Whether a cell offers approving an invoice. -/
def offersApproveInvoice (cell : List Widget) : Bool :=
  cell.any (fun w => match w with
    | .button (.handleApproveInvoice _) => true
    | .button (.handleApprove _) => true
    | _ => false)

/-- Whether a cell offers marking an invoice paid, directly or by opening the
payment dialog. -/
def offersPayment (cell : List Widget) : Bool :=
  cell.any (fun w => match w with
    | .button (.handleMarkAsPaid _) => true
    | .button (.handleMarkPaid _ _) => true
    | _ => false)

/-- A pending invoice of 118500 that fell due at time 0. -/
def pendingInvoice : Invoice :=
  { id := 2, vendor := 1, status := "pending", total_amount := 118500, paid_amount := some 0,
    due_date := some 0 }

/-- An approved invoice of 118500 that fell due at time 0. -/
def approvedOverdueInvoice : Invoice :=
  { id := 3, vendor := 1, status := "approved", total_amount := 118500, paid_amount := some 0,
    due_date := some 0 }

/-! ## Vendor dashboard: invoices -/

/-- A purchase order as the dashboards receive it, reduced to the fields the
handlers and tables read; the amounts may be missing. -/
structure PurchaseOrder where
  id : Nat
  po_number : String
  status : String
  subtotal : Option ℚ
  tax_amount : Option ℚ
  total_amount : Option ℚ
  has_invoice : Bool

/-- The `formData` state of `InvoiceCreateModal`; the dates are the values of
the two date inputs, `YYYY-MM-DD`. -/
structure InvoiceFormData where
  invoice_number : String
  invoice_date : String
  due_date : String
  notes : String

namespace VendorDashboard

/-- The `POST` to `vendor-dashboard/create_invoice/` both invoice paths of the
vendor dashboard send, with the CSRF header. `VendorDashboard.jsx` declares the
same `API_BASE_URL` as `AdminDashboard.jsx`. -/
def createInvoiceRequest (payload : Json) : Request :=
  { method := "POST"
    url := API_BASE_URL ++ "/vendor-dashboard/create_invoice/"
    body := some payload
    csrf := true }

namespace InvoiceCreateModal

/-- The `payload` object of `InvoiceCreateModal.handleSubmit`. -/
def payload (po : PurchaseOrder) (formData : InvoiceFormData) : Json :=
  .obj [
    ("invoice_number", .str formData.invoice_number),
    ("purchase_order", .num po.id),
    ("invoice_date", .str formData.invoice_date),
    ("due_date", .str formData.due_date),
    ("subtotal", .num (parseFloatOr0 po.subtotal)),
    ("tax_amount", .num (parseFloatOr0 po.tax_amount)),
    ("total_amount", .num (parseFloatOr0 po.total_amount)),
    ("notes", .str formData.notes),
    ("status", .str "pending")]

/-- `InvoiceCreateModal.handleSubmit`: the request is sent without any check
of the form; `res.json()` is awaited before `res.ok` is read. -/
def handleSubmit (po : PurchaseOrder) (formData : InvoiceFormData) (res : FetchResult) :
    List Effect :=
  [.setLoading true, .setError "", .fetch (createInvoiceRequest (payload po formData))] ++
  (match res with
    | .rejected message => [.setError ("Failed to create invoice: " ++ message)]
    | .resolved r =>
      match r.json with
      | .error message => [.setError ("Failed to create invoice: " ++ message)]
      | .ok data =>
        if r.ok then [.alert "Invoice created successfully!", .callback "onSuccess" []]
        else [.setError (data.error.getD data.stringified)]) ++
  [.setLoading false]

end InvoiceCreateModal

namespace DeliveryStatusModal

/-- `DeliveryStatusModal.autoCreateInvoice(purchaseOrder)` of the vendor
dashboard. `now` is the clock reading `Date.now()` in milliseconds (the three
readings of the function are taken as one instant) and `isoDay t` stands for
`new Date(t).toISOString().split('T')[0]`. The outcome is only logged. -/
def autoCreateInvoice (purchaseOrder : PurchaseOrder) (now : Nat) (isoDay : Nat → String) :
    List Effect :=
  let invoiceData : Json := .obj [
    ("invoice_number", .str ("INV-" ++ toString now)),
    ("purchase_order", .num purchaseOrder.id),
    ("invoice_date", .str (isoDay now)),
    ("due_date", .str (isoDay (now + 30 * 24 * 60 * 60 * 1000))),
    ("subtotal", .num (parseFloatOr0 purchaseOrder.subtotal)),
    ("tax_amount", .num (parseFloatOr0 purchaseOrder.tax_amount)),
    ("total_amount", .num (parseFloatOr0 purchaseOrder.total_amount)),
    ("notes", .str "Auto-generated invoice upon delivery confirmation"),
    ("status", .str "pending")]
  [.fetch (createInvoiceRequest invoiceData)]

end DeliveryStatusModal

end VendorDashboard

/-- Lexicographic order on lists of code points. -/
def codesBefore : List Nat → List Nat → Bool
  | [], [] => false
  | [], _ :: _ => true
  | _ :: _, [] => false
  | x :: xs, y :: ys => x < y || (x == y && codesBefore xs ys)

/-- Whether the day `a` is earlier than the day `b`, both written `YYYY-MM-DD`:
for this fixed-width form the order of the texts is the order of the days. -/
def isoDateBefore (a b : String) : Bool :=
  codesBefore (a.data.map Char.toNat) (b.data.map Char.toNat)

/-- The delivered purchase order of the end-to-end scenario of §8. -/
def samplePO : PurchaseOrder :=
  { id := 4, po_number := "PO-0004", status := "delivered", subtotal := some 100000,
    tax_amount := some 18000, total_amount := some 118500, has_invoice := false }

/-! ## Employee dashboard: delivery status -/

namespace EmployeeDashboard

namespace DeliveryStatusView

/-- `DeliveryStatusView.fetchAssignedPOs`: `res` is the outcome of the `GET`
and `count` the number of orders in an `ok` answer. -/
def fetchAssignedPOs (res : FetchResult) (count : Nat) : List Effect :=
  [.setLoading true, .setError "",
    .fetch (apiFetch (API_BASE_URL ++ "/purchase-orders/assigned/") none none)] ++
  (match res with
    | .rejected message => [.setError ("Error loading purchase orders: " ++ message)]
    | .resolved r =>
      match r.json with
      | .error message => [.setError ("Error loading purchase orders: " ++ message)]
      | .ok data =>
        if r.ok then
          (if count == 0 then [.setError "No purchase orders assigned to you"] else [])
        else [.setError ("Failed to load purchase orders: " ++ data.stringified)]) ++
  [.setLoading false]

/-- `DeliveryStatusView.handleUpdateStatus` with the state `selectedPO` (`none`
for the blank option) and `selectedStatus` (empty for the blank option); `res`
is the outcome of the `POST`, `reload` and `count` those of the
`fetchAssignedPOs()` that follows a success. The body holds the status only.
The setters `setUpdating` and `setSuccess` are left out. -/
def handleUpdateStatus (selectedPO : Option Nat) (selectedStatus : String)
    (res reload : FetchResult) (count : Nat) : List Effect :=
  match selectedPO with
  | none => [.setError "Please select a purchase order"]
  | some poId =>
    if selectedStatus == "" then [.setError "Please select a status"]
    else
      [.setError "",
        .fetch (apiFetch
          (API_BASE_URL ++ "/purchase-orders/" ++ toString poId ++ "/update-status/")
          (some "POST")
          (some (.obj [("status", .str selectedStatus)])))] ++
      (match res with
        | .rejected message => [.setError ("Error updating status: " ++ message)]
        | .resolved r =>
          if r.ok then fetchAssignedPOs reload count
          else
            match r.json with
            | .error message => [.setError ("Error updating status: " ++ message)]
            | .ok errorData =>
              [.setError ("Failed to update status: " ++
                errorData.error.getD errorData.stringified)])

end DeliveryStatusView

namespace DeliveryStatusModal

/-- `DeliveryStatusModal.handleSubmit` of the employee dashboard with the
state `status` and `reason`; the body holds both as they are. -/
def handleSubmit (po : PurchaseOrder) (status reason : String) (res : FetchResult) :
    List Effect :=
  [.setLoading true,
    .fetch (apiFetch
      (API_BASE_URL ++ "/purchase-orders/" ++ toString po.id ++ "/update-status/")
      (some "POST")
      (some (.obj [("status", .str status), ("reason", .str reason)])))] ++
  (match res with
    | .rejected message => [.alert ("Error: " ++ message)]
    | .resolved r =>
      if r.ok then [.alert "Delivery status updated successfully!", .callback "onSuccess" []]
      else [.alert "Failed to update status"]) ++
  [.setLoading false]

/-- Whether the modal renders its `required` "Reason for Delay" textarea. -/
def showsReasonField (status : String) : Bool :=
  status == "delayed"

end DeliveryStatusModal

end EmployeeDashboard

/-- Whether a request is an update-status request with status `delayed` that
carries no reason or an empty one. -/
def delayedWithoutReason (req : Request) : Bool :=
  match req.body with
  | none => false
  | some body =>
    (match body.get? "status" with
      | some (.str s) => s == "delayed"
      | _ => false) &&
    (match body.get? "reason" with
      | some (.str r) => r == ""
      | _ => true)

/-! ## Vendor dashboard: quotations -/

/-- The `formData` state of `QuotationModal`; numeric inputs may be blank. -/
structure QuotationFormData where
  unit_price : Option ℚ
  quantity : Option ℚ
  tax_rate : Option ℚ
  shipping_cost : Option ℚ
  estimated_delivery_days : Option ℚ
  quotation_valid_until : String
  payment_terms : String
  warranty_terms : String
  additional_notes : String

/-- The JSON value of a numeric form field: its number, or the empty text of a
blank input. -/
def jsonOfField (x : Option ℚ) : Json :=
  match x with
  | none => .str ""
  | some q => .num q

/-- An RFQ as the vendor dashboard receives it. -/
structure VendorRFQ where
  id : Nat
  status : String
  has_quotation : Bool

namespace VendorDashboard

namespace QuotationModal

/-- `JSON.stringify(formData)` of `QuotationModal`. -/
def body (formData : QuotationFormData) : Json :=
  .obj [
    ("unit_price", jsonOfField formData.unit_price),
    ("quantity", jsonOfField formData.quantity),
    ("tax_rate", jsonOfField formData.tax_rate),
    ("shipping_cost", jsonOfField formData.shipping_cost),
    ("estimated_delivery_days", jsonOfField formData.estimated_delivery_days),
    ("quotation_valid_until", .str formData.quotation_valid_until),
    ("payment_terms", .str formData.payment_terms),
    ("warranty_terms", .str formData.warranty_terms),
    ("additional_notes", .str formData.additional_notes)]

/-- `QuotationModal.handleSubmit`: the form state is sent as it is. -/
def handleSubmit (rfq : VendorRFQ) (formData : QuotationFormData) (res : FetchResult) :
    List Effect :=
  [.setLoading true, .setError "",
    .fetch { method := "POST"
             url := API_BASE_URL ++ "/vendor-dashboard/" ++ toString rfq.id
                      ++ "/submit_quotation/"
             body := some (body formData)
             csrf := true }] ++
  (match res with
    | .rejected message => [.setError ("Failed to submit quotation: " ++ message)]
    | .resolved r =>
      if r.ok then [.alert "Quotation submitted successfully!", .callback "onSuccess" []]
      else
        match r.json with
        | .error message => [.setError ("Failed to submit quotation: " ++ message)]
        | .ok data => [.setError data.stringified]) ++
  [.setLoading false]

end QuotationModal

namespace RFQCard

/-- The footer of the vendor's `RFQCard`. -/
def footer (rfq : VendorRFQ) : List Widget :=
  if rfq.status == "sent" && !rfq.has_quotation then
    [.button (.onSubmitQuotation rfq.id)]
  else if rfq.has_quotation then
    [.disabledButton "✅ Quotation Submitted"]
  else
    [.disabledButton
      (if rfq.status == "accepted" then "✅ Accepted"
       else if rfq.status == "rejected" then "❌ Rejected"
       else "Response Sent")]

end RFQCard

end VendorDashboard

/-- Whether a cell offers the Submit-Quotation action. -/
def offersSubmitQuotation (cell : List Widget) : Bool :=
  cell.any (fun w => match w with
    | .button (.onSubmitQuotation _) => true
    | _ => false)

/-- A quotation form that is valid except for a negative unit price. -/
def negativePriceQuotation : QuotationFormData :=
  { unit_price := some (-5), quantity := some 2, tax_rate := some 18, shipping_cost := some 0,
    estimated_delivery_days := some 7, quotation_valid_until := "2099-12-31",
    payment_terms := "Net 30", warranty_terms := "", additional_notes := "" }

/-! ## Purchase orders: deletion -/

namespace PurchaseOrdersView

/-- `PurchaseOrdersView.fetchOrders`: one `GET` between the two `setLoading`
calls. -/
def fetchOrders : List Effect :=
  [.setLoading true, .fetch (apiFetch (API_BASE_URL ++ "/purchase-orders/") none none),
   .setLoading false]

/-- `PurchaseOrdersView.handleDelete(id, poNumber)`: `confirmed` is the answer
to `window.confirm` and `res` the outcome of the `DELETE`. -/
def handleDelete (id : Nat) (poNumber : String) (confirmed : Bool) (res : FetchResult) :
    List Effect :=
  .confirm ("Delete Purchase Order " ++ poNumber ++ "?") ::
    if !confirmed then []
    else
      .fetch (apiFetch (API_BASE_URL ++ "/purchase-orders/" ++ toString id ++ "/")
        (some "DELETE") none) ::
        match res with
        | .rejected message => [.alert ("Error: " ++ message)]
        | .resolved r =>
          if r.ok then .alert "Purchase Order deleted successfully!" :: fetchOrders
          else [.alert "Failed to delete purchase order"]

/-- The actions cell of a row of `PurchaseOrdersView`: the three buttons are
rendered for every order. -/
def rowActions (order : PurchaseOrder) : List Widget :=
  [.button (.viewOrder order.id), .button (.handleEdit order.id),
   .button (.handleDelete order.id order.po_number)]

/-- The delete action of a row: a click on its Delete button, if there is one,
runs `handleDelete` with the arguments the button passes. -/
def deleteAction (order : PurchaseOrder) (confirmed : Bool) (res : FetchResult) :
    List Effect :=
  match (rowActions order).find? (fun w => match w with
      | .button (.handleDelete _ _) => true
      | _ => false) with
  | some (.button (.handleDelete id poNumber)) => handleDelete id poNumber confirmed res
  | _ => []

end PurchaseOrdersView

/-- Whether a cell offers the delete action. -/
def offersDelete (cell : List Widget) : Bool :=
  cell.any (fun w => match w with
    | .button (.handleDelete _ _) => true
    | _ => false)

/-- Whether a line item has a product and a quantity entered that is greater
than `0`. -/
def itemHasProductAndQuantity (item : LineItem) : Bool :=
  item.product.isSome &&
  (match item.quantity with
    | none => false
    | some q => decide (0 < q))

/-- A delivered purchase order. -/
def deliveredOrder : PurchaseOrder :=
  { id := 9, po_number := "PO-0009", status := "delivered", subtotal := some 100,
    tax_amount := some 18, total_amount := some 118, has_invoice := true }

/-! ## Routing: ProtectedRoute, Login and App -/

/-- The object kept under `user` in `localStorage`, as far as the routing reads
it; a field is `none` when absent. -/
structure StoredUser where
  username : Option String
  role : Option String

/-- What a route element renders: its children or a `<Navigate to=... />`. -/
inductive RouteResult where
  | children
  | navigate (path : String)
  deriving DecidableEq

/-- JavaScript truthiness of an optional text: present and not empty. -/
def truthy (s : Option String) : Bool :=
  match s with
  | none => false
  | some t => t != ""

/-- `ProtectedRoute({ children, allowedRoles })`. `user` is the value of
`JSON.parse(localStorage.getItem('user') || '{}')`: `none` for JSON `null`, and
the object without fields when nothing is stored. `allowedRoles` is `none` when
the prop is not given. -/
def ProtectedRoute (user : Option StoredUser) (allowedRoles : Option (List String)) :
    RouteResult :=
  match user with
  | none => .navigate "/"
  | some u =>
    if !truthy u.username then .navigate "/"
    else
      match allowedRoles with
      | none => .children
      | some roles =>
        if !(match u.role with
              | none => false
              | some r => roles.contains r) then
          if u.role == some "admin" then .navigate "/admin-dashboard"
          else if u.role == some "employee" then .navigate "/employee-dashboard"
          else if u.role == some "vendor" then .navigate "/vendor-dashboard"
          else .navigate "/"
        else .children

namespace Login

/-- The path `Login.handleLogin` navigates to for `data.user.role`. -/
def landingPath (userRole : Option String) : String :=
  if userRole == some "admin" then "/admin-dashboard"
  else if userRole == some "employee" then "/employee-dashboard"
  else if userRole == some "vendor" then "/vendor-dashboard"
  else "/employee-dashboard"

/-- `Login.handleLogin` with the state `username` and `password`; `res` is the
outcome of the `POST`, and for an `ok` answer `dataUser` is `data.user` (`none`
when the answer has none, so that reading `data.user.role` throws) and
`userJson` the text `JSON.stringify(data.user)` kept under `user`. -/
def handleLogin (username password : String) (res : FetchResult)
    (dataUser : Option StoredUser) (userJson : String) : List Effect :=
  [.setError "", .setLoading true,
    .fetch { method := "POST"
             url := API_BASE_URL ++ "/auth/login/"
             body := some (.obj [("username", .str username), ("password", .str password)])
             csrf := false }] ++
  (match res with
    | .rejected _ => [.setError "Network error. Please check if Django server is running."]
    | .resolved r =>
      match r.json with
      | .error _ => [.setError "Network error. Please check if Django server is running."]
      | .ok data =>
        if r.ok then
          match dataUser with
          | none =>
            [.setItem "user" userJson,
              .setError "Network error. Please check if Django server is running."]
          | some user => [.setItem "user" userJson, .navigate (landingPath user.role)]
        else [.setError (data.error.getD "Invalid credentials")]) ++
  [.setLoading false]

end Login

namespace App

/-- The routes of `App`: the path and, for an element wrapped in
`ProtectedRoute`, its `allowedRoles`. -/
def routes : List (String × Option (List String)) :=
  [("/", none),
   ("/vendor-register", none),
   ("/admin-dashboard", some ["admin"]),
   ("/employee-dashboard", some ["employee"]),
   ("/vendor-dashboard", some ["vendor"])]

/-- What `App` renders at a path for the stored user: `none` when no route
matches, the page itself for an unprotected route, and the result of
`ProtectedRoute` for a protected one. -/
def render (path : String) (user : Option StoredUser) : Option RouteResult :=
  match routes.lookup path with
  | none => none
  | some none => some .children
  | some (some roles) => some (ProtectedRoute user (some roles))

/-- The paths of the protected routes. -/
def protectedPaths : List String :=
  (routes.filter (fun r => r.2.isSome)).map Prod.fst

end App

/-! ## SendRFQModal: vendor selection -/

namespace SendRFQModal

/-- The state update of `SendRFQModal.handleVendorToggle(vendorId)`. -/
def handleVendorToggle (prev : List Nat) (vendorId : Nat) : List Nat :=
  if prev.contains vendorId then prev.filter (fun id => id != vendorId)
  else prev ++ [vendorId]

end SendRFQModal

/-! ## Vendor registration -/

/-- JavaScript `s.length`: the number of UTF-16 code units, two for a code
point above `0xFFFF`. -/
def jsLength (s : String) : Nat :=
  (s.data.map (fun c => if c.toNat > 0xFFFF then 2 else 1)).sum

/-- The `formData` state of `VendorRegister`. -/
structure VendorRegisterData where
  company_name : String
  contact_person : String
  username : String
  email : String
  phone : String
  password : String
  confirm_password : String
  address : String
  city : String
  state : String
  postal_code : String
  country : String
  tax_id : String

namespace VendorRegister

/-- The object `dataToSend` of `VendorRegister.handleSubmit`: the form data
without `confirm_password`. -/
def dataToSend (formData : VendorRegisterData) : Json :=
  .obj [
    ("company_name", .str formData.company_name),
    ("contact_person", .str formData.contact_person),
    ("username", .str formData.username),
    ("email", .str formData.email),
    ("phone", .str formData.phone),
    ("password", .str formData.password),
    ("address", .str formData.address),
    ("city", .str formData.city),
    ("state", .str formData.state),
    ("postal_code", .str formData.postal_code),
    ("country", .str formData.country),
    ("tax_id", .str formData.tax_id)]

/-- `VendorRegister.handleSubmit`; the request is a plain `fetch` without the
CSRF header, and `res.json()` is awaited before `res.ok` is read. The delayed
`navigate('/')` is recorded as a navigation. -/
def handleSubmit (formData : VendorRegisterData) (res : FetchResult) : List Effect :=
  [.setError "", .setSuccess "", .setLoading true] ++
  (if formData.password != formData.confirm_password then
    [.setError "Passwords do not match", .setLoading false]
  else if jsLength formData.password < 8 then
    [.setError "Password must be at least 8 characters long", .setLoading false]
  else
    [.fetch { method := "POST"
              url := API_BASE_URL ++ "/vendor/register/"
              body := some (dataToSend formData)
              csrf := false }] ++
    (match res with
      | .rejected message => [.setError ("Network error: " ++ message)]
      | .resolved r =>
        match r.json with
        | .error message => [.setError ("Network error: " ++ message)]
        | .ok data =>
          if r.ok then [.setSuccess (data.message.getD ""), .navigate "/"]
          else [.setError (data.error.getD "Registration failed")]) ++
    [.setLoading false])

end VendorRegister

/-! ## Field validation: character classes and anchored patterns -/

/-- The class `[A-Z]`. -/
def isUpperAZ (c : Char) : Bool :=
  65 ≤ c.toNat && c.toNat ≤ 90

/-- The class `[a-z]`. -/
def isLowerAZ (c : Char) : Bool :=
  97 ≤ c.toNat && c.toNat ≤ 122

/-- The class `[0-9]`. -/
def isDigit09 (c : Char) : Bool :=
  48 ≤ c.toNat && c.toNat ≤ 57

/-- The class `[A-Za-z]`. -/
def isLetter (c : Char) : Bool :=
  isUpperAZ c || isLowerAZ c

/-- The class `[A-Za-z0-9]`. -/
def isAlnum (c : Char) : Bool :=
  isLetter c || isDigit09 c

/-- One factor of an anchored pattern: a character class repeated at least `lo`
and, when `hi` is given, at most `hi` times. A literal is a class of one
character with `lo = hi = 1`; `+` is `lo = 1` without `hi`. -/
structure Atom where
  cls : Char → Bool
  lo : Nat
  hi : Option Nat

/-- `regex.test(s)` for an anchored pattern `/^A₁A₂…Aₙ$/` given by its factors:
the text splits into consecutive pieces, the `i`-th made of characters of the
class of `Aᵢ` and of a length its repetition allows. -/
def matchAtoms : List Atom → List Char → Bool
  | [], s => s.isEmpty
  | a :: rest, s =>
    (List.range (s.length + 1)).any (fun n =>
      decide (a.lo ≤ n) &&
      (match a.hi with
        | none => true
        | some h => decide (n ≤ h)) &&
      (s.take n).all a.cls &&
      matchAtoms rest (s.drop n))

/-- The factor `[cls]+`. -/
def Atom.plus (cls : Char → Bool) : Atom :=
  { cls := cls, lo := 1, hi := none }

/-- The factor for one literal character. -/
def Atom.lit (c : Char) : Atom :=
  { cls := fun x => x == c, lo := 1, hi := some 1 }

/-! ### The admin's EmployeeForm validators -/

/-- The `formData` state of the admin's `EmployeeForm`. -/
structure EmployeeFormData where
  username : String
  email : String
  first_name : String
  last_name : String
  department : String
  position : String
  phone : String

namespace EmployeeForm

/-- `validateName(name, fieldName)`: the error text, empty when valid. The
pattern is `/^[A-Za-z\s]+$/`. -/
def validateName (name fieldName : String) : String :=
  if name == "" || jsTrim name == "" then fieldName ++ " is required"
  else if !matchAtoms [Atom.plus (fun c => isLetter c || isJsWhitespace c)] name.data then
    fieldName ++ " should contain only alphabets and spaces"
  else if jsLength (jsTrim name) < 2 then fieldName ++ " should be at least 2 characters"
  else if jsLength (jsTrim name) > 50 then fieldName ++ " should not exceed 50 characters"
  else ""

/-- `validateUsername(username)`; the pattern is `/^[a-zA-Z0-9_]+$/`. -/
def validateUsername (username : String) : String :=
  if username == "" || jsTrim username == "" then "Username is required"
  else if !matchAtoms [Atom.plus (fun c => isAlnum c || c == '_')] username.data then
    "Username can only contain letters, numbers, and underscores"
  else if jsLength username < 3 then "Username should be at least 3 characters"
  else if jsLength username > 20 then "Username should not exceed 20 characters"
  else ""

/-- The local part class `[a-zA-Z0-9._%+-]` of the admin's e-mail pattern. -/
def emailLocalClass (c : Char) : Bool :=
  isAlnum c || c == '.' || c == '_' || c == '%' || c == '+' || c == '-'

/-- The domain class `[a-zA-Z0-9.-]` of both e-mail patterns. -/
def emailDomainClass (c : Char) : Bool :=
  isAlnum c || c == '.' || c == '-'

/-- The pattern `/^[a-zA-Z0-9._%+-]+@[a-zA-Z0-9.-]+\.[a-zA-Z]{2,}$/`. -/
def emailRegex : List Atom :=
  [Atom.plus emailLocalClass, Atom.lit '@', Atom.plus emailDomainClass, Atom.lit '.',
   { cls := isLetter, lo := 2, hi := none }]

/-- `validateEmail(email)`. -/
def validateEmail (email : String) : String :=
  if email == "" || jsTrim email == "" then "Email is required"
  else if !matchAtoms emailRegex email.data then "Please enter a valid email address"
  else ""

/-- The characters `phone.replace(/[\s\-()+ ]/g, '')` removes. -/
def phoneStripped (c : Char) : Bool :=
  isJsWhitespace c || c == '-' || c == '(' || c == ')' || c == '+' || c == ' '

/-- `validatePhone(phone)`; the cleaned text is tested with `/^[0-9]{10,15}$/`. -/
def validatePhone (phone : String) : String :=
  if phone != "" && jsTrim phone != "" then
    let cleanPhone := phone.data.filter (fun c => !phoneStripped c)
    if !matchAtoms [{ cls := isDigit09, lo := 10, hi := some 15 }] cleanPhone then
      "Phone number should contain 10-15 digits"
    else ""
  else ""

/-- The class `[A-Za-z\s&-]` of the department and position patterns. -/
def departmentClass (c : Char) : Bool :=
  isLetter c || isJsWhitespace c || c == '&' || c == '-'

/-- `validateDepartment(department)`. -/
def validateDepartment (department : String) : String :=
  if department != "" && jsTrim department != "" then
    if !matchAtoms [Atom.plus departmentClass] department.data then
      "Department should contain only alphabets, spaces, hyphens, and &"
    else if jsLength (jsTrim department) > 100 then
      "Department name should not exceed 100 characters"
    else ""
  else ""

/-- `validatePosition(position)`. -/
def validatePosition (position : String) : String :=
  if position != "" && jsTrim position != "" then
    if !matchAtoms [Atom.plus departmentClass] position.data then
      "Position should contain only alphabets, spaces, hyphens, and &"
    else if jsLength (jsTrim position) > 100 then
      "Position should not exceed 100 characters"
    else ""
  else ""

/-- `EmployeeForm.validateForm`: the `errors` object after the empty messages
are deleted, as a list of field and message; the form is valid when it is
empty. -/
def validateForm (formData : EmployeeFormData) : List (String × String) :=
  [("username", validateUsername formData.username),
   ("email", validateEmail formData.email),
   ("first_name", validateName formData.first_name "First name"),
   ("last_name", validateName formData.last_name "Last name"),
   ("phone", validatePhone formData.phone),
   ("department", validateDepartment formData.department),
   ("position", validatePosition formData.position)].filter (fun e => e.2 != "")

end EmployeeForm

/-! ### The employee dashboard's ValidationRules -/

/-- The names of the rules of `ValidationRules` used by the profile and
password forms. The rules `quantity` and `username`, which these forms never
ask for, are left out. -/
inductive RuleName where
  | name
  | email
  | phone
  | department
  | position
  | password

namespace ValidationRules

/-- `ValidationRules.name.test`: `/^[a-zA-Z\s]+$/` and a non-empty trim. -/
def nameTest (value : String) : Bool :=
  matchAtoms [Atom.plus (fun c => isLetter c || isJsWhitespace c)] value.data &&
  decide (jsLength (jsTrim value) > 0)

/-- The local part class `[a-zA-Z0-9._%-]` of the employee's e-mail pattern. -/
def emailLocalClass (c : Char) : Bool :=
  isAlnum c || c == '.' || c == '_' || c == '%' || c == '-'

/-- `ValidationRules.email.test`:
`/^[a-zA-Z0-9._%-]+@[a-zA-Z0-9.-]+\.[a-zA-Z]{2,}$/`. -/
def emailTest (value : String) : Bool :=
  matchAtoms
    [Atom.plus emailLocalClass, Atom.lit '@', Atom.plus EmployeeForm.emailDomainClass,
     Atom.lit '.', { cls := isLetter, lo := 2, hi := none }] value.data

/-- The characters `value.replace(/[\s\-()]/g, '')` removes. -/
def phoneStripped (c : Char) : Bool :=
  isJsWhitespace c || c == '-' || c == '(' || c == ')'

/-- `ValidationRules.phone.test`: a blank value passes; else the cleaned text
is tested with `/^\+?[0-9]{7,15}$/`. -/
def phoneTest (value : String) : Bool :=
  if jsTrim value == "" then true
  else
    let cleanPhone := value.data.filter (fun c => !phoneStripped c)
    matchAtoms [{ cls := fun c => c == '+', lo := 0, hi := some 1 },
                { cls := isDigit09, lo := 7, hi := some 15 }] cleanPhone

/-- The class `[a-zA-Z0-9\s&-]` of the department and position rules. -/
def departmentClass (c : Char) : Bool :=
  isAlnum c || isJsWhitespace c || c == '&' || c == '-'

/-- `ValidationRules.department.test`. -/
def departmentTest (value : String) : Bool :=
  if jsTrim value == "" then true
  else matchAtoms [Atom.plus departmentClass] value.data

/-- `ValidationRules.position.test`. -/
def positionTest (value : String) : Bool :=
  if jsTrim value == "" then true
  else matchAtoms [Atom.plus departmentClass] value.data

/-- `ValidationRules.password.test`: at least 8 code units and a match of each
of `/[A-Z]/`, `/[a-z]/`, `/[0-9]/` and `/[^A-Za-z0-9]/`. -/
def passwordTest (value : String) : Bool :=
  if jsLength value < 8 then false
  else value.data.any isUpperAZ && value.data.any isLowerAZ && value.data.any isDigit09
    && value.data.any (fun c => !isAlnum c)

/-- The `test` function of a rule. -/
def test : RuleName → String → Bool
  | .name => nameTest
  | .email => emailTest
  | .phone => phoneTest
  | .department => departmentTest
  | .position => positionTest
  | .password => passwordTest

/-- The `message` of a rule. -/
def message : RuleName → String
  | .name => "Name can only contain letters and spaces"
  | .email => "Please enter a valid email address"
  | .phone => "Phone can only contain numbers, +, -, spaces, and parentheses"
  | .department => "Department can only contain letters, numbers, spaces, & and -"
  | .position => "Position can only contain letters, numbers, spaces, & and -"
  | .password => "Password must be at least 8 characters with uppercase, lowercase, number, and special character"

end ValidationRules

/-- `validateField(fieldName, value)` of `EmployeeDashboard.jsx`: `isValid` and
the message, empty when valid. -/
def validateField (fieldName : RuleName) (value : String) : Bool × String :=
  let isValid := ValidationRules.test fieldName value
  (isValid, if isValid then "" else ValidationRules.message fieldName)

/-- The `formData` state of the employee's `EditProfileForm`. -/
structure ProfileFormData where
  first_name : String
  last_name : String
  email : String
  department : String
  position : String
  phone : String

namespace EditProfileForm

/-- The check of a required field of `EditProfileForm.validateForm`. -/
def requiredField (field label : String) (rule : RuleName) (value : String) :
    List (String × String) :=
  if jsTrim value == "" then [(field, label ++ " is required")]
  else if !(validateField rule value).1 then [(field, (validateField rule value).2)]
  else []

/-- The check of an optional field of `EditProfileForm.validateForm`. -/
def optionalField (field : String) (rule : RuleName) (value : String) :
    List (String × String) :=
  if jsTrim value != "" then
    if !(validateField rule value).1 then [(field, (validateField rule value).2)] else []
  else []

/-- `EditProfileForm.validateForm`: the `newErrors` object as a list of field
and message; the form is valid when it is empty. -/
def validateForm (formData : ProfileFormData) : List (String × String) :=
  requiredField "first_name" "First name" .name formData.first_name ++
  requiredField "last_name" "Last name" .name formData.last_name ++
  requiredField "email" "Email" .email formData.email ++
  optionalField "department" .department formData.department ++
  optionalField "position" .position formData.position ++
  optionalField "phone" .phone formData.phone

end EditProfileForm

/-- The profile an employee sees for a record the admin saved. -/
def profileOf (formData : EmployeeFormData) : ProfileFormData :=
  { first_name := formData.first_name, last_name := formData.last_name,
    email := formData.email, department := formData.department,
    position := formData.position, phone := formData.phone }

/-! ### ChangePasswordForm -/

/-- The `formData` state of `ChangePasswordForm`. -/
structure PasswordFormData where
  current_password : String
  new_password : String
  confirm_password : String

namespace ChangePasswordForm

/-- `ChangePasswordForm.checkPasswordStrength(password)`. -/
def checkPasswordStrength (password : String) : String :=
  if jsLength password == 0 then ""
  else if jsLength password < 6 then "weak"
  else if jsLength password < 10 then "medium"
  else if decide (jsLength password ≥ 10) && password.data.any isUpperAZ
      && password.data.any isDigit09 && password.data.any (fun c => !isAlnum c) then "strong"
  else "medium"

/-- `ChangePasswordForm.validatePasswords`: the `newErrors` object as a list of
field and message; it returns `true` when the list is empty. -/
def validatePasswords (formData : PasswordFormData) : List (String × String) :=
  (if formData.current_password == "" then
      [("current_password", "Current password is required")] else []) ++
  (if formData.new_password == "" then [("new_password", "New password is required")]
   else if jsLength formData.new_password < 8 then
      [("new_password", "Password must be at least 8 characters long")]
   else if !(validateField .password formData.new_password).1 then
      [("new_password", (validateField .password formData.new_password).2)]
   else []) ++
  (if formData.confirm_password == "" then
      [("confirm_password", "Please confirm your password")]
   else if formData.new_password != formData.confirm_password then
      [("confirm_password", "Passwords do not match")]
   else [])

end ChangePasswordForm

/-- Whether a list of errors has one for the given field. -/
def hasErrorOn (field : String) (errors : List (String × String)) : Bool :=
  errors.any (fun e => e.1 == field)

/-- An employee record with a plus sign in the e-mail address. -/
def plusEmailEmployee : EmployeeFormData :=
  { username := "jdoe", email := "j+d@ex.io", first_name := "John", last_name := "Doe",
    department := "IT", position := "", phone := "" }

/-- An employee record with a plus sign inside the phone number. -/
def plusPhoneEmployee : EmployeeFormData :=
  { username := "jdoe", email := "jd@ex.io", first_name := "John", last_name := "Doe",
    department := "IT", position := "", phone := "12345+67890" }

/-- An employee record as the placeholder of the phone field suggests. -/
def plainEmployee : EmployeeFormData :=
  { username := "jdoe", email := "jd@ex.io", first_name := "John", last_name := "Doe",
    department := "IT", position := "", phone := "+1 555 123-4567" }

/-! ## Reports: vendor performance -/

/-- A vendor as `fetchReportData` reads it. -/
structure VendorRec where
  id : Nat
  company_name : String
  vendor_code : String

/-- A purchase order as `fetchReportData` reads it. A date field is `none`
when absent or empty, `some none` when its text is not a date and
`some (some t)` for the time value `t` of `new Date(text)`. -/
structure OrderRec where
  id : Nat
  vendor : Option Nat
  status : String
  actual_delivery_date : Option (Option Int)
  expected_delivery_date : Option (Option Int)
  delivery_deadline : Option (Option Int)

/-- A goods receipt as `fetchReportData` reads it. -/
structure ReceiptRec where
  purchase_order : Option Nat
  condition : String

/-- The counters kept per vendor in `vendorMap`. -/
structure Metrics where
  id : Nat
  name : String
  code : String
  totalPOs : Nat
  deliveredPOs : Nat
  onTimePOs : Nat
  latePOs : Nat
  grGood : Nat
  grDamaged : Nat
  grShortage : Nat
  grPartial : Nat
  grTotal : Nat

/-- A row of `vendorPerf`: the counters and the two derived rates, `none` for
`null`. -/
structure PerfRow where
  metrics : Metrics
  onTimeRate : Option Int
  grQualityRate : Option Int

/-- `Math.round((a / b) * 100)` for two counts, in exact arithmetic: the
nearest integer, a half rounded upward. -/
def roundPercent (a b : Nat) : Int :=
  ⌊((a : ℚ) / (b : ℚ)) * 100 + 1 / 2⌋

/-- The comparison `new Date(a) <= new Date(b)` on time values; an invalid date
compares false. -/
def dateAtMost (a b : Option Int) : Bool :=
  match a, b with
  | some x, some y => x ≤ y
  | _, _ => false

namespace ReportsAnalyticsView

/-- The assignment `vendorMap[k] = v` on an object with integer keys, kept in
ascending key order as `Object.values` lists it. -/
def mapSet : List (Nat × Metrics) → Nat → Metrics → List (Nat × Metrics)
  | [], k, v => [(k, v)]
  | (k0, v0) :: rest, k, v =>
    if k < k0 then (k, v) :: (k0, v0) :: rest
    else if k == k0 then (k, v) :: rest
    else (k0, v0) :: mapSet rest k v

/-- An update in place of `vendorMap[k]`, which does nothing when the key is
absent (`if (!vendorMap[vid]) return`). -/
def mapUpdate (m : List (Nat × Metrics)) (k : Nat) (f : Metrics → Metrics) :
    List (Nat × Metrics) :=
  m.map (fun e => if e.1 == k then (e.1, f e.2) else e)

/-- The first loop of the vendor performance part: one zeroed entry per vendor. -/
def initVendor (m : List (Nat × Metrics)) (v : VendorRec) : List (Nat × Metrics) :=
  mapSet m v.id
    { id := v.id, name := v.company_name, code := v.vendor_code,
      totalPOs := 0, deliveredPOs := 0, onTimePOs := 0, latePOs := 0,
      grGood := 0, grDamaged := 0, grShortage := 0, grPartial := 0, grTotal := 0 }

/-- What the body of `orders.forEach` does to the entry of the order's vendor. -/
def countOrderIn (o : OrderRec) (v : Metrics) : Metrics :=
  let v1 := { v with totalPOs := v.totalPOs + 1 }
  if o.status == "delivered" then
    let v2 := { v1 with deliveredPOs := v1.deliveredPOs + 1 }
    let actualDate := o.actual_delivery_date
    let expectedDate := match o.expected_delivery_date with
      | some d => some d
      | none => o.delivery_deadline
    match actualDate, expectedDate with
    | some a, some e =>
      if dateAtMost a e then { v2 with onTimePOs := v2.onTimePOs + 1 }
      else { v2 with latePOs := v2.latePOs + 1 }
    | _, _ => v2
  else v1

/-- The body of `orders.forEach`. -/
def countOrder (m : List (Nat × Metrics)) (o : OrderRec) : List (Nat × Metrics) :=
  match o.vendor with
  | none => m
  | some vid => mapUpdate m vid (countOrderIn o)

/-- `poVendorMap[poId]` after `orders.forEach(o => { poVendorMap[o.id] = o.vendor })`:
the vendor of the last order with that id. -/
def poVendor (orders : List OrderRec) (poId : Option Nat) : Option Nat :=
  match poId with
  | none => none
  | some p => (orders.reverse.find? (fun o => o.id == p)).bind (fun o => o.vendor)

/-- What the body of `receipts.forEach` does to the entry of the receipt's
vendor: four separate `if`s on the condition. -/
def countReceiptIn (r : ReceiptRec) (v : Metrics) : Metrics :=
  let v1 := { v with grTotal := v.grTotal + 1 }
  let v2 := if r.condition == "good" then { v1 with grGood := v1.grGood + 1 } else v1
  let v3 := if r.condition == "damaged" then { v2 with grDamaged := v2.grDamaged + 1 } else v2
  let v4 := if r.condition == "shortage" then { v3 with grShortage := v3.grShortage + 1 } else v3
  if r.condition == "partial" then { v4 with grPartial := v4.grPartial + 1 } else v4

/-- The body of `receipts.forEach`. -/
def countReceipt (orders : List OrderRec) (m : List (Nat × Metrics)) (r : ReceiptRec) :
    List (Nat × Metrics) :=
  match poVendor orders r.purchase_order with
  | none => m
  | some vid => mapUpdate m vid (countReceiptIn r)

/-- `vendorMap` after the three loops. -/
def vendorMap (vendors : List VendorRec) (orders : List OrderRec)
    (receipts : List ReceiptRec) : List (Nat × Metrics) :=
  receipts.foldl (countReceipt orders) (orders.foldl countOrder (vendors.foldl initVendor []))

/-- The `map` callback that adds the derived rates to an entry. -/
def withRates (v : Metrics) : PerfRow :=
  let deliveredWithDates := v.onTimePOs + v.latePOs
  { metrics := v
    onTimeRate := if deliveredWithDates > 0 then some (roundPercent v.onTimePOs deliveredWithDates)
      else none
    grQualityRate := if v.grTotal > 0 then some (roundPercent v.grGood v.grTotal) else none }

/-- Insertion of a row before the first row that has no more purchase orders. -/
def insertRow (r : PerfRow) : List PerfRow → List PerfRow
  | [] => [r]
  | x :: xs =>
    if x.metrics.totalPOs > r.metrics.totalPOs then x :: insertRow r xs else r :: x :: xs

/-- `.sort((a, b) => b.totalPOs - a.totalPOs)`: a stable sort by descending
number of purchase orders. -/
def sortByTotalDesc (rows : List PerfRow) : List PerfRow :=
  rows.foldr insertRow []

/-- The value `vendorPerf` that `fetchReportData` computes from the lists of
vendors, purchase orders and goods receipts. -/
def vendorPerf (vendors : List VendorRec) (orders : List OrderRec)
    (receipts : List ReceiptRec) : List PerfRow :=
  (sortByTotalDesc
    ((((vendorMap vendors orders receipts).map Prod.snd).filter
      (fun v => decide (v.totalPOs > 0) || decide (v.grTotal > 0))).map withRates)).take 8

end ReportsAnalyticsView

/-- The bounds between the counters of one vendor. -/
def Metrics.consistent (v : Metrics) : Prop :=
  v.onTimePOs + v.latePOs ≤ v.deliveredPOs ∧ v.deliveredPOs ≤ v.totalPOs ∧
  v.grGood + v.grDamaged + v.grShortage + v.grPartial ≤ v.grTotal

/-- One vendor for the report. -/
def reportVendors : List VendorRec :=
  [{ id := 1, company_name := "Acme", vendor_code := "V001" }]

/-- Two delivered orders of vendor 1, one on time and one late. -/
def reportOrders : List OrderRec :=
  [{ id := 10, vendor := some 1, status := "delivered", actual_delivery_date := some (some 5),
     expected_delivery_date := some (some 9), delivery_deadline := none },
   { id := 11, vendor := some 1, status := "delivered", actual_delivery_date := some (some 9),
     expected_delivery_date := some (some 5), delivery_deadline := none }]

/-- One good receipt for order 10. -/
def reportReceipts : List ReceiptRec :=
  [{ purchase_order := some 10, condition := "good" }]

/-- The counters of vendor 1 for the sample report. -/
def reportMetrics : Metrics :=
  { id := 1, name := "Acme", code := "V001", totalPOs := 2, deliveredPOs := 2, onTimePOs := 1,
    latePOs := 1, grGood := 1, grDamaged := 0, grShortage := 0, grPartial := 0, grTotal := 1 }

/-! ## The axios instance of `api.js` -/

/-- The request configuration, as far as the interceptors read or write it. -/
structure AxiosConfig where
  url : String
  authorization : Option String
  _retry : Bool
  deriving DecidableEq

/-- The two entries of `localStorage` that `api.js` reads. -/
structure TokenStore where
  access : Option String
  refresh : Option String
  deriving DecidableEq

/-- What the server answers to a request: a response that resolves, or an
error with the status of `error.response`, `none` when there is no response. -/
inductive ServerReply where
  | ok (data : String)
  | error (status : Option Nat)
  deriving DecidableEq

/-- The error a call of `api` is rejected with: the error of a request, with
its configuration and status, or the error of the refresh call. -/
inductive AxiosError where
  | ofRequest (config : AxiosConfig) (status : Option Nat)
  | ofRefresh
  deriving DecidableEq

/-- How the promise of a call settles. -/
inductive Settled where
  | resolved (data : String)
  | rejected (error : AxiosError)
  deriving DecidableEq

/-- What a call does that can be seen from outside. -/
inductive ApiEvent where
  | sent (config : AxiosConfig)
  | refreshPost (url : String) (refresh : Option String)
  | setItem (key value : String)
  deriving DecidableEq

/-- The result of a call: how it settled, the storage afterwards and the
events in order. -/
structure ApiRun where
  outcome : Settled
  store : TokenStore
  trace : List ApiEvent
  deriving DecidableEq

/-- The request interceptor: attaches the stored access token when it is
truthy. -/
def api.requestInterceptor (store : TokenStore) (config : AxiosConfig) : AxiosConfig :=
  match store.access with
  | some token =>
    if token != "" then { config with authorization := some ("Bearer " ++ token) } else config
  | none => config

/-- A call `api(config)` with both interceptors. `server sentBefore c` is the
answer to the request `c` when `sentBefore` requests of this call went out
before it; `refreshServer r` is the text of `res.data.access` when the refresh
call with refresh token `r` resolves, `none` when it is rejected. -/
def api (server : Nat → AxiosConfig → ServerReply)
    (refreshServer : Option String → Option String)
    (store : TokenStore) (sentBefore : Nat) (config : AxiosConfig) : ApiRun :=
  let sentConfig := api.requestInterceptor store config
  match server sentBefore sentConfig with
  | .ok data => { outcome := .resolved data, store := store, trace := [.sent sentConfig] }
  | .error status =>
    if _h : (status == some 401 && !sentConfig._retry) = true then
      let originalRequest := { sentConfig with _retry := true }
      let refresh := store.refresh
      match refreshServer refresh with
      | none =>
        { outcome := .rejected .ofRefresh, store := store
          trace := [.sent sentConfig,
            .refreshPost "http://127.0.0.1:8000/api/token/refresh/" refresh] }
      | some access =>
        let store1 := { store with access := some access }
        let replayed := { originalRequest with authorization := some ("Bearer " ++ access) }
        let rest := api server refreshServer store1 (sentBefore + 1) replayed
        { outcome := rest.outcome, store := rest.store
          trace := [.sent sentConfig,
            .refreshPost "http://127.0.0.1:8000/api/token/refresh/" refresh,
            .setItem "access" access] ++ rest.trace }
    else
      { outcome := .rejected (.ofRequest sentConfig status), store := store
        trace := [.sent sentConfig] }
termination_by (if config._retry then 0 else 1)
decreasing_by
  have hr : (api.requestInterceptor store config)._retry = false := by
    simp only [Bool.and_eq_true, Bool.not_eq_true'] at _h
    exact _h.2
  have hc : config._retry = false := by
    unfold api.requestInterceptor at hr
    split at hr
    · split_ifs at hr <;> exact hr
    · exact hr
  simp [hc]

/-- The number of refresh calls in a trace. -/
def refreshCalls (trace : List ApiEvent) : Nat :=
  (trace.filter (fun e => match e with | .refreshPost _ _ => true | _ => false)).length

/-- The number of requests sent through the instance in a trace. -/
def sentRequests (trace : List ApiEvent) : Nat :=
  (trace.filter (fun e => match e with | .sent _ => true | _ => false)).length

/-- A server that answers 401 to the first request and resolves the second. -/
def expiredOnce (sentBefore : Nat) (_config : AxiosConfig) : ServerReply :=
  if sentBefore == 0 then .error (some 401) else .ok "orders"

/-- A refresh endpoint that hands out the token `new`. -/
def refreshToNew (_refresh : Option String) : Option String := some "new"

/-! ## JavaScript numbers

The payment dialog and the creation forms compute with JavaScript Numbers and
read them from text. Numbers are IEEE 754 doubles; `+`, `-` and the conversion
of a decimal numeral round to the nearest double, ties to the even
significand. -/

/-- A JavaScript Number. A finite one is `significand * 2 ^ exponent`, with its
sign apart, in the binary64 format: `2 ^ 52 ≤ significand < 2 ^ 53` and
`-1074 ≤ exponent ≤ 971` (normal), or `0 < significand < 2 ^ 52` and
`exponent = -1074` (subnormal). The two zeros are not told apart: zero is
`finite false 0 0`. -/
inductive JsNumber where
  | nan
  | infinity (negative : Bool)
  | finite (negative : Bool) (significand : Nat) (exponent : Int)
  deriving DecidableEq

/-- The number of halvings that bring `n` below 2, counted with `fuel`. -/
def halvings : Nat → Nat → Nat
  | 0, _ => 0
  | fuel + 1, n => if n < 2 then 0 else halvings fuel (n / 2) + 1

/-- The position of the leading binary digit of `n`: `⌊log₂ n⌋` for `n ≥ 1`. -/
def leadingBit (n : Nat) : Nat :=
  halvings n n

/-- The integer `⌊log₂ (n / d)⌋` for positive `n` and `d`. -/
def floorLog2 (n d : Nat) : Int :=
  if d * 2 ^ leadingBit n ≤ n * 2 ^ leadingBit d then (leadingBit n : Int) - leadingBit d
  else (leadingBit n : Int) - leadingBit d - 1

/-- The integer nearest to `n / d`, the even one of two equally near. -/
def roundHalfEven (n d : Nat) : Nat :=
  if 2 * (n % d) < d then n / d
  else if d < 2 * (n % d) then n / d + 1
  else if (n / d) % 2 == 0 then n / d else n / d + 1

/-- The JavaScript zero. -/
def JsNumber.zero : JsNumber :=
  .finite false 0 0

/-- The Number value for the rational `± n / d` (`d ≠ 0`): the nearest double,
the one with even significand of two equally near, and an infinity from
`2 ^ 1024 - 2 ^ 970` on. The last place of the result has the exponent `s`,
52 below the leading bit of `n / d` and not below -1074. -/
def roundToDouble (negative : Bool) (n d : Nat) : JsNumber :=
  if n == 0 then .zero
  else
    let s : Int := max (floorLog2 n d) (-1022) - 52
    let k : Nat :=
      if s ≤ 0 then roundHalfEven (n * 2 ^ (-s).toNat) d
      else roundHalfEven n (d * 2 ^ s.toNat)
    if k == 2 ^ 53 then
      if 971 < s + 1 then .infinity negative else .finite negative (2 ^ 52) (s + 1)
    else if 971 < s then .infinity negative
    else if k == 0 then .zero
    else .finite negative k s

/-- The Number that a decimal numeral of a response denotes, as `JSON.parse`,
`parseFloat` and the arithmetic operators read it. -/
def JsNumber.ofRat (q : ℚ) : JsNumber :=
  roundToDouble (decide (q < 0)) q.num.natAbs q.den

/-- The Number for a natural number. -/
def JsNumber.ofNat (n : Nat) : JsNumber :=
  roundToDouble false n 1

/-- The exact value of a finite Number. -/
def JsNumber.toRat : JsNumber → Option ℚ
  | .finite negative k s => some ((if negative then -1 else 1) * (k : ℚ) * 2 ^ s)
  | _ => none

/-- The signed integer `m` with `± k * 2 ^ s = m * 2 ^ t`, for `t ≤ s`. -/
def scaledTo (t : Int) (negative : Bool) (k : Nat) (s : Int) : Int :=
  (if negative then -1 else 1) * ((k * 2 ^ (s - t).toNat : Nat) : Int)

/-- The double nearest to `m * 2 ^ t`. -/
def roundScaled (m : Int) (t : Int) : JsNumber :=
  if 0 ≤ t then roundToDouble (decide (m < 0)) (m.natAbs * 2 ^ t.toNat) 1
  else roundToDouble (decide (m < 0)) m.natAbs (2 ^ (-t).toNat)

/-- Unary minus. -/
def JsNumber.neg : JsNumber → JsNumber
  | .nan => .nan
  | .infinity negative => .infinity (!negative)
  | .finite negative k s => if k == 0 then .finite false k s else .finite (!negative) k s

/-- The operator `+` on Numbers: the exact sum, rounded. -/
def JsNumber.add : JsNumber → JsNumber → JsNumber
  | .nan, _ => .nan
  | _, .nan => .nan
  | .infinity a, .infinity b => if a == b then .infinity a else .nan
  | .infinity a, .finite _ _ _ => .infinity a
  | .finite _ _ _, .infinity b => .infinity b
  | .finite n1 k1 s1, .finite n2 k2 s2 =>
    roundScaled (scaledTo (min s1 s2) n1 k1 s1 + scaledTo (min s1 s2) n2 k2 s2) (min s1 s2)

/-- The operator `-` on Numbers. -/
def JsNumber.sub (x y : JsNumber) : JsNumber :=
  x.add y.neg

/-- The comparison `x < y` on Numbers; false when either is `NaN`. -/
def JsNumber.lt : JsNumber → JsNumber → Bool
  | .nan, _ => false
  | _, .nan => false
  | .infinity a, .infinity b => a && !b
  | .infinity a, .finite _ _ _ => a
  | .finite _ _ _, .infinity b => !b
  | .finite n1 k1 s1, .finite n2 k2 s2 =>
    decide (scaledTo (min s1 s2) n1 k1 s1 < scaledTo (min s1 s2) n2 k2 s2)

/-- Whether a Number is `NaN`. -/
def JsNumber.isNaN : JsNumber → Bool
  | .nan => true
  | _ => false

/-- The comparison `x >= y` on Numbers; false when either is `NaN`. -/
def JsNumber.ge (x y : JsNumber) : Bool :=
  !x.isNaN && !y.isNaN && !x.lt y

/-- The comparison `x <= y` on Numbers; false when either is `NaN`. -/
def JsNumber.le (x y : JsNumber) : Bool :=
  !x.isNaN && !y.isNaN && !y.lt x

/-- A Number as `JSON.stringify` writes it: `NaN` and the infinities become
`null`. -/
def JsNumber.toJson (x : JsNumber) : Json :=
  match x.toRat with
  | some q => .num q
  | none => .null

/-- The value of a run of decimal digits. -/
def digitsValue (ds : List Char) : Nat :=
  ds.foldl (fun acc c => 10 * acc + (c.toNat - 48)) 0

/-- The value of a run of hexadecimal digits. -/
def hexDigitsValue (ds : List Char) : Nat :=
  ds.foldl (fun acc c =>
    16 * acc + (if isDigit09 c then c.toNat - 48
      else if isLowerAZ c then c.toNat - 87 else c.toNat - 55)) 0

/-- Whether a character is a hexadecimal digit. -/
def isHexDigit (c : Char) : Bool :=
  isDigit09 c || (97 ≤ c.toNat && c.toNat ≤ 102) || (65 ≤ c.toNat && c.toNat ≤ 70)

/-- A text without the sign `-` or `+` it may start with. -/
def stripSign (cs : List Char) : List Char :=
  match cs with
  | '-' :: r => r
  | '+' :: r => r
  | _ => cs

/-- The integer that `parseInt` reads from a text without white space and
sign in front: `0x` or `0X` selects radix 16, and the longest run of digits
that follows is the integer; `NaN` when that run is empty. -/
def parseIntUnsigned (negative : Bool) (unsigned : List Char) : JsNumber :=
  match unsigned with
  | '0' :: 'x' :: r =>
    if (r.takeWhile isHexDigit).isEmpty then .nan
    else roundToDouble negative (hexDigitsValue (r.takeWhile isHexDigit)) 1
  | '0' :: 'X' :: r =>
    if (r.takeWhile isHexDigit).isEmpty then .nan
    else roundToDouble negative (hexDigitsValue (r.takeWhile isHexDigit)) 1
  | _ =>
    if (unsigned.takeWhile isDigit09).isEmpty then .nan
    else roundToDouble negative (digitsValue (unsigned.takeWhile isDigit09)) 1

/-- JavaScript `parseInt(text)` without a radix: leading white space is
skipped, a sign is read, `0x` or `0X` selects radix 16, and the longest run of
digits that follows is the integer; `NaN` when that run is empty. Whatever
follows the digits, a fraction or an exponent, is ignored. -/
def parseInt (text : String) : JsNumber :=
  let trimmed := text.data.dropWhile isJsWhitespace
  parseIntUnsigned (trimmed.head? == some '-') (stripSign trimmed)

/-- The exponent part at the head of a text: `e` or `E`, an optional sign and
digits. It is `0` when the text does not start with a complete exponent part. -/
def exponentPart (cs : List Char) : Int :=
  match cs with
  | [] => 0
  | c :: r =>
    if c == 'e' || c == 'E' then
      match r with
      | '-' :: ds =>
        if (ds.takeWhile isDigit09).isEmpty then 0
        else -((digitsValue (ds.takeWhile isDigit09) : Nat) : Int)
      | '+' :: ds => ((digitsValue (ds.takeWhile isDigit09) : Nat) : Int)
      | ds => ((digitsValue (ds.takeWhile isDigit09) : Nat) : Int)
    else 0

/-- The longest prefix that is an unsigned decimal literal (digits, a fraction,
an exponent part), as the pair `(m, e)` of its value `m * 10 ^ e`; `none` when
no prefix is one. -/
def decimalLiteral (cs : List Char) : Option (Nat × Int) :=
  match cs.dropWhile isDigit09 with
  | '.' :: r =>
    if (cs.takeWhile isDigit09).isEmpty && (r.takeWhile isDigit09).isEmpty then none
    else some (digitsValue (cs.takeWhile isDigit09 ++ r.takeWhile isDigit09),
      exponentPart (r.dropWhile isDigit09) - ((r.takeWhile isDigit09).length : Int))
  | rest =>
    if (cs.takeWhile isDigit09).isEmpty then none
    else some (digitsValue (cs.takeWhile isDigit09), exponentPart rest)

/-- The double nearest to `± m * 10 ^ e`. -/
def roundDecimal (negative : Bool) (m : Nat) (e : Int) : JsNumber :=
  if 0 ≤ e then roundToDouble negative (m * 10 ^ e.toNat) 1
  else roundToDouble negative m (10 ^ (-e).toNat)

/-- JavaScript `parseFloat(text)`: leading white space is skipped, a sign is
read, and the longest prefix that is `Infinity` or a decimal literal gives the
Number; `NaN` when there is none. -/
def parseFloat (text : String) : JsNumber :=
  let trimmed := text.data.dropWhile isJsWhitespace
  let negative := trimmed.head? == some '-'
  if (stripSign trimmed).take 8 == "Infinity".data then .infinity negative
  else
    match decimalLiteral (stripSign trimmed) with
    | none => .nan
    | some (m, e) => roundDecimal negative m e

/-- A state field bound to an input: the Number it was initialised with, or
the text the input delivered through `e.target.value`. -/
inductive FieldValue where
  | number (x : JsNumber)
  | text (s : String)
  deriving DecidableEq

/-- JavaScript `parseFloat(v)` on a field: a Number is turned into text and
read back, which gives the same Number. -/
def FieldValue.parseFloat : FieldValue → JsNumber
  | .number x => x
  | .text s => Procurement.parseFloat s

/-! ### Number inputs -/

/-- HTML: whether a text is a valid floating-point number, the only texts
other than the empty one that an `<input type="number">` delivers: an optional
`-`, digits or a fraction or both, and an optional exponent. -/
def isValidFloatingPointNumber (text : String) : Bool :=
  let unsigned := match text.data with
    | '-' :: r => r
    | cs => cs
  let exponentOk (cs : List Char) : Bool :=
    match cs with
    | [] => true
    | c :: r =>
      (c == 'e' || c == 'E') &&
      (match r with
        | '-' :: ds => !ds.isEmpty && ds.all isDigit09
        | '+' :: ds => !ds.isEmpty && ds.all isDigit09
        | ds => !ds.isEmpty && ds.all isDigit09)
  match unsigned.dropWhile isDigit09 with
  | '.' :: r => !(r.takeWhile isDigit09).isEmpty && exponentOk (r.dropWhile isDigit09)
  | rest => !(unsigned.takeWhile isDigit09).isEmpty && exponentOk rest

/-- The constraint attributes of the number inputs of the creation forms:
`required`, `min` (a whole number) and `step`, given as `1 / stepDen`: 1 by
default and 100 for `step="0.01"`. The step base is `min`. -/
structure NumberInput where
  required : Bool
  min : Nat
  stepDen : Nat

/-- Constraint validation of an `<input type="number">`, which the browser
runs before it calls the `onSubmit` of the form: the empty text is accepted
unless the input is required; any other text is a valid floating-point number
whose value `± m * 10 ^ e` is not below `min` and differs from `min` by a
multiple of the step. -/
def NumberInput.accepts (input : NumberInput) (text : String) : Bool :=
  if text == "" then !input.required
  else
    isValidFloatingPointNumber text &&
    (match decimalLiteral (match text.data with
        | '-' :: r => r
        | cs => cs) with
      | none => false
      | some (m, e) =>
        let n := if 0 ≤ e then m * 10 ^ e.toNat else m
        let d := if 0 ≤ e then 1 else 10 ^ (-e).toNat
        (text.data.head? != some '-' || m == 0) &&
        decide (input.min * d ≤ n) &&
        ((n - input.min * d) * input.stepDen) % d == 0)

/-! ## PaymentModal -/

/-- The `paymentData` state of `PaymentModal`. The amount is the Number the
state starts with until the user edits the input, and text afterwards. -/
structure PaymentData where
  payment_amount : FieldValue
  payment_date : String
  payment_method : String
  transaction_reference : String
  notes : String

namespace PaymentModal

/-- The initial `paymentData` of `PaymentModal` for an invoice: the amount is
pre-filled with `invoice.total_amount - (invoice.paid_amount || 0)`, a
subtraction of Numbers; `today` is the current day as text. -/
def initialPaymentData (invoice : Invoice) (today : String) : PaymentData :=
  { payment_amount :=
      .number ((JsNumber.ofRat invoice.total_amount).sub
        (JsNumber.ofRat (parseFloatOr0 invoice.paid_amount)))
    payment_date := today
    payment_method := "razorpay"
    transaction_reference := ""
    notes := "" }

/-- The body of the `POST /payments/` request of `handleOfflinePayment`.
`timestamp` is the value of `Date.now()`; the payment methods are ASCII words. -/
def paymentBody (invoice : Invoice) (paymentData : PaymentData) (timestamp : Nat) : Json :=
  let paymentNumber :=
    "PAY-" ++ toUpperCase paymentData.payment_method ++ "-" ++ toString timestamp
  .obj [
    ("payment_number", .str paymentNumber),
    ("invoice", .num invoice.id),
    ("vendor", .num invoice.vendor),
    ("amount", paymentData.payment_amount.parseFloat.toJson),
    ("payment_date", .str paymentData.payment_date),
    ("payment_method", .str paymentData.payment_method),
    ("transaction_reference", .str paymentData.transaction_reference),
    ("notes", .str paymentData.notes)]

/-- The local `newPaidAmount` of `handleOfflinePayment`:
`parseFloat(invoice.paid_amount || 0) + parseFloat(paymentData.payment_amount)`. -/
def newPaidAmount (invoice : Invoice) (paymentData : PaymentData) : JsNumber :=
  (JsNumber.ofRat (parseFloatOr0 invoice.paid_amount)).add paymentData.payment_amount.parseFloat

/-- The local `newStatus` of `handleOfflinePayment`:
`newPaidAmount >= parseFloat(invoice.total_amount) ? 'paid' : invoice.status`. -/
def newStatus (invoice : Invoice) (paymentData : PaymentData) : String :=
  if (newPaidAmount invoice paymentData).ge (JsNumber.ofRat invoice.total_amount) then "paid"
  else invoice.status

/-- The `PATCH /invoices/{id}/` request of `handleOfflinePayment`. -/
def invoiceRequest (invoice : Invoice) (paymentData : PaymentData) : Request :=
  apiFetch (API_BASE_URL ++ "/invoices/" ++ toString invoice.id ++ "/") (some "PATCH")
    (some (.obj [
      ("status", .str (newStatus invoice paymentData)),
      ("paid_amount", (newPaidAmount invoice paymentData).toJson),
      ("payment_date", .str paymentData.payment_date)]))

/-- The part of `handleOfflinePayment` after the payment record was created:
update the invoice, then report. -/
def updateInvoice (invoice : Invoice) (paymentData : PaymentData)
    (invoiceRes : FetchResult) : List Effect :=
  .fetch (invoiceRequest invoice paymentData) ::
    match invoiceRes with
    | .rejected message => [.setError ("Error: " ++ message)]
    | .resolved res =>
      if res.ok then
        [.alert "Payment recorded successfully!", .callback "onSuccess" []]
      else
        [.setError ("Error: " ++ "Failed to update invoice")]

/-- `PaymentModal.handleOfflinePayment`: `invoice` is the prop of the dialog,
`paymentRes` and `invoiceRes` are the outcomes of the two awaited `apiFetch`
calls. Console logging is left out. -/
def handleOfflinePayment (invoice : Invoice) (paymentData : PaymentData) (timestamp : Nat)
    (paymentRes invoiceRes : FetchResult) : List Effect :=
  [.setLoading true, .setError "",
    .fetch (apiFetch (API_BASE_URL ++ "/payments/") (some "POST")
      (some (paymentBody invoice paymentData timestamp)))] ++
  (match paymentRes with
    | .rejected message => [.setError ("Error: " ++ message)]
    | .resolved res =>
      if !res.ok then
        match res.json with
        | .error message => [.setError ("Error: " ++ message)]
        | .ok errorData =>
          [.setError ("Error: " ++ ("Failed to create payment record: " ++ errorData.stringified))]
      else
        updateInvoice invoice paymentData invoiceRes) ++
  [.setLoading false]

end PaymentModal

/-- The payment of the end-to-end scenario of §8: 118500 by bank transfer,
typed into the amount input. -/
def samplePayment : PaymentData :=
  { payment_amount := .text "118500", payment_date := "2024-01-01",
    payment_method := "bank_transfer", transaction_reference := "", notes := "" }

/-- An approved invoice of 63152.01 of which 17237.87 is paid; the balance is
45914.14. -/
def partPaidInvoice : Invoice :=
  { id := 4, vendor := 1, status := "approved", total_amount := 63152.01,
    paid_amount := some 17237.87 }

/-- A payment of the balance of `partPaidInvoice`, typed into the amount
input. -/
def balancePayment : PaymentData :=
  { payment_amount := .text "45914.14", payment_date := "2024-01-01",
    payment_method := "bank_transfer", transaction_reference := "", notes := "" }

/-! ### What the backend has carried out -/

/-- Modelled from the spec: the requests of a run that the backend has carried
out, which are those it answered with `res.ok`; a request that failed has
changed nothing (§7, "on any error the entity graph must be left exactly as it
was"). A `fetch` that rejects counts as failed. The backend is not part of the
front-end sources. -/
def carriedOut : List Request → List FetchResult → List Request
  | r :: rs, o :: os => if o.isOk then r :: carriedOut rs os else carriedOut rs os
  | _, _ => []

/-- Modelled from the spec: the Payment rows created by the requests carried
out, one for each `POST {base}/payments/`, which is `record_payment` (§6
"record offline payment", §4.4 "append Payment row"); a row is given by the
body of its request. -/
def paymentRecords (base : String) (carried : List Request) : List Json :=
  (carried.filter (fun r => r.method == "POST" && r.url == base ++ "/payments/")).filterMap
    (fun r => r.body)

/-- Modelled from the spec: the `paid_amount` values written to invoice `id`
by the requests carried out, which are those in the bodies of each
`PATCH {base}/invoices/{id}/`; the backend is taken to store what a `PATCH` it
answered `ok` carries. What `record_payment` itself does to the invoice row is
left open. -/
def paidAmountsWritten (base : String) (id : Nat) (carried : List Request) : List Json :=
  (carried.filter (fun r =>
      r.method == "PATCH" && r.url == base ++ "/invoices/" ++ toString id ++ "/")).filterMap
    (fun r => r.body.bind (fun b => b.get? "paid_amount"))

/-! ## Purchase requests and purchase orders: creation

The fields bound to inputs are texts, as `e.target.value` delivers them; a
field the form initialises with a whole number (`quantity: 1`) enters as the
text of that number, which is what `parseInt` and `parseFloat` read. -/

/-- The `formData` state of `CreateRequestView`, reduced to the fields
`validateForm` and `handleSubmit` read. `product` is the id of the selected
catalogue product, `quantity` the text of the quantity input. -/
structure RequestFormData where
  item_name : String
  product : Option Nat
  quantity : String
  department : String
  urgency_level : String
  justification : String

namespace CreateRequestView

/-- `CreateRequestView.validateForm`: the `newErrors` object as a list of
field and message; the form is valid when it is empty. -/
def validateForm (formData : RequestFormData) : List (String × String) :=
  (if jsTrim formData.item_name == "" then [("item_name", "Item name is required")] else []) ++
  (if formData.quantity == "" then [("quantity", "Quantity is required")]
    else if (parseInt formData.quantity).lt (JsNumber.ofNat 1) then
      [("quantity", "Quantity must be at least 1")]
    else []) ++
  (if jsTrim formData.department == "" then [("department", "Department is required")] else [])

/-- The `requestData` object of `CreateRequestView.handleSubmit`; `userId` is
`user.id`. -/
def requestData (userId : Nat) (formData : RequestFormData) : Json :=
  .obj [
    ("item_name", .str formData.item_name),
    ("product", match formData.product with
      | none => .null
      | some p => .num p),
    ("quantity", (parseInt formData.quantity).toJson),
    ("department", .str formData.department),
    ("urgency_level", .str formData.urgency_level),
    ("justification", .str formData.justification),
    ("employee", .num userId)]

/-- `CreateRequestView.handleSubmit`; the helper `apiFetch` of
`EmployeeDashboard.jsx` has the text of the one in `AdminDashboard.jsx`. -/
def handleSubmit (userId : Nat) (formData : RequestFormData) (res : FetchResult) :
    List Effect :=
  .setError "" ::
    if !(validateForm formData).isEmpty then [.setError "Please fix the errors below"]
    else
      [.setLoading true,
        .fetch (apiFetch (API_BASE_URL ++ "/purchase-requests/") (some "POST")
          (some (requestData userId formData)))] ++
      (match res with
        | .rejected message => [.setError ("Error: " ++ message)]
        | .resolved r =>
          if r.ok then
            [.alert "Purchase request submitted successfully!", .callback "onSuccess" []]
          else
            match r.json with
            | .error message => [.setError ("Error: " ++ message)]
            | .ok data => [.setError data.stringified]) ++
      [.setLoading false]

/-- The quantity input of the form: `type="number" required min="1"`. -/
def quantityInput : NumberInput :=
  { required := true, min := 1, stepDen := 1 }

/-- Whether the browser lets the form be submitted: the submit button is
enabled (`formData.product || formData.item_name.trim()`) and every control
passes its constraints: the product select or, with `useCustomItem`, the item
name input is `required`, as are the quantity input with `min="1"` and the
department input. -/
def submittable (useCustomItem : Bool) (formData : RequestFormData) : Bool :=
  (formData.product.isSome || jsTrim formData.item_name != "") &&
  (if useCustomItem then formData.item_name != "" else formData.product.isSome) &&
  quantityInput.accepts formData.quantity &&
  formData.department != ""

end CreateRequestView

/-- A request for `1e3` laptops, that is one thousand, entered by hand. -/
def thousandLaptops : RequestFormData :=
  { item_name := "Laptop", product := none, quantity := "1e3", department := "IT",
    urgency_level := "high", justification := "" }

/-- One entry of `formData.items` in `CreatePurchaseOrderForm`, as the inputs
hold it: the value of the product select and the texts of the two number
inputs. -/
structure LineItemText where
  product : String
  quantity : String
  unit_price : String

/-- The `formData` state of `CreatePurchaseOrderForm` as the inputs hold it. A
select without a choice and a blank input hold the empty text. -/
structure POFormText where
  vendor : String
  items : List LineItemText
  purchase_request : String := ""
  assigned_to : String := ""
  expected_delivery_date : String := ""
  delivery_deadline : String := ""
  tax_amount : String := ""
  shipping_cost : String := ""
  notes : String := ""

/-- Whether the item check of `CreatePurchaseOrderForm.handleSubmit` rejects a
line item: `!item.product || !item.quantity || parseFloat(item.quantity) <= 0`. -/
def itemRejected (item : LineItemText) : Bool :=
  item.product == "" || item.quantity == "" ||
    (parseFloat item.quantity).le JsNumber.zero

/-- One entry of `payload.items` of `CreatePurchaseOrderForm.handleSubmit`:
`parseInt` of product and quantity and `parseFloat` of the unit price. -/
def itemPayload (item : LineItemText) : Json :=
  .obj [
    ("product", (parseInt item.product).toJson),
    ("quantity", (parseInt item.quantity).toJson),
    ("unit_price", (parseFloat item.unit_price).toJson)]

/-- An optional id as JSON: `x ? parseInt(x) : null`. -/
def jsonOfId (x : String) : Json :=
  if x == "" then .null else (parseInt x).toJson

/-- A text as JSON with `x || null`: the empty text becomes `null`. -/
def jsonOrNull (s : String) : Json :=
  if s == "" then .null else .str s

/-- An amount as JSON: `parseFloat(x || 0)`. -/
def jsonOfAmount (x : String) : Json :=
  if x == "" then JsNumber.zero.toJson else (parseFloat x).toJson

/-- The `payload` object of `CreatePurchaseOrderForm.handleSubmit`, the same in
both copies of the form. `currentUserId` is `currentUser.id`; when it is
undefined `JSON.stringify` leaves the key out. -/
def poPayload (formData : POFormText) (currentUserId : Option Nat) : Json :=
  .obj ([
    ("vendor", (parseInt formData.vendor).toJson),
    ("purchase_request", jsonOfId formData.purchase_request),
    ("assigned_to", jsonOfId formData.assigned_to),
    ("expected_delivery_date", jsonOrNull formData.expected_delivery_date),
    ("delivery_deadline", jsonOrNull formData.delivery_deadline),
    ("tax_amount", jsonOfAmount formData.tax_amount),
    ("shipping_cost", jsonOfAmount formData.shipping_cost),
    ("notes", .str formData.notes)] ++
    (match currentUserId with
      | none => []
      | some u => [("created_by", Json.num u)]) ++
    [("status", .str "draft"),
     ("items", .arr (formData.items.map itemPayload))])

namespace AdminDashboard.CreatePurchaseOrderForm

/-- `CreatePurchaseOrderForm.handleSubmit` of `AdminDashboard.jsx`.
`currentUser` is the result of `JSON.parse(localStorage.getItem('user') || '{}')`:
an error message when it throws, else `currentUser.id`; `res` is the outcome of
the `POST`. The `for` loop returns at the first rejected item. `setSuccess` is
left out; the delayed `onSuccess()` is recorded as a callback. -/
def handleSubmit (formData : POFormText) (currentUser : Except String (Option Nat))
    (res : FetchResult) : List Effect :=
  .setError "" ::
    if formData.vendor == "" then [.setError "Please select a vendor"]
    else if formData.items.length == 0 then [.setError "Please add at least one item"]
    else if formData.items.any itemRejected then
      [.setError "Please fill in all item details with valid quantities"]
    else
      .setLoading true ::
        (match currentUser with
          | .error message => [.setError ("Error: " ++ message)]
          | .ok currentUserId =>
            .fetch (apiFetch (API_BASE_URL ++ "/purchase-orders/") (some "POST")
              (some (poPayload formData currentUserId))) ::
              match res with
              | .rejected message => [.setError ("Error: " ++ message)]
              | .resolved r =>
                match r.json with
                | .error message => [.setError ("Error: " ++ message)]
                | .ok data =>
                  if r.ok then [.callback "onSuccess" []]
                  else [.setError data.stringified]) ++
        [.setLoading false]

end AdminDashboard.CreatePurchaseOrderForm

namespace Purchaseorderscomponent.CreatePurchaseOrderForm

/-- `CreatePurchaseOrderForm.handleSubmit` of `Purchaseorderscomponent.jsx`
(same text as the one in `AdminDashboard.jsx`). -/
def handleSubmit (formData : POFormText) (currentUser : Except String (Option Nat))
    (res : FetchResult) : List Effect :=
  .setError "" ::
    if formData.vendor == "" then [.setError "Please select a vendor"]
    else if formData.items.length == 0 then [.setError "Please add at least one item"]
    else if formData.items.any itemRejected then
      [.setError "Please fill in all item details with valid quantities"]
    else
      .setLoading true ::
        (match currentUser with
          | .error message => [.setError ("Error: " ++ message)]
          | .ok currentUserId =>
            .fetch (apiFetch (API_BASE_URL ++ "/purchase-orders/") (some "POST")
              (some (poPayload formData currentUserId))) ::
              match res with
              | .rejected message => [.setError ("Error: " ++ message)]
              | .resolved r =>
                match r.json with
                | .error message => [.setError ("Error: " ++ message)]
                | .ok data =>
                  if r.ok then [.callback "onSuccess" []]
                  else [.setError data.stringified]) ++
        [.setLoading false]

end Purchaseorderscomponent.CreatePurchaseOrderForm

namespace CreatePurchaseOrderForm

/-- The quantity input of a line item: `type="number" min="1" required`. -/
def quantityInput : NumberInput :=
  { required := true, min := 1, stepDen := 1 }

/-- The unit price input of a line item:
`type="number" step="0.01" min="0" required`. -/
def unitPriceInput : NumberInput :=
  { required := true, min := 0, stepDen := 100 }

/-- The tax and shipping inputs: `type="number" step="0.01" min="0"`. -/
def amountInput : NumberInput :=
  { required := false, min := 0, stepDen := 100 }

/-- Whether the browser lets the form be submitted, in both copies: the vendor
select and, in every line item, the product select are `required`, and the
number inputs pass their constraints. -/
def submittable (formData : POFormText) : Bool :=
  formData.vendor != "" &&
  formData.items.all (fun item =>
    item.product != "" && quantityInput.accepts item.quantity &&
      unitPriceInput.accepts item.unit_price) &&
  amountInput.accepts formData.tax_amount && amountInput.accepts formData.shipping_cost

end CreatePurchaseOrderForm

/-- An order to vendor 3 of product 7 with the quantity entered as `0.5e1`,
that is five, at the unit price 50000.00. -/
def fiveByExponent : POFormText :=
  { vendor := "3"
    items := [{ product := "7", quantity := "0.5e1", unit_price := "50000.00" }] }

/-! ## Theorems -/

/-- A left fold that adds `g item` to an accumulator is the accumulator plus
the sum of the `g item`. -/
theorem foldl_add_eq_sum {α : Type} (g : α → ℚ) (xs : List α) (acc : ℚ) :
    xs.foldl (fun sum item => sum + g item) acc = acc + (xs.map g).sum := by
  induction xs generalizing acc with
  | nil => simp
  | cons x xs ih => simp [List.foldl_cons, ih, add_assoc]

/-- C1: in both copies of `CreatePurchaseOrderForm`, `calculateSubtotal` is the
sum over the line items of quantity times unit price (`0` for no items) and
`calculateTotal` is that subtotal plus tax plus shipping; one line of 2 at
50000 with tax 18000 and shipping 500 totals 118500. -/
theorem C1_po_form_totals :
    (∀ formData : POFormData,
      AdminDashboard.CreatePurchaseOrderForm.calculateSubtotal formData
          = lineItemsSum formData.items ∧
      AdminDashboard.CreatePurchaseOrderForm.calculateTotal formData
          = AdminDashboard.CreatePurchaseOrderForm.calculateSubtotal formData
            + parseFloatOr0 formData.tax_amount + parseFloatOr0 formData.shipping_cost ∧
      Purchaseorderscomponent.CreatePurchaseOrderForm.calculateSubtotal formData
          = lineItemsSum formData.items ∧
      Purchaseorderscomponent.CreatePurchaseOrderForm.calculateTotal formData
          = Purchaseorderscomponent.CreatePurchaseOrderForm.calculateSubtotal formData
            + parseFloatOr0 formData.tax_amount + parseFloatOr0 formData.shipping_cost) ∧
    (∀ (vendor : Option Nat) (tax shipping : Option ℚ),
      AdminDashboard.CreatePurchaseOrderForm.calculateSubtotal
          { vendor := vendor, items := [], tax_amount := tax, shipping_cost := shipping } = 0 ∧
      Purchaseorderscomponent.CreatePurchaseOrderForm.calculateSubtotal
          { vendor := vendor, items := [], tax_amount := tax, shipping_cost := shipping } = 0) ∧
    AdminDashboard.CreatePurchaseOrderForm.calculateTotal
        { vendor := some 1
          items := [{ product := some 1, quantity := some 2, unit_price := some 50000 }]
          tax_amount := some 18000
          shipping_cost := some 500 } = 118500 ∧
    Purchaseorderscomponent.CreatePurchaseOrderForm.calculateTotal
        { vendor := some 1
          items := [{ product := some 1, quantity := some 2, unit_price := some 50000 }]
          tax_amount := some 18000
          shipping_cost := some 500 } = 118500 := by
  refine ⟨fun formData => ⟨?_, rfl, ?_, rfl⟩, fun _ _ _ => ⟨rfl, rfl⟩, ?_, ?_⟩
  · simp only [AdminDashboard.CreatePurchaseOrderForm.calculateSubtotal, lineItemsSum]
    rw [foldl_add_eq_sum
      (fun item : LineItem => parseFloatOr0 item.quantity * parseFloatOr0 item.unit_price)]
    simp
  · simp only [Purchaseorderscomponent.CreatePurchaseOrderForm.calculateSubtotal, lineItemsSum]
    rw [foldl_add_eq_sum
      (fun item : LineItem => parseFloatOr0 item.quantity * parseFloatOr0 item.unit_price)]
    simp
  · simp only [AdminDashboard.CreatePurchaseOrderForm.calculateTotal,
      AdminDashboard.CreatePurchaseOrderForm.calculateSubtotal, parseFloatOr0, List.foldl]
    norm_num
  · simp only [Purchaseorderscomponent.CreatePurchaseOrderForm.calculateTotal,
      Purchaseorderscomponent.CreatePurchaseOrderForm.calculateSubtotal, parseFloatOr0, List.foldl]
    norm_num

/-- Every request of the `try` block of `fetchDashboardData` is a `GET`. -/
theorem mutatingRequestsOf_fetchEach (paths : List String) (results : Nat → FetchResult)
    (k : Nat) : mutatingRequestsOf (AdminDashboard.fetchEach paths results k) = [] := by
  induction paths generalizing k with
  | nil => rfl
  | cons path rest ih =>
    have ih2 := ih (k + 1)
    simp only [mutatingRequestsOf] at ih2 ⊢
    simp only [AdminDashboard.fetchEach]
    rcases results k with ⟨ok, j⟩ | m
    · cases ok
      · simpa [requestsOf, apiFetch] using ih2
      · cases j
        · simp [requestsOf, apiFetch]
        · simpa [requestsOf, apiFetch] using ih2
    · simp [requestsOf, apiFetch]

/-- The requests of a trace that is a concatenation. -/
theorem requestsOf_append (xs ys : List Effect) :
    requestsOf (xs ++ ys) = requestsOf xs ++ requestsOf ys := by
  induction xs with
  | nil => rfl
  | cons x xs ih => cases x <;> simp [requestsOf, ih]

/-- `fetchDashboardData` issues no mutating request. -/
theorem mutatingRequestsOf_fetchDashboardData (results : Nat → FetchResult) :
    mutatingRequestsOf (AdminDashboard.fetchDashboardData results) = [] := by
  have h := mutatingRequestsOf_fetchEach AdminDashboard.dashboardPaths results 0
  simp only [mutatingRequestsOf] at h ⊢
  simp only [AdminDashboard.fetchDashboardData, requestsOf_append, List.filter_append, h]
  simp [AdminDashboard.fetchInvoices, requestsOf, apiFetch]

/-- C5: when the user confirms, `handleAcceptQuotation` issues exactly one
mutating request, `POST rfqs/{rfqId}/accept_quotation/`, whatever the backend
answers (every other request of the run is a `GET` of the dashboard refresh);
when the user declines it issues no request at all. -/
theorem C5_accept_quotation_single_request :
    (∀ (quotationId rfqId : Nat) (createPO : Option Bool) (res : FetchResult)
        (refresh : Nat → FetchResult),
      mutatingRequestsOf
          (AdminDashboard.handleAcceptQuotation quotationId rfqId createPO true res refresh)
        = [{ method := "POST"
             url := API_BASE_URL ++ "/rfqs/" ++ toString rfqId ++ "/accept_quotation/"
             body := some (.obj [("create_po", .bool (createPO.getD true)),
                                 ("expected_delivery_date", .null)])
             csrf := true }]) ∧
    (∀ (quotationId rfqId : Nat) (createPO : Option Bool) (res : FetchResult)
        (refresh : Nat → FetchResult),
      requestsOf
          (AdminDashboard.handleAcceptQuotation quotationId rfqId createPO false res refresh)
        = []) := by
  constructor
  · intro quotationId rfqId createPO res refresh
    have h := mutatingRequestsOf_fetchDashboardData refresh
    simp only [mutatingRequestsOf] at h ⊢
    rcases res with ⟨ok, j⟩ | m
    · cases j
      · simp [AdminDashboard.handleAcceptQuotation, requestsOf, apiFetch]
      · cases ok
        · simp [AdminDashboard.handleAcceptQuotation, requestsOf, apiFetch]
        · rename_i data
          have htrace :
              AdminDashboard.handleAcceptQuotation quotationId rfqId createPO true
                  (.resolved { ok := true, json := .ok data }) refresh
                = [.confirm "Accept this quotation and create a Purchase Order?",
                   .fetch (apiFetch
                     (API_BASE_URL ++ "/rfqs/" ++ toString rfqId ++ "/accept_quotation/")
                     (some "POST")
                     (some (.obj [("create_po", .bool (createPO.getD true)),
                                  ("expected_delivery_date", .null)]))),
                   .alert (data.message.getD
                     "Quotation accepted and Purchase Order created successfully!")]
                  ++ AdminDashboard.fetchDashboardData refresh := rfl
          rw [htrace, requestsOf_append, List.filter_append, h]
          simp [requestsOf, apiFetch]
    · simp [AdminDashboard.handleAcceptQuotation, requestsOf, apiFetch]
  · intro quotationId rfqId createPO res refresh
    simp [AdminDashboard.handleAcceptQuotation, requestsOf]

/-- C6, as stated, fails: for the two quotation ids 1 and 2 of RFQ 7 the
requests sent by `handleAcceptQuotation` are the same. -/
theorem C6_counterexample :
    (1 : Nat) ≠ 2 ∧
    requestsOf (AdminDashboard.handleAcceptQuotation 1 7 (some true) true okResult
        (fun _ => okResult))
      = requestsOf (AdminDashboard.handleAcceptQuotation 2 7 (some true) true okResult
        (fun _ => okResult)) :=
  ⟨by decide, rfl⟩

/-- C6, amended: the accept request names the quotation through its RFQ id
only. For any quotation ids `q1`, `q2` the runs of `handleAcceptQuotation` with
the same `rfqId` and flag are identical; the request is
`POST rfqs/{rfqId}/accept_quotation/` and `create_po` in its body is the flag,
`true` when the flag is omitted. -/
theorem C6_accept_request_by_rfq_id (q1 q2 rfqId : Nat) (createPO : Option Bool)
    (confirmed : Bool) (res : FetchResult) (refresh : Nat → FetchResult) :
    AdminDashboard.handleAcceptQuotation q1 rfqId createPO confirmed res refresh
      = AdminDashboard.handleAcceptQuotation q2 rfqId createPO confirmed res refresh ∧
    ∃ (req : Request) (body : Json),
      (requestsOf
        (AdminDashboard.handleAcceptQuotation q1 rfqId createPO true res refresh)).head?
        = some req ∧
      req.method = "POST" ∧
      req.url = API_BASE_URL ++ "/rfqs/" ++ toString rfqId ++ "/accept_quotation/" ∧
      req.body = some body ∧
      body.get? "create_po" = some (.bool (match createPO with
        | none => true
        | some flag => flag)) := by
  refine ⟨rfl, apiFetch (API_BASE_URL ++ "/rfqs/" ++ toString rfqId ++ "/accept_quotation/")
      (some "POST")
      (some (.obj [("create_po", .bool (createPO.getD true)),
                   ("expected_delivery_date", .null)])), _, ?_, rfl, rfl, rfl, ?_⟩
  · simp [AdminDashboard.handleAcceptQuotation, requestsOf]
  · cases createPO <;> simp [Json.get?, List.find?]

/-- C7: in `PurchaseRequestsView`, approve and reject are offered exactly for a
`pending` request and Send-RFQ exactly for an `approved` one; so an approved,
rejected or rfq_sent request offers neither approve nor reject, and Send-RFQ is
offered for no status other than `approved`. -/
theorem C7_request_row_actions (req : PurchaseRequest) :
    (offersApprove (PurchaseRequestsView.rowActions req) = true ↔ req.status = "pending") ∧
    (offersReject (PurchaseRequestsView.rowActions req) = true ↔ req.status = "pending") ∧
    (offersSendRFQ (PurchaseRequestsView.rowActions req) = true ↔ req.status = "approved") ∧
    ((req.status = "approved" ∨ req.status = "rejected" ∨ req.status = "rfq_sent") →
      offersApprove (PurchaseRequestsView.rowActions req) = false ∧
      offersReject (PurchaseRequestsView.rowActions req) = false) := by
  refine ⟨?_, ?_, ?_, ?_⟩
  · by_cases h1 : req.status = "pending" <;> by_cases h2 : req.status = "approved" <;>
      by_cases h3 : req.status = "rejected" <;> by_cases h4 : req.status = "rfq_sent" <;>
      simp [PurchaseRequestsView.rowActions, offersApprove, h1, h2, h3, h4]
  · by_cases h1 : req.status = "pending" <;> by_cases h2 : req.status = "approved" <;>
      by_cases h3 : req.status = "rejected" <;> by_cases h4 : req.status = "rfq_sent" <;>
      simp [PurchaseRequestsView.rowActions, offersReject, h1, h2, h3, h4]
  · by_cases h1 : req.status = "pending" <;> by_cases h2 : req.status = "approved" <;>
      by_cases h3 : req.status = "rejected" <;> by_cases h4 : req.status = "rfq_sent" <;>
      simp [PurchaseRequestsView.rowActions, offersSendRFQ, h1, h2, h3, h4]
  · rintro (h | h | h) <;>
      simp [PurchaseRequestsView.rowActions, offersApprove, offersReject, h]

/-- Witness for C7: an approved request offers Send-RFQ, not approve or reject. -/
theorem C7_request_row_actions_witness :
    offersApprove (PurchaseRequestsView.rowActions { id := 1, status := "approved" }) = false ∧
    offersReject (PurchaseRequestsView.rowActions { id := 1, status := "approved" }) = false :=
  (C7_request_row_actions { id := 1, status := "approved" }).2.2.2 (Or.inl rfl)

/-- C8: the accept and reject actions of a quotation, in the table row of
`QuotationsManagementView` and in `QuotationDetailsModal`, are offered exactly
when its status is `submitted`; an accepted or rejected quotation offers
neither. -/
theorem C8_quotation_actions (quote : Quotation) :
    (offersAccept (QuotationsManagementView.rowActions quote) = true
      ↔ quote.status = "submitted") ∧
    (offersReject (QuotationsManagementView.rowActions quote) = true
      ↔ quote.status = "submitted") ∧
    (offersAccept (QuotationDetailsModal.modalActions quote) = true
      ↔ quote.status = "submitted") ∧
    (offersReject (QuotationDetailsModal.modalActions quote) = true
      ↔ quote.status = "submitted") ∧
    ((quote.status = "accepted" ∨ quote.status = "rejected") →
      offersAccept (QuotationsManagementView.rowActions quote) = false ∧
      offersReject (QuotationsManagementView.rowActions quote) = false ∧
      offersAccept (QuotationDetailsModal.modalActions quote) = false ∧
      offersReject (QuotationDetailsModal.modalActions quote) = false) := by
  refine ⟨?_, ?_, ?_, ?_, ?_⟩
  · by_cases h1 : quote.status = "submitted" <;> by_cases h2 : quote.status = "accepted" <;>
      by_cases h3 : quote.status = "rejected" <;>
      simp [QuotationsManagementView.rowActions, offersAccept, h1, h2, h3]
  · by_cases h1 : quote.status = "submitted" <;> by_cases h2 : quote.status = "accepted" <;>
      by_cases h3 : quote.status = "rejected" <;>
      simp [QuotationsManagementView.rowActions, offersReject, h1, h2, h3]
  · by_cases h1 : quote.status = "submitted" <;>
      simp [QuotationDetailsModal.modalActions, offersAccept, h1]
  · by_cases h1 : quote.status = "submitted" <;>
      simp [QuotationDetailsModal.modalActions, offersReject, h1]
  · rintro (h | h) <;>
      simp [QuotationsManagementView.rowActions, QuotationDetailsModal.modalActions,
        offersAccept, offersReject, h]

/-- Witness for C8: an accepted quotation offers neither action. -/
theorem C8_quotation_actions_witness :
    offersAccept (QuotationsManagementView.rowActions
      { id := 1, rfq := 7, status := "accepted" }) = false ∧
    offersReject (QuotationsManagementView.rowActions
      { id := 1, rfq := 7, status := "accepted" }) = false ∧
    offersAccept (QuotationDetailsModal.modalActions
      { id := 1, rfq := 7, status := "accepted" }) = false ∧
    offersReject (QuotationDetailsModal.modalActions
      { id := 1, rfq := 7, status := "accepted" }) = false :=
  (C8_quotation_actions { id := 1, rfq := 7, status := "accepted" }).2.2.2.2 (Or.inl rfl)

/-- Dropping a prefix and then a suffix of `p`-elements leaves nothing exactly
when every element satisfies `p`. -/
theorem dropWhile_both_eq_nil_iff {α : Type} (p : α → Bool) (l : List α) :
    ((l.dropWhile p).reverse.dropWhile p).reverse = [] ↔ l.all p = true := by
  rw [List.reverse_eq_nil_iff, List.dropWhile_eq_nil_iff, List.all_eq_true]
  constructor
  · intro h
    have hnil : l.dropWhile p = [] := by
      by_contra hne
      have hhead := List.head_dropWhile_not p l hne
      have hmem : (l.dropWhile p).head hne ∈ (l.dropWhile p).reverse :=
        List.mem_reverse.mpr (List.head_mem hne)
      rw [h _ hmem] at hhead
      exact Bool.noConfusion hhead
    exact List.dropWhile_eq_nil_iff.mp hnil
  · intro h x hx
    have hnil : l.dropWhile p = [] := List.dropWhile_eq_nil_iff.mpr h
    rw [hnil] at hx
    simp at hx

/-- The trim of a string is empty exactly when the string is blank. -/
theorem jsTrim_eq_empty (s : String) : (jsTrim s == "") = isBlank s := by
  have h := dropWhile_both_eq_nil_iff isJsWhitespace s.data
  by_cases hb : isBlank s = true
  · rw [hb]
    have : jsTrim s = "" := by
      unfold jsTrim
      rw [h.mpr hb]
    simp [this]
  · have hb2 : isBlank s = false := by simpa using hb
    rw [hb2]
    have : jsTrim s ≠ "" := by
      intro hc
      apply hb
      apply h.mp
      have := congrArg String.data hc
      simpa [jsTrim] using this
    simpa using this

/-- C9: for a reason that is empty or only whitespace, `RejectModal` and
`RejectQuotationModal` never call `onSubmit` (they only alert, and send
nothing); for every other reason they call `onSubmit` exactly once, with the
reason as typed. -/
theorem C9_reject_requires_reason (reason : String) :
    callsOf "onSubmit" (RejectModal.handleSubmit reason)
      = (if isBlank reason then [] else [[.str reason]]) ∧
    callsOf "onSubmit" (RejectQuotationModal.handleSubmit reason)
      = (if isBlank reason then [] else [[.str reason]]) ∧
    requestsOf (RejectModal.handleSubmit reason) = [] ∧
    requestsOf (RejectQuotationModal.handleSubmit reason) = [] ∧
    isBlank "" = true ∧ isBlank " \t\n" = true ∧ isBlank " too expensive " = false := by
  refine ⟨?_, ?_, ?_, ?_, ?_, ?_, ?_⟩
  · simp only [RejectModal.handleSubmit, jsTrim_eq_empty]
    cases isBlank reason <;> simp [callsOf]
  · simp only [RejectQuotationModal.handleSubmit, jsTrim_eq_empty]
    cases isBlank reason <;> simp [callsOf]
  · simp only [RejectModal.handleSubmit]
    split <;> simp [requestsOf]
  · simp only [RejectQuotationModal.handleSubmit]
    split <;> simp [requestsOf]
  · decide
  · decide
  · decide

/-- C10: with no vendor selected `SendRFQModal.handleSubmit` only reports
"Please select at least one vendor" and sends nothing; with at least one it
sends exactly one request, `POST purchase-requests/{id}/send-rfq/`, whose
`vendor_ids` is the selected list and whose `response_deadline` is `null` when
the deadline is blank (and the deadline text otherwise). -/
theorem C10_send_rfq_requires_vendor (request : PurchaseRequest) (v : Nat) (vs : List Nat)
    (responseDeadline adminNotes : String) (res : FetchResult) :
    SendRFQModal.handleSubmit request [] responseDeadline adminNotes res
      = [.setError "Please select at least one vendor"] ∧
    requestsOf (SendRFQModal.handleSubmit request [] responseDeadline adminNotes res) = [] ∧
    ∃ (req : Request) (body : Json),
      requestsOf (SendRFQModal.handleSubmit request (v :: vs) responseDeadline adminNotes res)
        = [req] ∧
      req.method = "POST" ∧
      req.url = API_BASE_URL ++ "/purchase-requests/" ++ toString request.id ++ "/send-rfq/" ∧
      req.body = some body ∧
      body.get? "vendor_ids" = some (.arr ((v :: vs).map (fun i => Json.num i))) ∧
      body.get? "response_deadline"
        = some (if responseDeadline == "" then .null else .str responseDeadline) := by
  refine ⟨rfl, rfl, apiFetch
      (API_BASE_URL ++ "/purchase-requests/" ++ toString request.id ++ "/send-rfq/")
      (some "POST")
      (some (.obj [
        ("vendor_ids", .arr ((v :: vs).map (fun i => Json.num i))),
        ("response_deadline",
          if responseDeadline == "" then .null else .str responseDeadline),
        ("admin_notes", .str adminNotes)])), _, ?_, rfl, rfl, rfl, ?_, ?_⟩
  · rcases res with ⟨ok, j⟩ | m
    · cases j
      · simp [SendRFQModal.handleSubmit, requestsOf]
      · cases ok <;> simp [SendRFQModal.handleSubmit, requestsOf]
    · simp [SendRFQModal.handleSubmit, requestsOf]
  · simp [Json.get?, List.find?]
  · simp [Json.get?, List.find?]

/-- C12, as stated, fails: an approved invoice whose due date has passed is
not paid and overdue, yet both badges show `APPROVED`. -/
theorem C12_counterexample :
    approvedOverdueInvoice.status ≠ "paid" ∧
    dateBefore approvedOverdueInvoice.due_date 1 = true ∧
    InvoicesManagementView.statusBadge approvedOverdueInvoice 1 = "APPROVED" ∧
    InvoiceCard.statusBadge approvedOverdueInvoice 1 = "APPROVED" := by
  refine ⟨by decide, by decide, ?_, ?_⟩
  · decide
  · decide

/-- C12, amended: in the admin invoice table and in the vendor's `InvoiceCard`
the badge shows `OVERDUE` when the due date is earlier than now and the status
is `pending`; in every other case it shows the invoice's own status in upper
case. -/
theorem C12_status_badge (invoice : Invoice) (now : Int) :
    InvoicesManagementView.statusBadge invoice now
      = (if invoice.status = "pending" ∧ dateBefore invoice.due_date now = true then "OVERDUE"
         else toUpperCase invoice.status) ∧
    InvoiceCard.statusBadge invoice now
      = (if invoice.status = "pending" ∧ dateBefore invoice.due_date now = true then "OVERDUE"
         else toUpperCase invoice.status) := by
  constructor
  · by_cases h1 : invoice.status = "pending" <;>
      by_cases h2 : dateBefore invoice.due_date now = true <;>
      simp [InvoicesManagementView.statusBadge, InvoicesManagementView.isOverdue, h1, h2]
  · by_cases h1 : invoice.status = "pending" <;>
      by_cases h2 : dateBefore invoice.due_date now = true <;>
      simp [InvoiceCard.statusBadge, InvoiceCard.isOverdue, h1, h2]

/-- C13, as stated, fails: with an invoice date of 2024-02-01 and a due date of
2024-01-01 `InvoiceCreateModal.handleSubmit` sends the create-invoice request. -/
theorem C13_counterexample :
    isoDateBefore "2024-01-01" "2024-02-01" = true ∧
    requestsOf (VendorDashboard.InvoiceCreateModal.handleSubmit samplePO
        { invoice_number := "INV-1", invoice_date := "2024-02-01", due_date := "2024-01-01",
          notes := "" } okResult)
      = [VendorDashboard.createInvoiceRequest
          (VendorDashboard.InvoiceCreateModal.payload samplePO
            { invoice_number := "INV-1", invoice_date := "2024-02-01",
              due_date := "2024-01-01", notes := "" })] := by
  refine ⟨by decide, rfl⟩

/-- The requests of a run of `InvoiceCreateModal.handleSubmit`: always the one
create-invoice `POST`. -/
theorem requestsOf_invoiceCreate (po : PurchaseOrder) (formData : InvoiceFormData)
    (res : FetchResult) :
    requestsOf (VendorDashboard.InvoiceCreateModal.handleSubmit po formData res)
      = [VendorDashboard.createInvoiceRequest
          (VendorDashboard.InvoiceCreateModal.payload po formData)] := by
  rcases res with ⟨ok, j⟩ | m
  · cases j
    · simp [VendorDashboard.InvoiceCreateModal.handleSubmit, requestsOf]
    · cases ok <;> simp [VendorDashboard.InvoiceCreateModal.handleSubmit, requestsOf]
  · simp [VendorDashboard.InvoiceCreateModal.handleSubmit, requestsOf]

/-- C13, amended: `InvoiceCreateModal.handleSubmit` does not compare the two
dates; for every invoice date and due date in the form it sends exactly one
create-invoice request, which carries both dates as entered. -/
theorem C13_invoice_dates_unchecked (po : PurchaseOrder) (formData : InvoiceFormData)
    (res : FetchResult) :
    ∃ (req : Request) (body : Json),
      requestsOf (VendorDashboard.InvoiceCreateModal.handleSubmit po formData res) = [req] ∧
      req.method = "POST" ∧
      req.url = API_BASE_URL ++ "/vendor-dashboard/create_invoice/" ∧
      req.body = some body ∧
      body.get? "invoice_date" = some (.str formData.invoice_date) ∧
      body.get? "due_date" = some (.str formData.due_date) := by
  refine ⟨_, VendorDashboard.InvoiceCreateModal.payload po formData,
    requestsOf_invoiceCreate po formData res, rfl, rfl, rfl, ?_, ?_⟩
  · simp [VendorDashboard.InvoiceCreateModal.payload, Json.get?, List.find?]
  · simp [VendorDashboard.InvoiceCreateModal.payload, Json.get?, List.find?]

/-- C14: the invoice payloads of `InvoiceCreateModal.handleSubmit` and of
`DeliveryStatusModal.autoCreateInvoice` carry the purchase order's subtotal,
tax amount and total amount (`0` where missing) and the status `pending`,
whatever the form holds and whatever the clock reads. -/
theorem C14_invoice_amounts_from_po (po : PurchaseOrder) (formData : InvoiceFormData)
    (res : FetchResult) (now : Nat) (isoDay : Nat → String) :
    (∃ (req : Request) (body : Json),
      requestsOf (VendorDashboard.InvoiceCreateModal.handleSubmit po formData res) = [req] ∧
      req.body = some body ∧
      body.get? "subtotal" = some (.num (parseFloatOr0 po.subtotal)) ∧
      body.get? "tax_amount" = some (.num (parseFloatOr0 po.tax_amount)) ∧
      body.get? "total_amount" = some (.num (parseFloatOr0 po.total_amount)) ∧
      body.get? "status" = some (.str "pending")) ∧
    (∃ (req : Request) (body : Json),
      requestsOf (VendorDashboard.DeliveryStatusModal.autoCreateInvoice po now isoDay) = [req] ∧
      req.body = some body ∧
      body.get? "subtotal" = some (.num (parseFloatOr0 po.subtotal)) ∧
      body.get? "tax_amount" = some (.num (parseFloatOr0 po.tax_amount)) ∧
      body.get? "total_amount" = some (.num (parseFloatOr0 po.total_amount)) ∧
      body.get? "status" = some (.str "pending")) ∧
    parseFloatOr0 samplePO.total_amount = 118500 ∧
    parseFloatOr0 (none : Option ℚ) = 0 := by
  refine ⟨⟨_, VendorDashboard.InvoiceCreateModal.payload po formData,
      requestsOf_invoiceCreate po formData res, rfl, ?_, ?_, ?_, ?_⟩,
    ⟨_, _, rfl, rfl, ?_, ?_, ?_, ?_⟩, rfl, rfl⟩ <;>
    simp [VendorDashboard.InvoiceCreateModal.payload, Json.get?, List.find?]

/-- C15, the code at the failing input: for every purchase order,
`DeliveryStatusView.handleUpdateStatus` with the status `delayed` sends the
update-status request with a body that holds the status only, so without any
reason; the sibling `DeliveryStatusModal` shows a required reason field for
`delayed` and sends the reason typed there. -/
theorem C15_view_sends_delayed_without_reason (poId : Nat) (res reload : FetchResult)
    (count : Nat) (po : PurchaseOrder) (reason : String) :
    (∃ req : Request,
      (requestsOf (EmployeeDashboard.DeliveryStatusView.handleUpdateStatus (some poId) "delayed"
        res reload count)).head? = some req ∧
      req.method = "POST" ∧
      req.url = API_BASE_URL ++ "/purchase-orders/" ++ toString poId ++ "/update-status/" ∧
      delayedWithoutReason req = true ∧
      (match req.body with
        | some body => body.get? "reason"
        | none => none) = none) ∧
    EmployeeDashboard.DeliveryStatusModal.showsReasonField "delayed" = true ∧
    (∃ (req : Request) (body : Json),
      requestsOf (EmployeeDashboard.DeliveryStatusModal.handleSubmit po "delayed" reason res)
        = [req] ∧
      req.body = some body ∧
      body.get? "status" = some (.str "delayed") ∧
      body.get? "reason" = some (.str reason)) := by
  refine ⟨⟨apiFetch
      (API_BASE_URL ++ "/purchase-orders/" ++ toString poId ++ "/update-status/")
      (some "POST") (some (.obj [("status", .str "delayed")])), ?_, rfl, rfl, ?_, ?_⟩,
    by decide, ⟨apiFetch
      (API_BASE_URL ++ "/purchase-orders/" ++ toString po.id ++ "/update-status/")
      (some "POST") (some (.obj [("status", .str "delayed"), ("reason", .str reason)])),
      .obj [("status", .str "delayed"), ("reason", .str reason)], ?_, rfl, ?_, ?_⟩⟩
  · simp [EmployeeDashboard.DeliveryStatusView.handleUpdateStatus, requestsOf]
  · simp [delayedWithoutReason, apiFetch, Json.get?, List.find?]
  · simp [apiFetch, Json.get?, List.find?]
  · rcases res with ⟨ok, j⟩ | m
    · cases ok <;> simp [EmployeeDashboard.DeliveryStatusModal.handleSubmit, requestsOf]
    · simp [EmployeeDashboard.DeliveryStatusModal.handleSubmit, requestsOf]
  · simp [Json.get?, List.find?]
  · simp [Json.get?, List.find?]

/-- The requests of a run of `QuotationModal.handleSubmit`: always the one
submit `POST` with the form state as body. -/
theorem requestsOf_quotationSubmit (rfq : VendorRFQ) (formData : QuotationFormData)
    (res : FetchResult) :
    requestsOf (VendorDashboard.QuotationModal.handleSubmit rfq formData res)
      = [{ method := "POST"
           url := API_BASE_URL ++ "/vendor-dashboard/" ++ toString rfq.id
                    ++ "/submit_quotation/"
           body := some (VendorDashboard.QuotationModal.body formData)
           csrf := true }] := by
  rcases res with ⟨ok, j⟩ | m
  · cases ok
    · cases j <;> simp [VendorDashboard.QuotationModal.handleSubmit, requestsOf]
    · simp [VendorDashboard.QuotationModal.handleSubmit, requestsOf]
  · simp [VendorDashboard.QuotationModal.handleSubmit, requestsOf]

/-- C16, as stated, fails: a quotation form with the unit price -5 is sent,
and with an `ok` answer no error is reported. -/
theorem C16_counterexample :
    negativePriceQuotation.unit_price = some (-5) ∧
    (requestsOf (VendorDashboard.QuotationModal.handleSubmit
        { id := 7, status := "sent", has_quotation := false } negativePriceQuotation
        okResult)).length = 1 ∧
    endsInError (VendorDashboard.QuotationModal.handleSubmit
        { id := 7, status := "sent", has_quotation := false } negativePriceQuotation
        okResult) = false := by
  refine ⟨rfl, ?_, ?_⟩
  · rw [requestsOf_quotationSubmit]
    rfl
  · simp [VendorDashboard.QuotationModal.handleSubmit, endsInError, okResult]

/-- C16, amended: `QuotationModal.handleSubmit` checks none of the fields; for
every form state it sends exactly one submit request for the RFQ, whose body is
the form state unchanged, and with an `ok` answer it reports no error. -/
theorem C16_quotation_sent_unchecked (rfq : VendorRFQ) (formData : QuotationFormData)
    (res : FetchResult) (j : Except String Body) :
    requestsOf (VendorDashboard.QuotationModal.handleSubmit rfq formData res)
      = [{ method := "POST"
           url := API_BASE_URL ++ "/vendor-dashboard/" ++ toString rfq.id
                    ++ "/submit_quotation/"
           body := some (VendorDashboard.QuotationModal.body formData)
           csrf := true }] ∧
    (VendorDashboard.QuotationModal.body formData).get? "unit_price"
      = some (jsonOfField formData.unit_price) ∧
    (VendorDashboard.QuotationModal.body formData).get? "quantity"
      = some (jsonOfField formData.quantity) ∧
    (VendorDashboard.QuotationModal.body formData).get? "tax_rate"
      = some (jsonOfField formData.tax_rate) ∧
    (VendorDashboard.QuotationModal.body formData).get? "shipping_cost"
      = some (jsonOfField formData.shipping_cost) ∧
    (VendorDashboard.QuotationModal.body formData).get? "estimated_delivery_days"
      = some (jsonOfField formData.estimated_delivery_days) ∧
    (VendorDashboard.QuotationModal.body formData).get? "quotation_valid_until"
      = some (.str formData.quotation_valid_until) ∧
    endsInError (VendorDashboard.QuotationModal.handleSubmit rfq formData
      (.resolved { ok := true, json := j })) = false := by
  refine ⟨requestsOf_quotationSubmit rfq formData res, ?_, ?_, ?_, ?_, ?_, ?_, ?_⟩ <;>
    simp [VendorDashboard.QuotationModal.body, Json.get?, List.find?,
      VendorDashboard.QuotationModal.handleSubmit, endsInError]

/-- C17: the vendor's `RFQCard` offers Submit Quotation exactly when the RFQ's
status is `sent` and the vendor has no quotation for it; so it is never offered
once a quotation exists, nor for an RFQ that is received, accepted, rejected
or expired. -/
theorem C17_submit_quotation_offered (rfq : VendorRFQ) :
    (offersSubmitQuotation (VendorDashboard.RFQCard.footer rfq) = true
      ↔ (rfq.status = "sent" ∧ rfq.has_quotation = false)) ∧
    (rfq.has_quotation = true →
      offersSubmitQuotation (VendorDashboard.RFQCard.footer rfq) = false) ∧
    ((rfq.status = "received" ∨ rfq.status = "accepted" ∨ rfq.status = "rejected"
        ∨ rfq.status = "expired") →
      offersSubmitQuotation (VendorDashboard.RFQCard.footer rfq) = false) := by
  refine ⟨?_, ?_, ?_⟩
  · by_cases h1 : rfq.status = "sent" <;> cases h2 : rfq.has_quotation <;>
      simp [VendorDashboard.RFQCard.footer, offersSubmitQuotation, h1, h2]
  · intro h
    simp [VendorDashboard.RFQCard.footer, offersSubmitQuotation, h]
  · rintro (h | h | h | h) <;> cases h2 : rfq.has_quotation <;>
      simp [VendorDashboard.RFQCard.footer, offersSubmitQuotation, h, h2]

/-- Witness for C17: an RFQ already answered and an accepted RFQ offer nothing. -/
theorem C17_submit_quotation_offered_witness :
    offersSubmitQuotation (VendorDashboard.RFQCard.footer
      { id := 7, status := "sent", has_quotation := true }) = false ∧
    offersSubmitQuotation (VendorDashboard.RFQCard.footer
      { id := 8, status := "accepted", has_quotation := false }) = false :=
  ⟨(C17_submit_quotation_offered { id := 7, status := "sent", has_quotation := true }).2.1 rfl,
   (C17_submit_quotation_offered { id := 8, status := "accepted", has_quotation := false }).2.2
     (Or.inr (Or.inl rfl))⟩

/-- C20, as stated, fails: for a delivered order the Delete button is shown
and, once the user confirms, the `DELETE` request is sent. -/
theorem C20_counterexample :
    deliveredOrder.status = "delivered" ∧
    offersDelete (PurchaseOrdersView.rowActions deliveredOrder) = true ∧
    mutatingRequestsOf (PurchaseOrdersView.deleteAction deliveredOrder true okResult)
      = [apiFetch (API_BASE_URL ++ "/purchase-orders/" ++ toString (9 : Nat) ++ "/")
          (some "DELETE") none] := by
  refine ⟨rfl, rfl, ?_⟩
  simp [PurchaseOrdersView.deleteAction, PurchaseOrdersView.rowActions,
    PurchaseOrdersView.handleDelete, PurchaseOrdersView.fetchOrders, okResult,
    mutatingRequestsOf, requestsOf, apiFetch, deliveredOrder]

/-- C20, amended: `PurchaseOrdersView` shows the Delete button for every order
whatever its status; the delete action sends exactly one mutating request, the
`DELETE` of that order, whenever the user confirms, and no request at all when
the user declines. The order's status is never read. -/
theorem C20_delete_any_status (order : PurchaseOrder) (res : FetchResult) :
    offersDelete (PurchaseOrdersView.rowActions order) = true ∧
    mutatingRequestsOf (PurchaseOrdersView.deleteAction order true res)
      = [apiFetch (API_BASE_URL ++ "/purchase-orders/" ++ toString order.id ++ "/")
          (some "DELETE") none] ∧
    requestsOf (PurchaseOrdersView.deleteAction order false res) = [] ∧
    PurchaseOrdersView.deleteAction order true res
      = PurchaseOrdersView.deleteAction { order with status := "draft" } true res := by
  refine ⟨rfl, ?_, ?_, rfl⟩
  · rcases res with ⟨ok, j⟩ | m
    · cases ok <;>
        simp [PurchaseOrdersView.deleteAction, PurchaseOrdersView.rowActions,
          PurchaseOrdersView.handleDelete, PurchaseOrdersView.fetchOrders,
          mutatingRequestsOf, requestsOf, apiFetch]
    · simp [PurchaseOrdersView.deleteAction, PurchaseOrdersView.rowActions,
        PurchaseOrdersView.handleDelete, mutatingRequestsOf, requestsOf, apiFetch]
  · simp [PurchaseOrdersView.deleteAction, PurchaseOrdersView.rowActions,
      PurchaseOrdersView.handleDelete, requestsOf]

/-- C21: `ProtectedRoute` renders its children exactly when the stored user has
a non-empty username and, if `allowedRoles` is given, the user's role is in it;
without a username it redirects to `/`; a logged-in user whose role is not
allowed is redirected to the dashboard of the own role, or to `/` for any
other role. -/
theorem C21_protected_route (user : Option StoredUser) (allowedRoles : Option (List String)) :
    (ProtectedRoute user allowedRoles = .children ↔
      ∃ u, user = some u ∧ truthy u.username = true ∧
        (∀ roles, allowedRoles = some roles → ∃ r, u.role = some r ∧ r ∈ roles)) ∧
    ((∀ u, user = some u → truthy u.username = false) →
      ProtectedRoute user allowedRoles = .navigate "/") ∧
    (∀ u roles, user = some u → truthy u.username = true → allowedRoles = some roles →
      (∀ r, u.role = some r → r ∉ roles) →
      ProtectedRoute user allowedRoles
        = .navigate (if u.role = some "admin" then "/admin-dashboard"
                     else if u.role = some "employee" then "/employee-dashboard"
                     else if u.role = some "vendor" then "/vendor-dashboard"
                     else "/")) := by
  refine ⟨?_, ?_, ?_⟩
  · cases user with
    | none => simp [ProtectedRoute]
    | some u =>
      cases hname : truthy u.username
      · simp [ProtectedRoute, hname]
      · cases allowedRoles with
        | none => simp [ProtectedRoute, hname]
        | some roles =>
          cases hrole : u.role with
          | none => simp [ProtectedRoute, hname, hrole]
          | some r =>
            by_cases hmem : r ∈ roles
            · simp [ProtectedRoute, hname, hrole, hmem]
            · have hne : ProtectedRoute (some u) (some roles) ≠ .children := by
                simp only [ProtectedRoute, hname, hrole]
                have hc : roles.contains r = false := by simpa using hmem
                simp only [hc, Bool.not_true, Bool.not_false, if_true, Bool.false_eq_true, if_false]
                split_ifs <;> simp
              simp [hne, hrole, hmem]
  · intro h
    cases user with
    | none => simp [ProtectedRoute]
    | some u => simp [ProtectedRoute, h u rfl]
  · intro u roles hu hname hroles hnot
    subst hu hroles
    cases hrole : u.role with
    | none => simp [ProtectedRoute, hname, hrole]
    | some r =>
      have hmem : r ∉ roles := hnot r hrole
      have hc : roles.contains r = false := by simpa using hmem
      simp only [ProtectedRoute, hname, hrole, hc, Bool.not_true, Bool.not_false, if_true,
        Bool.false_eq_true, if_false]
      split_ifs <;> simp_all

/-- Witness for C21: an employee on the admin route is sent to the employee
dashboard, and a user without a username to `/`. -/
theorem C21_protected_route_witness :
    ProtectedRoute (some { username := some "eve", role := some "employee" }) (some ["admin"])
      = .navigate "/employee-dashboard" ∧
    ProtectedRoute (some { username := none, role := none }) (some ["admin"])
      = .navigate "/" :=
  ⟨(C21_protected_route (some { username := some "eve", role := some "employee" })
      (some ["admin"])).2.2 { username := some "eve", role := some "employee" } ["admin"]
      rfl (by decide) rfl (by intro r hr; cases hr; decide),
   (C21_protected_route (some { username := none, role := none }) (some ["admin"])).2.1
      (by intro u hu; cases hu; rfl)⟩

/-- C24: `VendorRegister.handleSubmit` sends the registration request exactly
when the password equals its confirmation and has at least 8 characters;
otherwise it sets `Passwords do not match`, or `Password must be at least 8
characters long`, and sends nothing. The body holds every form field except
`confirm_password`, each with its value. -/
theorem C24_vendor_register (formData : VendorRegisterData) (res : FetchResult) :
    requestsOf (VendorRegister.handleSubmit formData res)
      = (if formData.password = formData.confirm_password ∧ 8 ≤ jsLength formData.password
         then [{ method := "POST"
                 url := API_BASE_URL ++ "/vendor/register/"
                 body := some (VendorRegister.dataToSend formData)
                 csrf := false }]
         else []) ∧
    (VendorRegister.handleSubmit { formData with confirm_password := formData.password ++ "x" }
        res
      = [.setError "", .setSuccess "", .setLoading true,
         .setError "Passwords do not match", .setLoading false]) ∧
    (VendorRegister.handleSubmit
        { formData with password := "short", confirm_password := "short" } res
      = [.setError "", .setSuccess "", .setLoading true,
         .setError "Password must be at least 8 characters long", .setLoading false]) ∧
    (VendorRegister.dataToSend formData).get? "confirm_password" = none ∧
    (VendorRegister.dataToSend formData).get? "company_name"
      = some (.str formData.company_name) ∧
    (VendorRegister.dataToSend formData).get? "contact_person"
      = some (.str formData.contact_person) ∧
    (VendorRegister.dataToSend formData).get? "username" = some (.str formData.username) ∧
    (VendorRegister.dataToSend formData).get? "email" = some (.str formData.email) ∧
    (VendorRegister.dataToSend formData).get? "phone" = some (.str formData.phone) ∧
    (VendorRegister.dataToSend formData).get? "password" = some (.str formData.password) ∧
    (VendorRegister.dataToSend formData).get? "address" = some (.str formData.address) ∧
    (VendorRegister.dataToSend formData).get? "city" = some (.str formData.city) ∧
    (VendorRegister.dataToSend formData).get? "state" = some (.str formData.state) ∧
    (VendorRegister.dataToSend formData).get? "postal_code"
      = some (.str formData.postal_code) ∧
    (VendorRegister.dataToSend formData).get? "country" = some (.str formData.country) ∧
    (VendorRegister.dataToSend formData).get? "tax_id" = some (.str formData.tax_id) := by
  refine ⟨?_, ?_, ?_, ?_, ?_, ?_, ?_, ?_, ?_, ?_, ?_, ?_, ?_, ?_, ?_, ?_⟩
  · by_cases h1 : formData.password = formData.confirm_password
    · have hb : (formData.password != formData.confirm_password) = false := by
        simp [bne_iff_ne, h1]
      by_cases h2 : jsLength formData.password < 8
      · have hn : ¬ (formData.password = formData.confirm_password
            ∧ 8 ≤ jsLength formData.password) := fun h => by omega
        rw [if_neg hn]
        simp only [VendorRegister.handleSubmit, hb, h2, if_true, Bool.false_eq_true, if_false]
        rfl
      · have hp : formData.password = formData.confirm_password
            ∧ 8 ≤ jsLength formData.password := ⟨h1, by omega⟩
        rw [if_pos hp]
        simp only [VendorRegister.handleSubmit, hb, h2, Bool.false_eq_true, if_false]
        rcases res with ⟨ok, j⟩ | m
        · cases j
          · rfl
          · cases ok <;> rfl
        · rfl
    · have hb : (formData.password != formData.confirm_password) = true := by
        simp [bne_iff_ne, h1]
      have hn : ¬ (formData.password = formData.confirm_password
          ∧ 8 ≤ jsLength formData.password) := fun h => h1 h.1
      rw [if_neg hn]
      simp only [VendorRegister.handleSubmit, hb, if_true]
      rfl
  · have hne : formData.password ≠ formData.password ++ "x" := by
      intro h
      have := congrArg String.length h
      rw [String.length_append] at this
      have hx : "x".length = 1 := rfl
      omega
    simp [VendorRegister.handleSubmit, hne]
  · simp [VendorRegister.handleSubmit, jsLength]
  all_goals simp [VendorRegister.dataToSend, Json.get?, List.find?]

/-- Membership after one toggle: the toggled id flips, every other id stays. -/
theorem mem_handleVendorToggle (prev : List Nat) (v x : Nat) :
    x ∈ SendRFQModal.handleVendorToggle prev v ↔ (if x = v then x ∉ prev else x ∈ prev) := by
  unfold SendRFQModal.handleVendorToggle
  by_cases hv : v ∈ prev
  · by_cases hx : x = v
    · subst hx
      simp [hv]
    · simp [hv, hx]
  · by_cases hx : x = v
    · subst hx
      simp [hv]
    · simp [hv, hx]

/-- A toggle keeps the selection free of duplicates. -/
theorem nodup_handleVendorToggle (prev : List Nat) (v : Nat) (h : prev.Nodup) :
    (SendRFQModal.handleVendorToggle prev v).Nodup := by
  unfold SendRFQModal.handleVendorToggle
  by_cases hv : v ∈ prev
  · have hc : prev.contains v = true := by simpa using hv
    simp only [hc, if_true]
    exact h.filter _
  · have hc : prev.contains v = false := by simpa using hv
    simp only [hc, Bool.false_eq_true, if_false]
    rw [List.nodup_append]
    refine ⟨h, List.nodup_singleton v, ?_⟩
    intro a ha hb
    simp only [List.mem_singleton] at hb
    subst hb
    exact hv ha

/-- C27: starting from the empty selection, after any sequence of
`handleVendorToggle` calls the selection has no duplicates and holds a vendor
id exactly when that id was toggled an odd number of times; toggling one
vendor twice leaves the set of selected vendors as it was. -/
theorem C27_vendor_toggle (toggles : List Nat) (prev : List Nat) (v : Nat) :
    (toggles.foldl SendRFQModal.handleVendorToggle []).Nodup ∧
    (∀ id, id ∈ toggles.foldl SendRFQModal.handleVendorToggle [] ↔ Odd (toggles.count id)) ∧
    (∀ x, x ∈ SendRFQModal.handleVendorToggle (SendRFQModal.handleVendorToggle prev v) v
      ↔ x ∈ prev) := by
  refine ⟨?_, ?_, ?_⟩
  · induction toggles using List.reverseRecOn with
    | nil => simp
    | append_singleton ts t ih =>
      rw [List.foldl_append]
      exact nodup_handleVendorToggle _ t ih
  · induction toggles using List.reverseRecOn with
    | nil => simp
    | append_singleton ts t ih =>
      intro id
      rw [List.foldl_append, List.count_append]
      simp only [List.foldl_cons, List.foldl_nil, mem_handleVendorToggle]
      by_cases h : id = t
      · subst h
        simp only [if_true, ih, List.count_singleton_self]
        rw [Nat.odd_add_one]
      · have h2 : ¬ (t = id) := fun e => h e.symm
        simp [h, h2, ih, List.count_singleton]
  · intro x
    rw [mem_handleVendorToggle, mem_handleVendorToggle]
    by_cases h : x = v <;> simp [h]

/-- C23: `validatePasswords` returns `true` exactly when the current password
is not empty, the new password has at least 8 characters and holds an upper
case letter, a lower case letter, a digit and a character that is neither
letter nor digit, and the confirmation equals the new password; a new password
missing one of the four classes gets an error on `new_password`. -/
theorem C23_validate_passwords (formData : PasswordFormData) :
    ((ChangePasswordForm.validatePasswords formData).isEmpty = true ↔
      (formData.current_password ≠ "" ∧
       8 ≤ jsLength formData.new_password ∧
       formData.new_password.data.any isUpperAZ = true ∧
       formData.new_password.data.any isLowerAZ = true ∧
       formData.new_password.data.any isDigit09 = true ∧
       formData.new_password.data.any (fun c => !isAlnum c) = true ∧
       formData.confirm_password = formData.new_password)) ∧
    (¬ (formData.new_password.data.any isUpperAZ = true ∧
        formData.new_password.data.any isLowerAZ = true ∧
        formData.new_password.data.any isDigit09 = true ∧
        formData.new_password.data.any (fun c => !isAlnum c) = true) →
      hasErrorOn "new_password" (ChangePasswordForm.validatePasswords formData) = true ∧
      (ChangePasswordForm.validatePasswords formData).isEmpty = false) := by
  have hlen0 : formData.new_password = "" → jsLength formData.new_password = 0 := by
    intro h
    rw [h]
    rfl
  have key : (ChangePasswordForm.validatePasswords formData).isEmpty
      = (!(formData.current_password == "") && !(formData.new_password == "")
          && decide (8 ≤ jsLength formData.new_password)
          && ValidationRules.passwordTest formData.new_password
          && !(formData.confirm_password == "")
          && !(formData.new_password != formData.confirm_password)) := by
    cases hc : (formData.current_password == "") <;>
    cases hn : (formData.new_password == "") <;>
    by_cases hl : jsLength formData.new_password < 8 <;>
    cases ht : ValidationRules.passwordTest formData.new_password <;>
    cases hf : (formData.confirm_password == "") <;>
    cases he : (formData.new_password != formData.confirm_password) <;>
    simp only [ChangePasswordForm.validatePasswords, validateField, ValidationRules.test, hc, hn,
      hl, ht, hf, he] <;>
    simp <;> omega
  constructor
  · rw [key]
    simp only [Bool.and_eq_true, decide_eq_true_eq, Bool.not_eq_true', beq_eq_false_iff_ne,
      bne_eq_false_iff_eq, ne_eq]
    constructor
    · rintro ⟨⟨⟨⟨⟨hc, hn⟩, hl⟩, ht⟩, hf⟩, he⟩
      have hl8 : ¬ (jsLength formData.new_password < 8) := by omega
      simp only [ValidationRules.passwordTest, hl8, if_false, Bool.and_eq_true] at ht
      exact ⟨hc, hl, ht.1.1.1, ht.1.1.2, ht.1.2, ht.2, he.symm⟩
    · rintro ⟨hc, hl, h1, h2, h3, h4, he⟩
      have hl8 : ¬ (jsLength formData.new_password < 8) := by omega
      have hn : formData.new_password ≠ "" := by
        intro h
        have := hlen0 h
        omega
      refine ⟨⟨⟨⟨⟨hc, hn⟩, hl⟩, ?_⟩, ?_⟩, he.symm⟩
      · simp only [ValidationRules.passwordTest, hl8, if_false, h1, h2, h3, h4, Bool.and_self]
      · rw [he]
        exact hn
  · intro hmiss
    have herr : hasErrorOn "new_password" (ChangePasswordForm.validatePasswords formData)
        = true := by
      by_cases hn : formData.new_password = ""
      · simp [ChangePasswordForm.validatePasswords, hasErrorOn, hn]
      · by_cases hl : jsLength formData.new_password < 8
        · simp [ChangePasswordForm.validatePasswords, hasErrorOn, hn, hl]
        · have htest : ValidationRules.passwordTest formData.new_password = false := by
            simp only [ValidationRules.passwordTest, hl, if_false]
            cases h1 : formData.new_password.data.any isUpperAZ <;>
            cases h2 : formData.new_password.data.any isLowerAZ <;>
            cases h3 : formData.new_password.data.any isDigit09 <;>
            cases h4 : formData.new_password.data.any (fun c => !isAlnum c) <;>
            simp_all
          simp [ChangePasswordForm.validatePasswords, hasErrorOn, hn, hl, validateField,
            ValidationRules.test, htest]
    refine ⟨herr, ?_⟩
    cases hempty : (ChangePasswordForm.validatePasswords formData) with
    | nil => rw [hempty] at herr; simp [hasErrorOn] at herr
    | cons x xs => rfl

/-- Witness for C23: a new password without a digit is refused. -/
theorem C23_validate_passwords_witness :
    hasErrorOn "new_password" (ChangePasswordForm.validatePasswords
      { current_password := "old", new_password := "Abcdefg!", confirm_password := "Abcdefg!" })
      = true :=
  ((C23_validate_passwords
    { current_password := "old", new_password := "Abcdefg!", confirm_password := "Abcdefg!" }).2
    (by decide)).1

/-- C29, as stated, fails: `ABCDEFGH1!` is rated `strong` although the
password rule refuses it, for it has no lower case letter. -/
theorem C29_counterexample :
    ChangePasswordForm.checkPasswordStrength "ABCDEFGH1!" = "strong" ∧
    ValidationRules.passwordTest "ABCDEFGH1!" = false ∧
    hasErrorOn "new_password" (ChangePasswordForm.validatePasswords
      { current_password := "old", new_password := "ABCDEFGH1!",
        confirm_password := "ABCDEFGH1!" }) = true := by
  refine ⟨by decide, by decide, by decide⟩

/-- C29, amended: a password rated `strong` has at least 10 characters, an
upper case letter, a digit and a character that is neither letter nor digit;
it passes the password rule exactly when it also holds a lower case letter. -/
theorem C29_strong_password (password : String)
    (h : ChangePasswordForm.checkPasswordStrength password = "strong") :
    10 ≤ jsLength password ∧
    password.data.any isUpperAZ = true ∧
    password.data.any isDigit09 = true ∧
    password.data.any (fun c => !isAlnum c) = true ∧
    ValidationRules.passwordTest password = password.data.any isLowerAZ := by
  unfold ChangePasswordForm.checkPasswordStrength at h
  split_ifs at h with h0 h6 h10 hs
  all_goals first
    | exact absurd h (by decide)
    | skip
  · simp at hs
    obtain ⟨⟨⟨hlen, hu⟩, hd⟩, hsp⟩ := hs
    have hl8 : ¬ (jsLength password < 8) := by omega
    refine ⟨hlen, by simpa using hu, by simpa using hd, by simpa using hsp, ?_⟩
    simp only [ValidationRules.passwordTest, hl8, if_false]
    have hu' : password.data.any isUpperAZ = true := by simpa using hu
    have hd' : password.data.any isDigit09 = true := by simpa using hd
    have hsp' : password.data.any (fun c => !isAlnum c) = true := by simpa using hsp
    rw [hu', hd', hsp']
    simp

/-- Witness for C29 amended: a strong password with a lower case letter. -/
theorem C29_strong_password_witness :
    ChangePasswordForm.checkPasswordStrength "Abcdefgh1!" = "strong" ∧
    ValidationRules.passwordTest "Abcdefgh1!" = true :=
  ⟨by decide,
   by rw [(C29_strong_password "Abcdefgh1!" (by decide)).2.2.2.2]; decide⟩

/-- A pattern of one factor matches exactly the texts made of characters of
its class whose length the repetition allows. -/
theorem matchAtoms_single (a : Atom) (s : List Char) :
    matchAtoms [a] s
      = (decide (a.lo ≤ s.length) &&
          (match a.hi with
            | none => true
            | some h => decide (s.length ≤ h)) &&
          s.all a.cls) := by
  rw [Bool.eq_iff_iff]
  simp only [matchAtoms, List.any_eq_true, List.mem_range, Bool.and_eq_true, decide_eq_true_eq,
    List.isEmpty_iff, List.drop_eq_nil_iff]
  constructor
  · rintro ⟨n, hn, ⟨⟨hlo, hhi⟩, hall⟩, hlen⟩
    have hnl : n = s.length := by omega
    subst hnl
    rw [List.take_length] at hall
    exact ⟨⟨hlo, hhi⟩, hall⟩
  · rintro ⟨⟨hlo, hhi⟩, hall⟩
    refine ⟨s.length, by omega, ⟨⟨hlo, hhi⟩, ?_⟩, le_refl _⟩
    rw [List.take_length]
    exact hall

/-- Matching is monotone in the classes: when the factors of a second pattern
have the same repetitions and classes at least as wide on the characters
satisfying `P`, every text of such characters the first matches, the second
matches. -/
theorem matchAtoms_mono (P : Char → Bool) :
    ∀ (as bs : List Atom),
      List.Forall₂ (fun a b => a.lo = b.lo ∧ a.hi = b.hi ∧
        ∀ c, P c = true → a.cls c = true → b.cls c = true) as bs →
      ∀ s : List Char, (∀ c ∈ s, P c = true) →
        matchAtoms as s = true → matchAtoms bs s = true := by
  intro as bs h
  induction h with
  | nil => intro s _ hm; exact hm
  | @cons a b as bs hab _ ih =>
    intro s hs hm
    obtain ⟨hlo, hhi, hcls⟩ := hab
    simp only [matchAtoms, List.any_eq_true, List.mem_range, Bool.and_eq_true,
      decide_eq_true_eq] at hm ⊢
    obtain ⟨n, hn, ⟨⟨h1, h2⟩, h3⟩, h4⟩ := hm
    refine ⟨n, hn, ⟨⟨by omega, by rw [← hhi]; exact h2⟩, ?_⟩, ?_⟩
    · rw [List.all_eq_true] at h3 ⊢
      intro c hc
      exact hcls c (hs c (List.mem_of_mem_take hc)) (h3 c hc)
    · exact ih (s.drop n) (fun c hc => hs c (List.mem_of_mem_drop hc)) h4

/-- A text ending in a non-empty text is not empty. -/
theorem append_ne_empty (a b : String) (hb : 0 < b.length) : a ++ b ≠ "" := by
  intro h
  have := congrArg String.length h
  rw [String.length_append] at this
  have h0 : "".length = 0 := rfl
  omega

/-- A non-empty text has a positive JavaScript length. -/
theorem jsLength_pos (s : String) (h : s ≠ "") : 0 < jsLength s := by
  unfold jsLength
  cases hd : s.data with
  | nil =>
    exfalso
    apply h
    apply String.ext
    rw [hd]
  | cons c cs =>
    simp only [List.map_cons, List.sum_cons]
    split <;> omega

/-- The trim of the empty text is empty. -/
theorem jsTrim_empty : jsTrim "" = "" := by decide

/-- A text matches a pattern when a prefix of a length the first factor allows
is made of its class and the rest matches the remaining factors. -/
theorem matchAtoms_cons_of (a : Atom) (rest : List Atom) (s : List Char) (n : Nat)
    (hn : n ≤ s.length) (hlo : a.lo ≤ n)
    (hhi : (match a.hi with
      | none => true
      | some h => decide (n ≤ h)) = true)
    (hall : (s.take n).all a.cls = true)
    (hrest : matchAtoms rest (s.drop n) = true) :
    matchAtoms (a :: rest) s = true := by
  simp only [matchAtoms, List.any_eq_true, List.mem_range, Bool.and_eq_true, decide_eq_true_eq]
  exact ⟨n, by omega, ⟨⟨hlo, hhi⟩, hall⟩, hrest⟩
/-- C30, as stated, fails: the admin's form accepts the e-mail `j+d@ex.io` and
the phone `12345+67890`, which the employee's profile form refuses. -/
theorem C30_counterexample :
    EmployeeForm.validateForm plusEmailEmployee = [] ∧
    hasErrorOn "email" (EditProfileForm.validateForm (profileOf plusEmailEmployee)) = true ∧
    EmployeeForm.validateEmail "j+d@ex.io" = "" ∧
    ValidationRules.emailTest "j+d@ex.io" = false ∧
    EmployeeForm.validateForm plusPhoneEmployee = [] ∧
    hasErrorOn "phone" (EditProfileForm.validateForm (profileOf plusPhoneEmployee)) = true ∧
    EmployeeForm.validatePhone "12345+67890" = "" ∧
    ValidationRules.phoneTest "12345+67890" = false := by
  refine ⟨by decide, by decide, by decide, by decide, by decide, by decide, by decide,
    by decide⟩
/-- A name the admin's `validateName` accepts is not blank and matches the
letters-and-spaces pattern. -/
theorem validateName_accepts (name fieldName : String)
    (h : EmployeeForm.validateName name fieldName = "") :
    (jsTrim name == "") = false ∧
    matchAtoms [Atom.plus (fun c => isLetter c || isJsWhitespace c)] name.data = true := by
  unfold EmployeeForm.validateName at h
  split_ifs at h with h1 h2 h3 h4
  · exact absurd h (append_ne_empty _ _ (by decide))
  · exact absurd h (append_ne_empty _ _ (by decide))
  · exact absurd h (append_ne_empty _ _ (by decide))
  · exact absurd h (append_ne_empty _ _ (by decide))
  · simp only [Bool.or_eq_true, not_or, Bool.not_eq_true] at h1
    simp only [Bool.not_eq_true', Bool.not_eq_false] at h2
    exact ⟨h1.2, h2⟩

/-- The employee's profile form accepts every name the admin's form accepts. -/
theorem requiredField_name (field label name fieldName : String)
    (h : EmployeeForm.validateName name fieldName = "") :
    EditProfileForm.requiredField field label .name name = [] := by
  obtain ⟨h1, h2⟩ := validateName_accepts name fieldName h
  have hne : jsTrim name ≠ "" := by simpa using h1
  have hpos := jsLength_pos _ hne
  simp [EditProfileForm.requiredField, h1, validateField, ValidationRules.test,
    ValidationRules.nameTest, h2, hpos]

/-- The employee's profile form accepts every department or position text the
admin's form accepts. -/
theorem optionalField_department (field : String) (rule : RuleName) (value : String)
    (hrule : ValidationRules.test rule = ValidationRules.departmentTest)
    (h : (jsTrim value == "") = false →
      matchAtoms [Atom.plus EmployeeForm.departmentClass] value.data = true) :
    EditProfileForm.optionalField field rule value = [] := by
  cases hb : (jsTrim value == "")
  · have hm := h hb
    have hwide : matchAtoms [Atom.plus ValidationRules.departmentClass] value.data = true := by
      refine matchAtoms_mono (fun _ => true) _ _ ?_ value.data (fun _ _ => rfl) hm
      refine List.Forall₂.cons ⟨rfl, rfl, ?_⟩ List.Forall₂.nil
      intro c _ hc
      simp only [Atom.plus, EmployeeForm.departmentClass, ValidationRules.departmentClass,
        isAlnum, Bool.or_eq_true] at hc ⊢
      tauto
    have hne : (jsTrim value != "") = true := by simpa [bne_iff_ne] using hb
    simp [EditProfileForm.optionalField, hne, validateField, hrule,
      ValidationRules.departmentTest, hb, hwide]
  · have hne : (jsTrim value != "") = false := by simpa [bne_iff_ne] using hb
    simp [EditProfileForm.optionalField, hne]

/-- What the admin's `validateDepartment` accepts. -/
theorem validateDepartment_accepts (department : String)
    (h : EmployeeForm.validateDepartment department = "") :
    (jsTrim department == "") = false →
      matchAtoms [Atom.plus EmployeeForm.departmentClass] department.data = true := by
  intro hb
  have hne : jsTrim department ≠ "" := by simpa using hb
  have hd : department ≠ "" := by
    intro h0
    rw [h0] at hne
    exact hne jsTrim_empty
  unfold EmployeeForm.validateDepartment at h
  have hc : (department != "" && jsTrim department != "") = true := by
    simp [bne_iff_ne, hd, hne]
  simp only [hc, if_true] at h
  split_ifs at h with h1 h2
  · exact absurd h (by decide)
  · exact absurd h (by decide)
  · simpa using h1

/-- What the admin's `validatePosition` accepts. -/
theorem validatePosition_accepts (position : String)
    (h : EmployeeForm.validatePosition position = "") :
    (jsTrim position == "") = false →
      matchAtoms [Atom.plus EmployeeForm.departmentClass] position.data = true := by
  intro hb
  have hne : jsTrim position ≠ "" := by simpa using hb
  have hd : position ≠ "" := by
    intro h0
    rw [h0] at hne
    exact hne jsTrim_empty
  unfold EmployeeForm.validatePosition at h
  have hc : (position != "" && jsTrim position != "") = true := by
    simp [bne_iff_ne, hd, hne]
  simp only [hc, if_true] at h
  split_ifs at h with h1 h2
  · exact absurd h (by decide)
  · exact absurd h (by decide)
  · simpa using h1

/-- An e-mail address without a plus sign that the admin's `validateEmail`
accepts passes the employee's e-mail rule and is not blank. -/
theorem validateEmail_accepts (email : String)
    (h : EmployeeForm.validateEmail email = "") (hplus : ∀ c ∈ email.data, c ≠ '+') :
    (jsTrim email == "") = false ∧ ValidationRules.emailTest email = true := by
  unfold EmployeeForm.validateEmail at h
  split_ifs at h with h1 h2
  · exact absurd h (by decide)
  · exact absurd h (by decide)
  · simp only [Bool.or_eq_true, not_or, Bool.not_eq_true] at h1
    simp only [Bool.not_eq_true', Bool.not_eq_false] at h2
    refine ⟨h1.2, ?_⟩
    unfold ValidationRules.emailTest
    refine matchAtoms_mono (fun c => c != '+') _ _ ?_ email.data
      (fun c hc => by simpa [bne_iff_ne] using hplus c hc) h2
    refine List.Forall₂.cons ⟨rfl, rfl, ?_⟩
      (List.Forall₂.cons ⟨rfl, rfl, fun _ _ hc => hc⟩
        (List.Forall₂.cons ⟨rfl, rfl, fun _ _ hc => hc⟩
          (List.Forall₂.cons ⟨rfl, rfl, fun _ _ hc => hc⟩
            (List.Forall₂.cons ⟨rfl, rfl, fun _ _ hc => hc⟩ List.Forall₂.nil))))
    intro c hp hc
    simp only [Atom.plus, EmployeeForm.emailLocalClass, ValidationRules.emailLocalClass,
      Bool.or_eq_true, bne_iff_ne, ne_eq, beq_iff_eq] at hc hp ⊢
    tauto

/-- The admin's cleaning of a phone number also removes the plus signs that the
employee's cleaning keeps. -/
theorem adminClean_eq (phone : List Char) :
    phone.filter (fun c => !EmployeeForm.phoneStripped c)
      = (phone.filter (fun c => !ValidationRules.phoneStripped c)).filter (fun c => c != '+') := by
  rw [List.filter_filter]
  apply List.filter_congr
  intro c _
  by_cases h2 : c = ' '
  · subst h2
    decide
  · by_cases h1 : c = '+'
    · subst h1
      decide
    · have e1 : (c == '+') = false := beq_false_of_ne h1
      have e2 : (c == ' ') = false := beq_false_of_ne h2
      have e3 : (c != '+') = true := bne_iff_ne.mpr h1
      simp only [EmployeeForm.phoneStripped, ValidationRules.phoneStripped, e1, e2, e3,
        Bool.or_false, Bool.true_and]

/-- A phone number the admin's `validatePhone` accepts passes the employee's
phone rule when, after the employee's cleaning, a plus sign stands at most in
front. -/
theorem validatePhone_accepts (phone : String)
    (h : EmployeeForm.validatePhone phone = "")
    (hplus : ∀ c ∈ (phone.data.filter (fun c => !ValidationRules.phoneStripped c)).tail,
      c ≠ '+') :
    ValidationRules.phoneTest phone = true := by
  unfold ValidationRules.phoneTest
  cases hb : (jsTrim phone == "")
  · have hne : jsTrim phone ≠ "" := by simpa using hb
    have hd : phone ≠ "" := by
      intro h0
      rw [h0] at hne
      exact hne jsTrim_empty
    unfold EmployeeForm.validatePhone at h
    have hc : (phone != "" && jsTrim phone != "") = true := by
      simp [bne_iff_ne, hd, hne]
    simp only [hc, if_true] at h
    split_ifs at h with h1
    · exact absurd h (by decide)
    · simp only [Bool.not_eq_true', Bool.not_eq_false] at h1
      rw [adminClean_eq, matchAtoms_single] at h1
      simp only [Bool.false_eq_true, if_false]
      generalize phone.data.filter (fun c => !ValidationRules.phoneStripped c) = e at h1 hplus
      have hfilter : ∀ l : List Char, (∀ c ∈ l, c ≠ '+') →
          l.filter (fun c => c != '+') = l := by
        intro l hl
        rw [List.filter_eq_self]
        intro c hc
        simpa [bne_iff_ne] using hl c hc
      cases e with
      | nil => simp at h1
      | cons c rest =>
        simp only [List.tail_cons] at hplus
        by_cases hcp : c = '+'
        · subst hcp
          have hrest : ('+' :: rest).filter (fun c => c != '+') = rest := by
            rw [List.filter_cons]
            simp [hfilter rest hplus]
          rw [hrest] at h1
          simp only [Bool.and_eq_true, decide_eq_true_eq] at h1
          refine matchAtoms_cons_of _ _ _ 1 (by simp) (by simp) (by simp) (by simp) ?_
          rw [matchAtoms_single]
          simp only [List.drop_succ_cons, List.drop_zero, Bool.and_eq_true, decide_eq_true_eq]
          exact ⟨⟨by omega, h1.1.2⟩, h1.2⟩
        · have hall : ∀ x ∈ c :: rest, x ≠ '+' := by
            intro x hx
            rcases List.mem_cons.mp hx with hx | hx
            · rw [hx]; exact hcp
            · exact hplus x hx
          rw [hfilter _ hall] at h1
          simp only [Bool.and_eq_true, decide_eq_true_eq] at h1
          refine matchAtoms_cons_of _ _ _ 0 (by simp) (by simp) (by simp) (by simp) ?_
          rw [matchAtoms_single]
          simp only [List.drop_zero, Bool.and_eq_true, decide_eq_true_eq]
          exact ⟨⟨by omega, h1.1.2⟩, h1.2⟩
  · simp
/-- C30, amended: for every employee record the admin's
`EmployeeForm.validateForm` accepts, the employee's `EditProfileForm` accepts
the first name, last name, department and position; it accepts the e-mail
address, which then passes `ValidationRules.email.test`, when the address has
no plus sign, and the phone number, which then passes
`ValidationRules.phone.test`, when after removing spaces, hyphens and
parentheses a plus sign stands at most in front; with both provisos the whole
profile is accepted. -/
theorem C30_admin_record_in_profile_form (formData : EmployeeFormData)
    (hadmin : EmployeeForm.validateForm formData = []) :
    EditProfileForm.requiredField "first_name" "First name" .name formData.first_name = [] ∧
    EditProfileForm.requiredField "last_name" "Last name" .name formData.last_name = [] ∧
    EditProfileForm.optionalField "department" .department formData.department = [] ∧
    EditProfileForm.optionalField "position" .position formData.position = [] ∧
    ((∀ c ∈ formData.email.data, c ≠ '+') →
      ValidationRules.emailTest formData.email = true ∧
      EditProfileForm.requiredField "email" "Email" .email formData.email = []) ∧
    ((∀ c ∈ (formData.phone.data.filter (fun c => !ValidationRules.phoneStripped c)).tail,
        c ≠ '+') →
      ValidationRules.phoneTest formData.phone = true ∧
      EditProfileForm.optionalField "phone" .phone formData.phone = []) ∧
    ((∀ c ∈ formData.email.data, c ≠ '+') →
      (∀ c ∈ (formData.phone.data.filter (fun c => !ValidationRules.phoneStripped c)).tail,
        c ≠ '+') →
      EditProfileForm.validateForm (profileOf formData) = []) := by
  simp only [EmployeeForm.validateForm, List.filter_eq_nil_iff, List.mem_cons,
    List.mem_singleton, List.not_mem_nil, or_false, bne_iff_ne, ne_eq, not_not] at hadmin
  have hemail := hadmin ("email", EmployeeForm.validateEmail formData.email) (by simp)
  have hfirst := hadmin ("first_name", EmployeeForm.validateName formData.first_name
    "First name") (by simp)
  have hlast := hadmin ("last_name", EmployeeForm.validateName formData.last_name
    "Last name") (by simp)
  have hphone := hadmin ("phone", EmployeeForm.validatePhone formData.phone) (by simp)
  have hdept := hadmin ("department", EmployeeForm.validateDepartment formData.department)
    (by simp)
  have hpos := hadmin ("position", EmployeeForm.validatePosition formData.position) (by simp)
  simp only at hemail hfirst hlast hphone hdept hpos
  have r1 := requiredField_name "first_name" "First name" _ _ hfirst
  have r2 := requiredField_name "last_name" "Last name" _ _ hlast
  have r3 := optionalField_department "department" .department formData.department rfl
    (validateDepartment_accepts _ hdept)
  have r4 := optionalField_department "position" .position formData.position rfl
    (validatePosition_accepts _ hpos)
  have r5 : (∀ c ∈ formData.email.data, c ≠ '+') →
      ValidationRules.emailTest formData.email = true ∧
      EditProfileForm.requiredField "email" "Email" .email formData.email = [] := by
    intro hplus
    obtain ⟨hb, ht⟩ := validateEmail_accepts _ hemail hplus
    refine ⟨ht, ?_⟩
    simp [EditProfileForm.requiredField, hb, validateField, ValidationRules.test, ht]
  have r6 : (∀ c ∈ (formData.phone.data.filter
        (fun c => !ValidationRules.phoneStripped c)).tail, c ≠ '+') →
      ValidationRules.phoneTest formData.phone = true ∧
      EditProfileForm.optionalField "phone" .phone formData.phone = [] := by
    intro hplus
    have ht := validatePhone_accepts _ hphone hplus
    refine ⟨ht, ?_⟩
    simp [EditProfileForm.optionalField, validateField, ValidationRules.test, ht]
  refine ⟨r1, r2, r3, r4, r5, r6, ?_⟩
  intro he hp
  simp only [EditProfileForm.validateForm, profileOf, r1, r2, r3, r4, (r5 he).2, (r6 hp).2,
    List.append_nil]

/-- Witness for C30 amended: a record with the phone `+1 555 123-4567`. -/
theorem C30_admin_record_in_profile_form_witness :
    EmployeeForm.validateForm plainEmployee = [] ∧
    EditProfileForm.validateForm (profileOf plainEmployee) = [] :=
  ⟨by decide,
   (C30_admin_record_in_profile_form plainEmployee (by decide)).2.2.2.2.2.2
     (by decide) (by decide)⟩

/-! ### Reports: vendor performance -/

theorem roundPercent_bounds (a b : Nat) (hb : 0 < b) (hab : a ≤ b) :
    0 ≤ roundPercent a b ∧ roundPercent a b ≤ 100 := by
  have hbq : (0 : ℚ) < (b : ℚ) := by exact_mod_cast hb
  have haq : (a : ℚ) ≤ (b : ℚ) := by exact_mod_cast hab
  have h0 : (0 : ℚ) ≤ (a : ℚ) / (b : ℚ) := by positivity
  have h1 : (a : ℚ) / (b : ℚ) ≤ 1 := (div_le_one hbq).mpr haq
  unfold roundPercent
  constructor
  · apply Int.floor_nonneg.mpr
    linarith
  · have : ⌊(a : ℚ) / (b : ℚ) * 100 + 1 / 2⌋ < 101 := by
      apply Int.floor_lt.mpr
      push_cast
      linarith
    omega

theorem mapSet_consistent (m : List (Nat × Metrics)) (k : Nat) (v : Metrics)
    (hm : ∀ e ∈ m, e.2.consistent) (hv : v.consistent) :
    ∀ e ∈ ReportsAnalyticsView.mapSet m k v, e.2.consistent := by
  induction m with
  | nil =>
    intro e he
    simp only [ReportsAnalyticsView.mapSet, List.mem_singleton] at he
    subst he
    exact hv
  | cons x rest ih =>
    obtain ⟨k0, v0⟩ := x
    intro e he
    simp only [ReportsAnalyticsView.mapSet] at he
    split_ifs at he with h1 h2
    · rcases List.mem_cons.mp he with h | h
      · subst h; exact hv
      · exact hm e h
    · rcases List.mem_cons.mp he with h | h
      · subst h; exact hv
      · exact hm e (List.mem_cons_of_mem _ h)
    · rcases List.mem_cons.mp he with h | h
      · subst h; exact hm _ (List.mem_cons_self _ _)
      · exact ih (fun e he => hm e (List.mem_cons_of_mem _ he)) e h

theorem mapUpdate_consistent (m : List (Nat × Metrics)) (k : Nat) (f : Metrics → Metrics)
    (hf : ∀ v : Metrics, v.consistent → (f v).consistent)
    (hm : ∀ e ∈ m, e.2.consistent) :
    ∀ e ∈ ReportsAnalyticsView.mapUpdate m k f, e.2.consistent := by
  intro e he
  simp only [ReportsAnalyticsView.mapUpdate, List.mem_map] at he
  obtain ⟨x, hx, rfl⟩ := he
  split_ifs
  · exact hf _ (hm x hx)
  · exact hm x hx

theorem countOrderIn_consistent (o : OrderRec) (v : Metrics) (hv : v.consistent) :
    (ReportsAnalyticsView.countOrderIn o v).consistent := by
  obtain ⟨h1, h2, h3⟩ := hv
  unfold ReportsAnalyticsView.countOrderIn
  simp only
  split_ifs
  · split
    · split_ifs <;> refine ⟨?_, ?_, ?_⟩ <;> simp only <;> omega
    · refine ⟨?_, ?_, ?_⟩ <;> simp only <;> omega
  · refine ⟨?_, ?_, ?_⟩ <;> simp only <;> omega

theorem countReceiptIn_consistent (r : ReceiptRec) (v : Metrics) (hv : v.consistent) :
    (ReportsAnalyticsView.countReceiptIn r v).consistent := by
  obtain ⟨h1, h2, h3⟩ := hv
  unfold ReportsAnalyticsView.countReceiptIn
  by_cases c1 : r.condition = "good"
  · rw [c1]
    refine ⟨?_, ?_, ?_⟩ <;> simp <;> omega
  · by_cases c2 : r.condition = "damaged"
    · rw [c2]
      refine ⟨?_, ?_, ?_⟩ <;> simp <;> omega
    · by_cases c3 : r.condition = "shortage"
      · rw [c3]
        refine ⟨?_, ?_, ?_⟩ <;> simp <;> omega
      · by_cases c4 : r.condition = "partial"
        · rw [c4]
          refine ⟨?_, ?_, ?_⟩ <;> simp <;> omega
        · have e1 : (r.condition == "good") = false := beq_false_of_ne c1
          have e2 : (r.condition == "damaged") = false := beq_false_of_ne c2
          have e3 : (r.condition == "shortage") = false := beq_false_of_ne c3
          have e4 : (r.condition == "partial") = false := beq_false_of_ne c4
          simp only [e1, e2, e3, e4, Bool.false_eq_true, if_false]
          refine ⟨?_, ?_, ?_⟩ <;> simp only <;> omega

theorem foldl_consistent {α : Type} (step : List (Nat × Metrics) → α → List (Nat × Metrics))
    (hstep : ∀ m a, (∀ e ∈ m, e.2.consistent) → ∀ e ∈ step m a, e.2.consistent)
    (l : List α) (m : List (Nat × Metrics)) (hm : ∀ e ∈ m, e.2.consistent) :
    ∀ e ∈ l.foldl step m, e.2.consistent := by
  induction l generalizing m with
  | nil => simpa using hm
  | cons a rest ih =>
    simp only [List.foldl_cons]
    exact ih _ (hstep m a hm)

theorem vendorMap_consistent (vendors : List VendorRec) (orders : List OrderRec)
    (receipts : List ReceiptRec) :
    ∀ e ∈ ReportsAnalyticsView.vendorMap vendors orders receipts, e.2.consistent := by
  unfold ReportsAnalyticsView.vendorMap
  apply foldl_consistent
  · intro m r hm
    unfold ReportsAnalyticsView.countReceipt
    split
    · exact hm
    · exact mapUpdate_consistent m _ _ (countReceiptIn_consistent r) hm
  apply foldl_consistent
  · intro m o hm
    unfold ReportsAnalyticsView.countOrder
    split
    · exact hm
    · exact mapUpdate_consistent m _ _ (countOrderIn_consistent o) hm
  apply foldl_consistent
  · intro m v hm
    unfold ReportsAnalyticsView.initVendor
    apply mapSet_consistent m _ _ hm
    refine ⟨?_, ?_, ?_⟩ <;> simp
  · intro e he
    simp at he

theorem mem_insertRow (r x : PerfRow) (l : List PerfRow)
    (h : x ∈ ReportsAnalyticsView.insertRow r l) : x = r ∨ x ∈ l := by
  induction l with
  | nil =>
    simp only [ReportsAnalyticsView.insertRow, List.mem_singleton] at h
    exact Or.inl h
  | cons y ys ih =>
    simp only [ReportsAnalyticsView.insertRow] at h
    split_ifs at h
    · rcases List.mem_cons.mp h with h | h
      · exact Or.inr (h ▸ List.mem_cons_self _ _)
      · rcases ih h with h | h
        · exact Or.inl h
        · exact Or.inr (List.mem_cons_of_mem _ h)
    · rcases List.mem_cons.mp h with h | h
      · exact Or.inl h
      · exact Or.inr h

theorem mem_sortByTotalDesc (x : PerfRow) (rows : List PerfRow)
    (h : x ∈ ReportsAnalyticsView.sortByTotalDesc rows) : x ∈ rows := by
  induction rows with
  | nil => simp [ReportsAnalyticsView.sortByTotalDesc] at h
  | cons r rest ih =>
    simp only [ReportsAnalyticsView.sortByTotalDesc, List.foldr_cons] at h
    rcases mem_insertRow _ _ _ h with h | h
    · exact h ▸ List.mem_cons_self _ _
    · exact List.mem_cons_of_mem _ (ih h)

/-- C28: for all lists of vendors, purchase orders and goods receipts, every
row of `vendorPerf` has `onTimePOs + latePOs ≤ deliveredPOs ≤ totalPOs` and
`grGood + grDamaged + grShortage + grPartial ≤ grTotal`; its `onTimeRate` is
`null` exactly when `onTimePOs + latePOs` is 0 and its `grQualityRate` exactly
when `grTotal` is 0, and a rate that is not `null` is an integer from 0 to 100. -/
theorem C28_vendor_rows (vendors : List VendorRec) (orders : List OrderRec)
    (receipts : List ReceiptRec) (row : PerfRow)
    (hrow : row ∈ ReportsAnalyticsView.vendorPerf vendors orders receipts) :
    row.metrics.onTimePOs + row.metrics.latePOs ≤ row.metrics.deliveredPOs ∧
    row.metrics.deliveredPOs ≤ row.metrics.totalPOs ∧
    row.metrics.grGood + row.metrics.grDamaged + row.metrics.grShortage
      + row.metrics.grPartial ≤ row.metrics.grTotal ∧
    (row.onTimeRate = none ↔ row.metrics.onTimePOs + row.metrics.latePOs = 0) ∧
    (row.grQualityRate = none ↔ row.metrics.grTotal = 0) ∧
    (∀ p : Int, row.onTimeRate = some p → 0 ≤ p ∧ p ≤ 100) ∧
    (∀ p : Int, row.grQualityRate = some p → 0 ≤ p ∧ p ≤ 100) := by
  have h1 := mem_sortByTotalDesc _ _ (List.mem_of_mem_take hrow)
  simp only [List.mem_map, List.mem_filter] at h1
  obtain ⟨v, ⟨⟨e, he, hev⟩, -⟩, rfl⟩ := h1
  have hc : v.consistent := hev ▸ vendorMap_consistent vendors orders receipts e he
  obtain ⟨c1, c2, c3⟩ := hc
  refine ⟨c1, c2, c3, ?_, ?_, ?_, ?_⟩
  · simp only [ReportsAnalyticsView.withRates]
    split_ifs with h <;> simp <;> omega
  · simp only [ReportsAnalyticsView.withRates]
    split_ifs with h <;> simp <;> omega
  · intro p hp
    simp only [ReportsAnalyticsView.withRates] at hp
    split_ifs at hp with h
    · cases hp
      exact roundPercent_bounds _ _ h (by omega)
  · intro p hp
    simp only [ReportsAnalyticsView.withRates] at hp
    split_ifs at hp with h
    · cases hp
      exact roundPercent_bounds _ _ h (by omega)

/-- C28, an instance: the one row of the sample report, with one delivery on
time, one late and one good receipt. -/
theorem C28_vendor_rows_witness :
    ReportsAnalyticsView.withRates reportMetrics
      ∈ ReportsAnalyticsView.vendorPerf reportVendors reportOrders reportReceipts ∧
    (ReportsAnalyticsView.withRates reportMetrics).onTimeRate = some 50 ∧
    (ReportsAnalyticsView.withRates reportMetrics).grQualityRate = some 100 ∧
    (∀ p : Int, (ReportsAnalyticsView.withRates reportMetrics).onTimeRate = some p →
      0 ≤ p ∧ p ≤ 100) := by
  have hmem : ReportsAnalyticsView.withRates reportMetrics
      ∈ ReportsAnalyticsView.vendorPerf reportVendors reportOrders reportReceipts := by
    have : ReportsAnalyticsView.vendorPerf reportVendors reportOrders reportReceipts
        = [ReportsAnalyticsView.withRates reportMetrics] := rfl
    rw [this]
    exact List.mem_singleton_self _
  refine ⟨hmem, ?_, ?_, ?_⟩
  · simp only [ReportsAnalyticsView.withRates, reportMetrics, roundPercent]
    norm_num
  · simp only [ReportsAnalyticsView.withRates, reportMetrics, roundPercent]
    norm_num
  · exact (C28_vendor_rows reportVendors reportOrders reportReceipts _ hmem).2.2.2.2.2.1

/-! ### The axios instance of `api.js` -/

theorem api_resolved (server : Nat → AxiosConfig → ServerReply)
    (refreshServer : Option String → Option String) (store : TokenStore) (n : Nat)
    (config : AxiosConfig) (data : String)
    (hs : server n (api.requestInterceptor store config) = .ok data) :
    api server refreshServer store n config =
      { outcome := .resolved data, store := store
        trace := [.sent (api.requestInterceptor store config)] } := by
  rw [api]
  simp only [hs]

theorem api_rejected (server : Nat → AxiosConfig → ServerReply)
    (refreshServer : Option String → Option String) (store : TokenStore) (n : Nat)
    (config : AxiosConfig) (status : Option Nat)
    (hs : server n (api.requestInterceptor store config) = .error status)
    (hno : status ≠ some 401 ∨ config._retry = true) :
    api server refreshServer store n config =
      { outcome := .rejected (.ofRequest (api.requestInterceptor store config) status)
        store := store, trace := [.sent (api.requestInterceptor store config)] } := by
  have hr : (api.requestInterceptor store config)._retry = config._retry := by
    unfold api.requestInterceptor
    split
    · split_ifs <;> rfl
    · rfl
  have hcond : ¬ ((status == some 401 && !(api.requestInterceptor store config)._retry) = true) := by
    rw [hr]
    rcases hno with h | h
    · simp [h]
    · simp [h]
  rw [api]
  simp only [hs]
  rw [dif_neg hcond]

theorem requestInterceptor_replayed (store : TokenStore) (config : AxiosConfig)
    (access : String) :
    api.requestInterceptor { store with access := some access }
      { config with _retry := true, authorization := some ("Bearer " ++ access) }
      = { config with _retry := true, authorization := some ("Bearer " ++ access) } := by
  unfold api.requestInterceptor
  simp only
  split_ifs <;> rfl

theorem api_refreshed (server : Nat → AxiosConfig → ServerReply)
    (refreshServer : Option String → Option String) (store : TokenStore) (n : Nat)
    (config : AxiosConfig) (access : String)
    (hs : server n (api.requestInterceptor store config) = .error (some 401))
    (hretry : config._retry = false)
    (hrefresh : refreshServer store.refresh = some access) :
    api server refreshServer store n config =
      { outcome :=
          match server (n + 1) { api.requestInterceptor store config with
              _retry := true, authorization := some ("Bearer " ++ access) } with
          | .ok data => .resolved data
          | .error status => .rejected (.ofRequest { api.requestInterceptor store config with
              _retry := true, authorization := some ("Bearer " ++ access) } status)
        store := { store with access := some access }
        trace := [.sent (api.requestInterceptor store config),
          .refreshPost "http://127.0.0.1:8000/api/token/refresh/" store.refresh,
          .setItem "access" access,
          .sent { api.requestInterceptor store config with
            _retry := true, authorization := some ("Bearer " ++ access) }] } := by
  have hr : (api.requestInterceptor store config)._retry = false := by
    unfold api.requestInterceptor
    split
    · split_ifs <;> exact hretry
    · exact hretry
  have hcond : ((some 401 == some 401 && !(api.requestInterceptor store config)._retry) = true) := by
    rw [hr]
    rfl
  have hrep := requestInterceptor_replayed store (api.requestInterceptor store config) access
  rw [api]
  simp only [hs]
  rw [dif_pos hcond]
  simp only [hrefresh]
  cases h2 : server (n + 1) { api.requestInterceptor store config with
      _retry := true, authorization := some ("Bearer " ++ access) } with
  | ok data =>
    rw [api_resolved server refreshServer _ (n + 1) _ data (by rw [hrep]; exact h2)]
    rw [hrep]
    rfl
  | error status =>
    rw [api_rejected server refreshServer _ (n + 1) _ status (by rw [hrep]; exact h2)
      (Or.inr rfl)]
    rw [hrep]
    rfl

theorem api_refresh_failed (server : Nat → AxiosConfig → ServerReply)
    (refreshServer : Option String → Option String) (store : TokenStore) (n : Nat)
    (config : AxiosConfig)
    (hs : server n (api.requestInterceptor store config) = .error (some 401))
    (hretry : config._retry = false)
    (hrefresh : refreshServer store.refresh = none) :
    api server refreshServer store n config =
      { outcome := .rejected .ofRefresh, store := store
        trace := [.sent (api.requestInterceptor store config),
          .refreshPost "http://127.0.0.1:8000/api/token/refresh/" store.refresh] } := by
  have hr : (api.requestInterceptor store config)._retry = false := by
    unfold api.requestInterceptor
    split
    · split_ifs <;> exact hretry
    · exact hretry
  have hcond : ((some 401 == some 401 && !(api.requestInterceptor store config)._retry) = true) := by
    rw [hr]
    rfl
  rw [api]
  simp only [hs]
  rw [dif_pos hcond]
  simp only [hrefresh]

theorem api_counts (server : Nat → AxiosConfig → ServerReply)
    (refreshServer : Option String → Option String) (store : TokenStore) (n : Nat)
    (config : AxiosConfig) :
    refreshCalls (api server refreshServer store n config).trace ≤ 1 ∧
    sentRequests (api server refreshServer store n config).trace ≤ 2 ∧
    1 ≤ sentRequests (api server refreshServer store n config).trace := by
  cases hs : server n (api.requestInterceptor store config) with
  | ok data =>
    rw [api_resolved server refreshServer store n config data hs]
    simp [refreshCalls, sentRequests]
  | error status =>
    by_cases hno : status ≠ some 401 ∨ config._retry = true
    · rw [api_rejected server refreshServer store n config status hs hno]
      simp [refreshCalls, sentRequests]
    · have h401 : status = some 401 := by
        by_contra h
        exact hno (Or.inl h)
      have hretry : config._retry = false := by
        cases hc : config._retry with
        | false => rfl
        | true => exact absurd (Or.inr hc) hno
      subst h401
      cases hrefresh : refreshServer store.refresh with
      | none =>
        rw [api_refresh_failed server refreshServer store n config hs hretry hrefresh]
        simp [refreshCalls, sentRequests]
      | some access =>
        rw [api_refreshed server refreshServer store n config access hs hretry hrefresh]
        simp [refreshCalls, sentRequests]

/-- C22: a call `api(config)` is retried at most once. When the server answers
an error that is not a 401, or a 401 to a request already marked `_retry`, the
call is rejected with that error after the one request, with no refresh call.
When it answers 401 to a request not yet marked and the refresh call resolves
with `access`, the interceptor posts the stored refresh token to
`token/refresh/`, stores `access` under the key `access` and sends the request
again, marked `_retry` and with the header `Bearer <access>`; the call then
settles as that second request does, an error of it being rejected as it is.
When the refresh call is rejected the call is rejected without a second
request. In every case the trace holds at most one refresh call and one or two
requests. -/
theorem C22_retry_at_most_once (server : Nat → AxiosConfig → ServerReply)
    (refreshServer : Option String → Option String) (store : TokenStore) (n : Nat)
    (config : AxiosConfig) :
    (∀ status : Option Nat,
      server n (api.requestInterceptor store config) = .error status →
      status ≠ some 401 ∨ config._retry = true →
      api server refreshServer store n config =
        { outcome := .rejected (.ofRequest (api.requestInterceptor store config) status)
          store := store, trace := [.sent (api.requestInterceptor store config)] }) ∧
    (∀ access : String,
      server n (api.requestInterceptor store config) = .error (some 401) →
      config._retry = false →
      refreshServer store.refresh = some access →
      api server refreshServer store n config =
        { outcome :=
            match server (n + 1) { api.requestInterceptor store config with
                _retry := true, authorization := some ("Bearer " ++ access) } with
            | .ok data => .resolved data
            | .error status => .rejected (.ofRequest { api.requestInterceptor store config with
                _retry := true, authorization := some ("Bearer " ++ access) } status)
          store := { store with access := some access }
          trace := [.sent (api.requestInterceptor store config),
            .refreshPost "http://127.0.0.1:8000/api/token/refresh/" store.refresh,
            .setItem "access" access,
            .sent { api.requestInterceptor store config with
              _retry := true, authorization := some ("Bearer " ++ access) }] }) ∧
    (server n (api.requestInterceptor store config) = .error (some 401) →
      config._retry = false →
      refreshServer store.refresh = none →
      api server refreshServer store n config =
        { outcome := .rejected .ofRefresh, store := store
          trace := [.sent (api.requestInterceptor store config),
            .refreshPost "http://127.0.0.1:8000/api/token/refresh/" store.refresh] }) ∧
    refreshCalls (api server refreshServer store n config).trace ≤ 1 ∧
    sentRequests (api server refreshServer store n config).trace ≤ 2 ∧
    1 ≤ sentRequests (api server refreshServer store n config).trace :=
  ⟨fun status hs hno => api_rejected server refreshServer store n config status hs hno,
   fun access hs hretry hrefresh =>
     api_refreshed server refreshServer store n config access hs hretry hrefresh,
   fun hs hretry hrefresh => api_refresh_failed server refreshServer store n config hs hretry hrefresh,
   api_counts server refreshServer store n config⟩

/-- C22, two instances. A request with the expired token `old` gets a 401, the
token `new` is fetched and stored, and the replay with `Bearer new` resolves.
The same request already marked `_retry` is rejected with the 401 at once. -/
theorem C22_retry_at_most_once_witness :
    api expiredOnce refreshToNew { access := some "old", refresh := some "r" } 0
        { url := "purchase-orders/", authorization := none, _retry := false } =
      { outcome := .resolved "orders"
        store := { access := some "new", refresh := some "r" }
        trace := [.sent { url := "purchase-orders/", authorization := some "Bearer old",
                          _retry := false },
          .refreshPost "http://127.0.0.1:8000/api/token/refresh/" (some "r"),
          .setItem "access" "new",
          .sent { url := "purchase-orders/", authorization := some "Bearer new",
                  _retry := true }] } ∧
    api expiredOnce refreshToNew { access := some "old", refresh := some "r" } 0
        { url := "purchase-orders/", authorization := none, _retry := true } =
      { outcome := .rejected (.ofRequest
          { url := "purchase-orders/", authorization := some "Bearer old", _retry := true }
          (some 401))
        store := { access := some "old", refresh := some "r" }
        trace := [.sent { url := "purchase-orders/", authorization := some "Bearer old",
                          _retry := true }] } :=
  ⟨(C22_retry_at_most_once expiredOnce refreshToNew { access := some "old", refresh := some "r" }
      0 { url := "purchase-orders/", authorization := none, _retry := false }).2.1
      "new" rfl rfl rfl,
   (C22_retry_at_most_once expiredOnce refreshToNew { access := some "old", refresh := some "r" }
      0 { url := "purchase-orders/", authorization := none, _retry := true }).1
      (some 401) rfl (Or.inr rfl)⟩

/-! ### Offline payments -/

/-- The text `'Error: ' + message` set in a `catch` block is never empty. -/
theorem error_text_ne_empty (m : String) : (("Error: " ++ m) != "") = true := by
  simp [bne_iff_ne, String.ext_iff]

/-- The requests of a run of `handleOfflinePayment`: the payment `POST`, and
the invoice `PATCH` when the `POST` was answered `ok`. -/
theorem requestsOf_handleOfflinePayment (invoice : Invoice) (pd : PaymentData) (ts : Nat)
    (paymentRes invoiceRes : FetchResult) :
    requestsOf (PaymentModal.handleOfflinePayment invoice pd ts paymentRes invoiceRes)
      = apiFetch (API_BASE_URL ++ "/payments/") (some "POST")
          (some (PaymentModal.paymentBody invoice pd ts)) ::
        (if paymentRes.isOk then [PaymentModal.invoiceRequest invoice pd] else []) := by
  rcases paymentRes with ⟨ok, j⟩ | m
  · cases ok
    · cases j <;>
        simp [PaymentModal.handleOfflinePayment, requestsOf, FetchResult.isOk]
    · rcases invoiceRes with ⟨ok2, j2⟩ | m2
      · cases ok2 <;>
          simp [PaymentModal.handleOfflinePayment, PaymentModal.updateInvoice, requestsOf,
            FetchResult.isOk]
      · simp [PaymentModal.handleOfflinePayment, PaymentModal.updateInvoice, requestsOf,
          FetchResult.isOk]
  · simp [PaymentModal.handleOfflinePayment, requestsOf, FetchResult.isOk]

/-- A run of `handleOfflinePayment` reports an error exactly when one of the
two requests was not answered `ok`. -/
theorem endsInError_handleOfflinePayment (invoice : Invoice) (pd : PaymentData) (ts : Nat)
    (paymentRes invoiceRes : FetchResult) :
    endsInError (PaymentModal.handleOfflinePayment invoice pd ts paymentRes invoiceRes)
      = !(paymentRes.isOk && invoiceRes.isOk) := by
  rcases paymentRes with ⟨ok, j⟩ | m
  · cases ok
    · cases j <;>
        simp [PaymentModal.handleOfflinePayment, endsInError, FetchResult.isOk,
          error_text_ne_empty]
    · rcases invoiceRes with ⟨ok2, j2⟩ | m2
      · cases ok2 <;>
          simp [PaymentModal.handleOfflinePayment, PaymentModal.updateInvoice, endsInError,
            FetchResult.isOk, error_text_ne_empty]
      · simp [PaymentModal.handleOfflinePayment, PaymentModal.updateInvoice, endsInError,
          FetchResult.isOk, error_text_ne_empty]
  · simp [PaymentModal.handleOfflinePayment, endsInError, FetchResult.isOk, error_text_ne_empty]

/-- The double of the total 63152.01. -/
theorem ofRat_total : JsNumber.ofRat (63152.01 : ℚ) = roundToDouble false 6315201 100 := by
  have hn : ((63152.01 : ℚ)).num = 6315201 := by norm_num
  have hd : ((63152.01 : ℚ)).den = 100 := by norm_num
  have hs : decide ((63152.01 : ℚ) < 0) = false := by norm_num
  rw [JsNumber.ofRat, hn, hd, hs]
  rfl

/-- The double of the paid amount 17237.87. -/
theorem ofRat_paid : JsNumber.ofRat (17237.87 : ℚ) = roundToDouble false 1723787 100 := by
  have hn : ((17237.87 : ℚ)).num = 1723787 := by norm_num
  have hd : ((17237.87 : ℚ)).den = 100 := by norm_num
  have hs : decide ((17237.87 : ℚ) < 0) = false := by norm_num
  rw [JsNumber.ofRat, hn, hd, hs]
  rfl

/-- The double of a natural number given as a rational. -/
theorem ofRat_natCast (n : Nat) : JsNumber.ofRat (n : ℚ) = JsNumber.ofNat n := by
  have hs : decide (((n : ℚ)) < 0) = false := by simp
  simp [JsNumber.ofRat, JsNumber.ofNat, hs]

/-- The paid amount and status that `handleOfflinePayment` computes for the
balance of 45914.14 typed on the invoice of 63152.01 with 17237.87 paid. -/
theorem partPaid_typed :
    PaymentModal.newPaidAmount partPaidInvoice balancePayment
      = .finite false 8679546164053278 (-37) ∧
    PaymentModal.newStatus partPaidInvoice balancePayment = "approved" := by
  have h1 : PaymentModal.newPaidAmount partPaidInvoice balancePayment
      = .finite false 8679546164053278 (-37) := by
    simp only [PaymentModal.newPaidAmount, partPaidInvoice, balancePayment, parseFloatOr0,
      FieldValue.parseFloat, ofRat_paid]
    decide
  refine ⟨h1, ?_⟩
  simp only [PaymentModal.newStatus, h1]
  simp only [partPaidInvoice, ofRat_total]
  decide

/-- The amount `PaymentModal` pre-fills for the invoice of 63152.01 with
17237.87 paid is the double of 45914.14, and what `handleOfflinePayment`
computes from it. -/
theorem partPaid_default (today : String) :
    (PaymentModal.initialPaymentData partPaidInvoice today).payment_amount
      = .number (parseFloat "45914.14") ∧
    PaymentModal.newPaidAmount partPaidInvoice (PaymentModal.initialPaymentData partPaidInvoice today)
      = .finite false 8679546164053278 (-37) ∧
    PaymentModal.newStatus partPaidInvoice (PaymentModal.initialPaymentData partPaidInvoice today)
      = "approved" := by
  have h0 : (PaymentModal.initialPaymentData partPaidInvoice today).payment_amount
      = .number (parseFloat "45914.14") := by
    simp only [PaymentModal.initialPaymentData, partPaidInvoice, parseFloatOr0, ofRat_total,
      ofRat_paid]
    decide
  have h1 : PaymentModal.newPaidAmount partPaidInvoice
      (PaymentModal.initialPaymentData partPaidInvoice today)
      = .finite false 8679546164053278 (-37) := by
    simp only [PaymentModal.newPaidAmount, h0, FieldValue.parseFloat]
    simp only [partPaidInvoice, parseFloatOr0, ofRat_paid]
    decide
  refine ⟨h0, h1, ?_⟩
  simp only [PaymentModal.newStatus, h1]
  simp only [partPaidInvoice, ofRat_total]
  decide

/-- The value of the double that the two computations above arrive at. -/
theorem value_below_total :
    (JsNumber.finite false 8679546164053278 (-37)).toRat
      = some (4339773082026639 / 68719476736) ∧
    (4339773082026639 / 68719476736 : ℚ) < 63152.01 := by
  constructor
  · simp only [JsNumber.toRat]
    norm_num
  · norm_num

/-- What `handleOfflinePayment` computes for the payment of 118500 on the
invoice of 118500 with nothing paid. -/
theorem sample_settles :
    PaymentModal.newPaidAmount sampleInvoice samplePayment = JsNumber.ofNat 118500 ∧
    PaymentModal.newStatus sampleInvoice samplePayment = "paid" ∧
    (JsNumber.ofNat 118500).toRat = some 118500 := by
  have e0 : JsNumber.ofRat (0 : ℚ) = JsNumber.ofNat 0 := by
    have := ofRat_natCast 0
    simpa using this
  have e1 : JsNumber.ofRat (118500 : ℚ) = JsNumber.ofNat 118500 := by
    have := ofRat_natCast 118500
    simpa using this
  have h1 : PaymentModal.newPaidAmount sampleInvoice samplePayment = JsNumber.ofNat 118500 := by
    simp only [PaymentModal.newPaidAmount, sampleInvoice, samplePayment, parseFloatOr0,
      FieldValue.parseFloat, e0]
    decide
  refine ⟨h1, ?_, ?_⟩
  · simp only [PaymentModal.newStatus, h1]
    simp only [sampleInvoice, e1]
    decide
  · have h : JsNumber.ofNat 118500 = .finite false 8143257993216000 (-36) := by decide
    rw [h]
    simp only [JsNumber.toRat]
    norm_num

/-- C2, as stated, fails: on the invoice of 63152.01 with 17237.87 paid, the
amount 45914.14 added to the paid amount is the total, yet the `PATCH` that
`handleOfflinePayment` sends writes 4339773082026639 / 68719476736, which is
63152.009999999995 and below the total, and keeps the status `approved`. -/
theorem C2_counterexample :
    parseFloatOr0 partPaidInvoice.paid_amount + 45914.14 = partPaidInvoice.total_amount ∧
    balancePayment.payment_amount = .text "45914.14" ∧
    requestsOf (PaymentModal.handleOfflinePayment partPaidInvoice balancePayment 0
        okResult okResult)
      = [apiFetch (API_BASE_URL ++ "/payments/") (some "POST")
           (some (PaymentModal.paymentBody partPaidInvoice balancePayment 0)),
         apiFetch (API_BASE_URL ++ "/invoices/4/") (some "PATCH")
           (some (.obj [
             ("status", .str "approved"),
             ("paid_amount", .num (4339773082026639 / 68719476736)),
             ("payment_date", .str "2024-01-01")]))] ∧
    (4339773082026639 / 68719476736 : ℚ) < partPaidInvoice.total_amount := by
  refine ⟨?_, rfl, ?_, ?_⟩
  · norm_num [partPaidInvoice, parseFloatOr0]
  · rw [requestsOf_handleOfflinePayment]
    simp only [okResult, FetchResult.isOk, if_true, PaymentModal.invoiceRequest,
      partPaid_typed.1, partPaid_typed.2, JsNumber.toJson, value_below_total.1]
    rfl
  · norm_num [partPaidInvoice]

/-- C2, amended: once the payment record is created, `handleOfflinePayment`
sends one `PATCH` of the invoice whose `paid_amount` is the sum that JavaScript
computes from the previous paid amount (0 if absent) and the amount, a double,
and whose status is `paid` when that double is not below the total read as a
double, else the status of the invoice. The scenario of §8, 118500 on nothing
paid, gives `paid` and 118500. -/
theorem C2_offline_payment_rounded_sum :
    (∀ (invoice : Invoice) (pd : PaymentData) (ts : Nat) (j : Except String Body)
        (invoiceRes : FetchResult),
      requestsOf (PaymentModal.handleOfflinePayment invoice pd ts
          (.resolved { ok := true, json := j }) invoiceRes)
        = [apiFetch (API_BASE_URL ++ "/payments/") (some "POST")
             (some (PaymentModal.paymentBody invoice pd ts)),
           apiFetch (API_BASE_URL ++ "/invoices/" ++ toString invoice.id ++ "/") (some "PATCH")
             (some (.obj [
               ("status", .str
                 (if ((JsNumber.ofRat (parseFloatOr0 invoice.paid_amount)).add
                        pd.payment_amount.parseFloat).ge (JsNumber.ofRat invoice.total_amount)
                  then "paid" else invoice.status)),
               ("paid_amount",
                 ((JsNumber.ofRat (parseFloatOr0 invoice.paid_amount)).add
                   pd.payment_amount.parseFloat).toJson),
               ("payment_date", .str pd.payment_date)]))]) ∧
    PaymentModal.invoiceRequest sampleInvoice samplePayment
      = apiFetch (API_BASE_URL ++ "/invoices/1/") (some "PATCH")
          (some (.obj [
            ("status", .str "paid"),
            ("paid_amount", .num 118500),
            ("payment_date", .str "2024-01-01")])) := by
  refine ⟨fun invoice pd ts j invoiceRes => ?_, ?_⟩
  · rw [requestsOf_handleOfflinePayment]
    simp [FetchResult.isOk, PaymentModal.invoiceRequest, PaymentModal.newStatus,
      PaymentModal.newPaidAmount]
  · simp only [PaymentModal.invoiceRequest, sample_settles.1, sample_settles.2.1,
      JsNumber.toJson, sample_settles.2.2]
    rfl

/-- C25: on the invoice of 63152.01 with 17237.87 paid, which has
`0 ≤ paid_amount ≤ total_amount`, `PaymentModal` pre-fills the double of
45914.14, the balance; recording it makes `handleOfflinePayment` compute the
paid amount 4339773082026639 / 68719476736, which is 63152.009999999995 and
below the total, and so keep the status `approved`. -/
theorem C25_default_payment_falls_short (today : String) (ts : Nat)
    (j : Except String Body) (invoiceRes : FetchResult) :
    (0 : ℚ) ≤ parseFloatOr0 partPaidInvoice.paid_amount ∧
    parseFloatOr0 partPaidInvoice.paid_amount ≤ partPaidInvoice.total_amount ∧
    partPaidInvoice.total_amount - parseFloatOr0 partPaidInvoice.paid_amount = 45914.14 ∧
    (PaymentModal.initialPaymentData partPaidInvoice today).payment_amount
      = .number (parseFloat "45914.14") ∧
    (PaymentModal.newPaidAmount partPaidInvoice
        (PaymentModal.initialPaymentData partPaidInvoice today)).toRat
      = some (4339773082026639 / 68719476736) ∧
    (4339773082026639 / 68719476736 : ℚ) < partPaidInvoice.total_amount ∧
    PaymentModal.newStatus partPaidInvoice
        (PaymentModal.initialPaymentData partPaidInvoice today) = "approved" ∧
    (requestsOf (PaymentModal.handleOfflinePayment partPaidInvoice
        (PaymentModal.initialPaymentData partPaidInvoice today) ts
        (.resolved { ok := true, json := j }) invoiceRes)).getLast?
      = some (apiFetch (API_BASE_URL ++ "/invoices/4/") (some "PATCH")
          (some (.obj [
            ("status", .str "approved"),
            ("paid_amount", .num (4339773082026639 / 68719476736)),
            ("payment_date", .str today)]))) := by
  have hd := partPaid_default today
  refine ⟨?_, ?_, ?_, hd.1, ?_, ?_, hd.2.2, ?_⟩
  · norm_num [partPaidInvoice, parseFloatOr0]
  · norm_num [partPaidInvoice, parseFloatOr0]
  · norm_num [partPaidInvoice, parseFloatOr0]
  · rw [hd.2.1]
    exact value_below_total.1
  · norm_num [partPaidInvoice]
  · rw [requestsOf_handleOfflinePayment]
    simp only [FetchResult.isOk, if_true, List.getLast?_cons_cons, List.getLast?_singleton,
      PaymentModal.invoiceRequest, hd.2.1, hd.2.2, JsNumber.toJson, value_below_total.1]
    rfl

/-- C11, as stated, fails: the pending invoice is offered the payment dialog in
the table row of `InvoicesManagementView`, and recording the amount the dialog
pre-fills sends the status `paid`. -/
theorem C11_counterexample :
    pendingInvoice.status = "pending" ∧
    offersPayment (InvoicesManagementView.rowActions pendingInvoice) = true ∧
    PaymentModal.newStatus pendingInvoice
      (PaymentModal.initialPaymentData pendingInvoice "2024-01-01") = "paid" := by
  refine ⟨rfl, ?_, ?_⟩
  · simp [InvoicesManagementView.rowActions, offersPayment, pendingInvoice]
  · have e0 : JsNumber.ofRat (0 : ℚ) = JsNumber.ofNat 0 := by
      have := ofRat_natCast 0
      simpa using this
    have e1 : JsNumber.ofRat (118500 : ℚ) = JsNumber.ofNat 118500 := by
      have := ofRat_natCast 118500
      simpa using this
    simp only [PaymentModal.newStatus, PaymentModal.newPaidAmount,
      PaymentModal.initialPaymentData, pendingInvoice, parseFloatOr0, FieldValue.parseFloat,
      e0, e1]
    decide

/-- C11, amended: approving is offered exactly for `pending` invoices on all
admin screens; `AdminInvoices` offers mark-as-paid exactly for `approved`
invoices; the table row and the details modal of `InvoicesManagementView`
offer the payment dialog exactly for `approved` or `pending` invoices. -/
theorem C11_invoice_actions (invoice : Invoice) :
    (offersApproveInvoice (InvoicesManagementView.rowActions invoice) = true
      ↔ invoice.status = "pending") ∧
    (offersApproveInvoice (InvoiceDetailsModal.modalActions invoice) = true
      ↔ invoice.status = "pending") ∧
    (offersApproveInvoice (AdminInvoices.cardActions invoice) = true
      ↔ invoice.status = "pending") ∧
    (offersPayment (AdminInvoices.cardActions invoice) = true
      ↔ invoice.status = "approved") ∧
    (offersPayment (InvoicesManagementView.rowActions invoice) = true
      ↔ (invoice.status = "approved" ∨ invoice.status = "pending")) ∧
    (offersPayment (InvoiceDetailsModal.modalActions invoice) = true
      ↔ (invoice.status = "approved" ∨ invoice.status = "pending")) := by
  refine ⟨?_, ?_, ?_, ?_, ?_, ?_⟩
  · by_cases h1 : invoice.status = "pending" <;> by_cases h2 : invoice.status = "approved" <;>
      cases invoice.invoice_file <;>
      simp [InvoicesManagementView.rowActions, offersApproveInvoice, h1, h2]
  · by_cases h1 : invoice.status = "pending" <;> by_cases h2 : invoice.status = "approved" <;>
      simp [InvoiceDetailsModal.modalActions, offersApproveInvoice, h1, h2]
  · by_cases h1 : invoice.status = "pending" <;> by_cases h2 : invoice.status = "approved" <;>
      simp [AdminInvoices.cardActions, offersApproveInvoice, h1, h2]
  · by_cases h1 : invoice.status = "pending" <;> by_cases h2 : invoice.status = "approved" <;>
      simp [AdminInvoices.cardActions, offersPayment, h1, h2]
  · by_cases h1 : invoice.status = "pending" <;> by_cases h2 : invoice.status = "approved" <;>
      cases invoice.invoice_file <;>
      simp [InvoicesManagementView.rowActions, offersPayment, h1, h2]
  · by_cases h1 : invoice.status = "pending" <;> by_cases h2 : invoice.status = "approved" <;>
      simp [InvoiceDetailsModal.modalActions, offersPayment, h1, h2]

/-- C3, as stated, fails: when the payment `POST` is answered `ok` and the
invoice `PATCH` is not, the run reports an error and the backend has carried
out the `POST`, so that a payment record exists. -/
theorem C3_counterexample :
    endsInError (PaymentModal.handleOfflinePayment sampleInvoice samplePayment 0
      okResult failedResult) = true ∧
    paymentRecords API_BASE_URL
        (carriedOut
          (requestsOf (PaymentModal.handleOfflinePayment sampleInvoice samplePayment 0
            okResult failedResult))
          [okResult, failedResult])
      = [PaymentModal.paymentBody sampleInvoice samplePayment 0] := by
  constructor
  · simp [endsInError_handleOfflinePayment, FetchResult.isOk, okResult, failedResult]
  · rw [requestsOf_handleOfflinePayment]
    simp [FetchResult.isOk, okResult, failedResult, carriedOut, paymentRecords, apiFetch]

/-- C3, amended: in every run of `handleOfflinePayment` that reports an error
no request follows the failed one, and no `PATCH` of the invoice has been
carried out. When the payment `POST` failed it is the only request and the
backend has carried out nothing: no payment record exists. When the `POST` was
answered `ok` the error arose at the invoice `PATCH`: the run sent these two
requests, the backend has carried out the `POST` alone, and the payment record
it created stays. -/
theorem C3_offline_payment_error_outcome (invoice : Invoice) (pd : PaymentData) (ts : Nat)
    (paymentRes invoiceRes : FetchResult)
    (herr : endsInError (PaymentModal.handleOfflinePayment invoice pd ts paymentRes invoiceRes)
      = true) :
    requestsOf (PaymentModal.handleOfflinePayment invoice pd ts paymentRes invoiceRes)
      = apiFetch (API_BASE_URL ++ "/payments/") (some "POST")
          (some (PaymentModal.paymentBody invoice pd ts)) ::
        (if paymentRes.isOk then [PaymentModal.invoiceRequest invoice pd] else []) ∧
    carriedOut
        (requestsOf (PaymentModal.handleOfflinePayment invoice pd ts paymentRes invoiceRes))
        [paymentRes, invoiceRes]
      = (if paymentRes.isOk then
          [apiFetch (API_BASE_URL ++ "/payments/") (some "POST")
            (some (PaymentModal.paymentBody invoice pd ts))]
         else []) ∧
    paymentRecords API_BASE_URL
        (carriedOut
          (requestsOf (PaymentModal.handleOfflinePayment invoice pd ts paymentRes invoiceRes))
          [paymentRes, invoiceRes])
      = (if paymentRes.isOk then [PaymentModal.paymentBody invoice pd ts] else []) ∧
    paidAmountsWritten API_BASE_URL invoice.id
        (carriedOut
          (requestsOf (PaymentModal.handleOfflinePayment invoice pd ts paymentRes invoiceRes))
          [paymentRes, invoiceRes])
      = [] := by
  have hreq := requestsOf_handleOfflinePayment invoice pd ts paymentRes invoiceRes
  have herr2 : (!(paymentRes.isOk && invoiceRes.isOk)) = true := by
    rw [← endsInError_handleOfflinePayment invoice pd ts]
    exact herr
  refine ⟨hreq, ?_, ?_, ?_⟩
  · rw [hreq]
    by_cases h1 : paymentRes.isOk = true
    · have h2 : invoiceRes.isOk = false := by simpa [h1] using herr2
      simp [h1, h2, carriedOut]
    · simp [h1, carriedOut]
  · rw [hreq]
    by_cases h1 : paymentRes.isOk = true
    · have h2 : invoiceRes.isOk = false := by simpa [h1] using herr2
      simp [h1, h2, carriedOut, paymentRecords, apiFetch]
    · simp [h1, carriedOut, paymentRecords]
  · rw [hreq]
    by_cases h1 : paymentRes.isOk = true
    · have h2 : invoiceRes.isOk = false := by simpa [h1] using herr2
      simp [h1, h2, carriedOut, paidAmountsWritten, apiFetch]
    · simp [h1, carriedOut, paidAmountsWritten]

/-- Witness for C3 amended: the payment is created and the invoice update
fails; the error is reported and the backend has carried out the payment
`POST` alone. -/
theorem C3_offline_payment_error_outcome_witness :
    endsInError (PaymentModal.handleOfflinePayment sampleInvoice samplePayment 0
      okResult failedResult) = true ∧
    carriedOut
        (requestsOf (PaymentModal.handleOfflinePayment sampleInvoice samplePayment 0
          okResult failedResult))
        [okResult, failedResult]
      = (if okResult.isOk then
          [apiFetch (API_BASE_URL ++ "/payments/") (some "POST")
            (some (PaymentModal.paymentBody sampleInvoice samplePayment 0))]
         else []) :=
  have herr : endsInError (PaymentModal.handleOfflinePayment sampleInvoice samplePayment 0
      okResult failedResult) = true := by
    simp [endsInError_handleOfflinePayment, FetchResult.isOk, okResult, failedResult]
  ⟨herr,
   (C3_offline_payment_error_outcome sampleInvoice samplePayment 0 okResult failedResult
      herr).2.1⟩

/-- C4: a confirmed `AdminInvoices.handleMarkPaid` sends one `PATCH` that
writes `paid_amount = totalAmount` with the status `paid`, and no request to
`payments/`: when the backend carries the run out, the invoice has the full
amount written and no payment record was created for it. The payment dialog of
`AdminDashboard`, for its part, creates the record before it writes the
amount. -/
theorem C4_mark_paid_without_payment_record (env : Option String) (invoiceId : Nat)
    (totalAmount : ℚ) (invoice : Invoice) (pd : PaymentData) (ts : Nat) :
    (∀ res : FetchResult,
      mutatingRequestsOf (AdminInvoices.handleMarkPaid env invoiceId totalAmount true res)
        = [{ method := "PATCH"
             url := AdminInvoices.API_BASE_URL env ++ "/invoices/" ++ toString invoiceId ++ "/"
             body := some (.obj [("status", .str "paid"), ("paid_amount", .num totalAmount)])
             csrf := true }]) ∧
    paidAmountsWritten (AdminInvoices.API_BASE_URL env) invoiceId
        (carriedOut
          (requestsOf (AdminInvoices.handleMarkPaid env invoiceId totalAmount true okResult))
          [okResult, okResult])
      = [.num totalAmount] ∧
    paymentRecords (AdminInvoices.API_BASE_URL env)
        (carriedOut
          (requestsOf (AdminInvoices.handleMarkPaid env invoiceId totalAmount true okResult))
          [okResult, okResult])
      = [] ∧
    paymentRecords API_BASE_URL
        (carriedOut
          (requestsOf (PaymentModal.handleOfflinePayment invoice pd ts okResult okResult))
          [okResult, okResult])
      = [PaymentModal.paymentBody invoice pd ts] := by
  refine ⟨fun res => ?_, ?_, ?_, ?_⟩
  · rcases res with ⟨ok, j⟩ | m
    · cases ok <;>
        simp [AdminInvoices.handleMarkPaid, AdminInvoices.fetchInvoices, mutatingRequestsOf,
          requestsOf]
    · simp [AdminInvoices.handleMarkPaid, mutatingRequestsOf, requestsOf]
  · simp [AdminInvoices.handleMarkPaid, AdminInvoices.fetchInvoices, requestsOf, okResult,
      carriedOut, FetchResult.isOk, paidAmountsWritten, Json.get?, List.find?]
  · simp [AdminInvoices.handleMarkPaid, AdminInvoices.fetchInvoices, requestsOf, okResult,
      carriedOut, FetchResult.isOk, paymentRecords]
  · rw [requestsOf_handleOfflinePayment]
    simp [FetchResult.isOk, okResult, carriedOut, paymentRecords, apiFetch,
      PaymentModal.invoiceRequest]
/-! ### Creation of purchase requests and purchase orders -/

/-- The instances of `parseInt` and `parseFloat` on the texts `1e3` and
`0.5e1`: `parseInt` stops at the letter or the point, `parseFloat` reads the
exponent. -/
theorem parse_exponent_texts :
    parseInt "1e3" = JsNumber.ofNat 1 ∧ parseFloat "1e3" = JsNumber.ofNat 1000 ∧
    parseInt "0.5e1" = JsNumber.zero ∧ parseFloat "0.5e1" = JsNumber.ofNat 5 ∧
    parseInt "7" = JsNumber.ofNat 7 ∧ parseInt "3" = JsNumber.ofNat 3 ∧
    parseFloat "50000.00" = JsNumber.ofNat 50000 := by
  decide

/-- The JSON numbers for 0, 1, 2, 3, 7 and 50000. -/
theorem toJson_small :
    JsNumber.zero.toJson = .num 0 ∧ (JsNumber.ofNat 1).toJson = .num 1 ∧
    (JsNumber.ofNat 3).toJson = .num 3 ∧ (JsNumber.ofNat 7).toJson = .num 7 ∧
    (JsNumber.ofNat 50000).toJson = .num 50000 ∧ (JsNumber.ofNat 2).toJson = .num 2 := by
  have h5 : JsNumber.ofNat 50000 = .finite false 6871947673600000 (-37) := by decide
  have h1 : JsNumber.ofNat 1 = .finite false 4503599627370496 (-52) := by decide
  have h2 : JsNumber.ofNat 2 = .finite false 4503599627370496 (-51) := by decide
  have h3 : JsNumber.ofNat 3 = .finite false 6755399441055744 (-51) := by decide
  have h7 : JsNumber.ofNat 7 = .finite false 7881299347898368 (-50) := by decide
  refine ⟨?_, ?_, ?_, ?_, ?_, ?_⟩
  · simp [JsNumber.toJson, JsNumber.toRat, JsNumber.zero]
  · rw [h1]
    simp only [JsNumber.toJson, JsNumber.toRat]
    norm_num
  · rw [h3]
    simp only [JsNumber.toJson, JsNumber.toRat]
    norm_num
  · rw [h7]
    simp only [JsNumber.toJson, JsNumber.toRat]
    norm_num
  · rw [h5]
    simp only [JsNumber.toJson, JsNumber.toRat]
    norm_num
  · rw [h2]
    simp only [JsNumber.toJson, JsNumber.toRat]
    norm_num

/-- A decimal digit is no white space, sign, point or letter. -/
theorem digit_facts (c : Char) (h : isDigit09 c = true) :
    isJsWhitespace c = false ∧ c ≠ '-' ∧ c ≠ '+' ∧ c ≠ '.' ∧ c ≠ 'I' ∧ c ≠ 'x' ∧ c ≠ 'X' := by
  simp only [isDigit09, Bool.and_eq_true, decide_eq_true_eq] at h
  refine ⟨?_, ?_, ?_, ?_, ?_, ?_, ?_⟩
  · simp only [isJsWhitespace]
    have h1 := h.1
    have h2 := h.2
    simp
    omega
  all_goals
    intro hc
    subst hc
    revert h
    decide

/-- On a list whose members all satisfy `p`, `takeWhile p` takes everything. -/
theorem takeWhile_all (p : Char → Bool) (l : List Char) (h : l.all p = true) :
    l.takeWhile p = l ∧ l.dropWhile p = [] := by
  induction l with
  | nil => simp
  | cons a t ih =>
    simp only [List.all_cons, Bool.and_eq_true] at h
    simp [List.takeWhile, List.dropWhile, h.1, ih h.2]

/-- On a text of decimal digits only, `parseInt` and `parseFloat` both give the
Number of the integer written. -/
theorem parseInt_digits (text : String) (hne : text.data ≠ [])
    (hall : text.data.all isDigit09 = true) :
    parseInt text = JsNumber.ofNat (digitsValue text.data) ∧
    parseFloat text = JsNumber.ofNat (digitsValue text.data) := by
  obtain ⟨c, cs, hdata⟩ : ∃ c cs, text.data = c :: cs := by
    cases h : text.data with
    | nil => exact absurd h hne
    | cons c cs => exact ⟨c, cs, rfl⟩
  rw [hdata] at hall
  have hall2 := hall
  simp only [List.all_cons, Bool.and_eq_true] at hall2
  obtain ⟨hws, hm, hp, hd, hI, hx, hX⟩ := digit_facts c hall2.1
  have htw := takeWhile_all isDigit09 (c :: cs) hall
  have hdw : (c :: cs).dropWhile isJsWhitespace = c :: cs := by
    simp [List.dropWhile, hws]
  have hsign : stripSign (c :: cs) = c :: cs := by
    unfold stripSign
    split
    · rename_i r heq
      exact absurd (List.cons.inj heq).1 hm
    · rename_i r heq
      exact absurd (List.cons.inj heq).1 hp
    · rfl
  have hneg : ((c :: cs).head? == some '-') = false := by
    simp [hm]
  have hne2 : (c :: cs).isEmpty = false := rfl
  constructor
  · simp only [parseInt, hdata, hdw, hsign, hneg]
    unfold parseIntUnsigned
    split
    · rename_i r heq
      have h2 : cs = 'x' :: r := (List.cons.inj heq).2
      rw [h2] at hall2
      simp [isDigit09] at hall2
    · rename_i r heq
      have h2 : cs = 'X' :: r := (List.cons.inj heq).2
      rw [h2] at hall2
      simp [isDigit09] at hall2
    · rw [htw.1]
      simp [JsNumber.ofNat]
  · have h8 : ((c :: cs).take 8 == "Infinity".data) = false := by
      have : (c :: cs).take 8 ≠ "Infinity".data := by
        intro h
        have h1 : ((c :: cs).take 8).head? = ("Infinity".data).head? := by rw [h]
        simp at h1
        exact hI h1
      simpa using this
    have hdl : decimalLiteral (c :: cs) = some (digitsValue (c :: cs), 0) := by
      unfold decimalLiteral
      rw [htw.2]
      simp [htw.1, exponentPart]
    simp only [parseFloat, hdata, hdw, hsign, hneg, h8, hdl]
    simp [roundDecimal, JsNumber.ofNat]

/-- C18, as stated, fails: with the quantity text `1e3`, which the browser
accepts and reads as the whole number 1000, the form passes `validateForm` and
`handleSubmit` sends the request with the quantity 1. -/
theorem C18_counterexample :
    CreateRequestView.submittable true thousandLaptops = true ∧
    parseFloat thousandLaptops.quantity = JsNumber.ofNat 1000 ∧
    requestsOf (CreateRequestView.handleSubmit 5 thousandLaptops okResult)
      = [apiFetch (API_BASE_URL ++ "/purchase-requests/") (some "POST")
          (some (.obj [
            ("item_name", .str "Laptop"),
            ("product", .null),
            ("quantity", .num 1),
            ("department", .str "IT"),
            ("urgency_level", .str "high"),
            ("justification", .str ""),
            ("employee", .num 5)]))] := by
  have hv : CreateRequestView.validateForm thousandLaptops = [] := by decide
  refine ⟨by decide, parse_exponent_texts.2.1, ?_⟩
  simp only [CreateRequestView.handleSubmit, hv, okResult, requestsOf,
    CreateRequestView.requestData, thousandLaptops, parse_exponent_texts.1, toJson_small.2.1]
  simp [requestsOf]

/-- C18, amended: `handleSubmit` sends the request exactly when `validateForm`
finds no error, that is when the item name and the department are not blank,
the quantity text is not empty and `parseInt` of it is not below 1; the
quantity of the payload is `parseInt` of the quantity text. For a quantity
written in decimal digits only, `parseInt` reads the integer written, as
`parseFloat` does. -/
theorem C18_create_request_validation (userId : Nat) (formData : RequestFormData)
    (res : FetchResult) :
    requestsOf (CreateRequestView.handleSubmit userId formData res)
      = (if (CreateRequestView.validateForm formData).isEmpty then
          [apiFetch (API_BASE_URL ++ "/purchase-requests/") (some "POST")
            (some (CreateRequestView.requestData userId formData))]
         else []) ∧
    ((CreateRequestView.validateForm formData).isEmpty = true ↔
      (jsTrim formData.item_name ≠ "" ∧ formData.quantity ≠ "" ∧
        (parseInt formData.quantity).lt (JsNumber.ofNat 1) = false ∧
        jsTrim formData.department ≠ "")) ∧
    (CreateRequestView.requestData userId formData).get? "quantity"
      = some (parseInt formData.quantity).toJson ∧
    (formData.quantity.data ≠ [] ∧ formData.quantity.data.all isDigit09 = true →
      parseInt formData.quantity = JsNumber.ofNat (digitsValue formData.quantity.data) ∧
      parseFloat formData.quantity = JsNumber.ofNat (digitsValue formData.quantity.data)) := by
  refine ⟨?_, ?_, ?_, ?_⟩
  · cases hfd : (CreateRequestView.validateForm formData).isEmpty
    · simp [CreateRequestView.handleSubmit, hfd, requestsOf]
    · rcases res with ⟨ok, j⟩ | m
      · cases ok
        · cases j <;> simp [CreateRequestView.handleSubmit, hfd, requestsOf]
        · simp [CreateRequestView.handleSubmit, hfd, requestsOf]
      · simp [CreateRequestView.handleSubmit, hfd, requestsOf]
  · unfold CreateRequestView.validateForm
    cases h1 : (jsTrim formData.item_name == "") <;>
      cases h2 : (formData.quantity == "") <;>
      cases h3 : (parseInt formData.quantity).lt (JsNumber.ofNat 1) <;>
      cases h4 : (jsTrim formData.department == "") <;>
      simp_all
  · simp [CreateRequestView.requestData, Json.get?, List.find?]
  · intro h
    exact parseInt_digits formData.quantity h.1 h.2

/-- Witness for C18 amended: two laptops, the quantity written as `2`. -/
theorem C18_create_request_validation_witness :
    ("2".data ≠ [] ∧ "2".data.all isDigit09 = true) ∧
    parseInt "2" = JsNumber.ofNat (digitsValue "2".data) ∧
    parseFloat "2" = JsNumber.ofNat (digitsValue "2".data) :=
  ⟨by decide,
   (C18_create_request_validation 5 { thousandLaptops with quantity := "2" } okResult).2.2.2
     (by decide)⟩

/-- What both copies of `CreatePurchaseOrderForm.handleSubmit` request. -/
theorem requestsOf_createPO (formData : POFormText) (currentUserId : Option Nat)
    (res : FetchResult) :
    requestsOf (AdminDashboard.CreatePurchaseOrderForm.handleSubmit formData
        (.ok currentUserId) res)
      = (if formData.vendor != "" && formData.items.length != 0
            && !formData.items.any itemRejected then
          [apiFetch (API_BASE_URL ++ "/purchase-orders/") (some "POST")
            (some (poPayload formData currentUserId))]
         else []) ∧
    requestsOf (Purchaseorderscomponent.CreatePurchaseOrderForm.handleSubmit formData
        (.ok currentUserId) res)
      = requestsOf (AdminDashboard.CreatePurchaseOrderForm.handleSubmit formData
        (.ok currentUserId) res) := by
  refine ⟨?_, rfl⟩
  cases h1 : (formData.vendor == "")
  · cases h2 : (formData.items.length == 0)
    · cases h3 : formData.items.any itemRejected
      · rcases res with ⟨ok, j⟩ | m
        · cases j <;> cases ok <;>
            simp [AdminDashboard.CreatePurchaseOrderForm.handleSubmit, h1, h2, h3, requestsOf,
              bne]
        · simp [AdminDashboard.CreatePurchaseOrderForm.handleSubmit, h1, h2, h3, requestsOf,
            bne]
      · simp [AdminDashboard.CreatePurchaseOrderForm.handleSubmit, h1, h2, h3, requestsOf, bne]
    · simp [AdminDashboard.CreatePurchaseOrderForm.handleSubmit, h1, h2, requestsOf, bne]
  · simp [AdminDashboard.CreatePurchaseOrderForm.handleSubmit, h1, requestsOf, bne]

/-- C19: the order form with one line whose quantity text is `0.5e1`, which
the browser accepts as the whole number 5, passes the item check of
`handleSubmit`, because the check reads the quantity with `parseFloat`; the
payload carries `parseInt` of the text, and the request of both copies has a
line item with the quantity 0. -/
theorem C19_quantity_checked_and_sent_differently (currentUserId : Option Nat)
    (res : FetchResult) :
    CreatePurchaseOrderForm.submittable fiveByExponent = true ∧
    fiveByExponent.items.any itemRejected = false ∧
    fiveByExponent.items.map itemPayload
      = [.obj [("product", .num 7), ("quantity", .num 0), ("unit_price", .num 50000)]] ∧
    requestsOf (AdminDashboard.CreatePurchaseOrderForm.handleSubmit fiveByExponent
        (.ok currentUserId) res)
      = [apiFetch (API_BASE_URL ++ "/purchase-orders/") (some "POST")
          (some (poPayload fiveByExponent currentUserId))] ∧
    requestsOf (Purchaseorderscomponent.CreatePurchaseOrderForm.handleSubmit fiveByExponent
        (.ok currentUserId) res)
      = [apiFetch (API_BASE_URL ++ "/purchase-orders/") (some "POST")
          (some (poPayload fiveByExponent currentUserId))] ∧
    (poPayload fiveByExponent currentUserId).get? "items"
      = some (.arr [.obj [("product", .num 7), ("quantity", .num 0),
          ("unit_price", .num 50000)]]) ∧
    (poPayload fiveByExponent currentUserId).get? "status" = some (.str "draft") := by
  have hrej : fiveByExponent.items.any itemRejected = false := by decide
  have hitems : fiveByExponent.items.map itemPayload
      = [.obj [("product", .num 7), ("quantity", .num 0), ("unit_price", .num 50000)]] := by
    simp only [fiveByExponent, List.map, itemPayload, parse_exponent_texts.2.2.1,
      parse_exponent_texts.2.2.2.2.1, parse_exponent_texts.2.2.2.2.2.2, toJson_small.1,
      toJson_small.2.2.2.1, toJson_small.2.2.2.2.1]
  have hr := requestsOf_createPO fiveByExponent currentUserId res
  have hcond : (fiveByExponent.vendor != "" && fiveByExponent.items.length != 0
      && !fiveByExponent.items.any itemRejected) = true := by decide
  refine ⟨by decide, hrej, hitems, ?_, ?_, ?_, ?_⟩
  · rw [hr.1, hcond]
    rfl
  · rw [hr.2, hr.1, hcond]
    rfl
  · cases currentUserId <;> simp [poPayload, Json.get?, List.find?, hitems]
  · cases currentUserId <;> simp [poPayload, Json.get?, List.find?]

/-- C26: for a user of role admin, employee or vendor with a username, a login
answered `ok` with that user stores the user and navigates, once, to the path
of the role; `ProtectedRoute` redirects the user to the same path from a route
that does not allow the role; `App` renders the page at that path for the
user; and every protected route of `App` shows its page at once or after one
redirect. -/
theorem C26_role_routing (u : StoredUser) (r : String)
    (hname : truthy u.username = true) (hrole : u.role = some r)
    (hr : r = "admin" ∨ r = "employee" ∨ r = "vendor") :
    (∀ (username password userJson : String) (data : Body),
      Login.handleLogin username password (.resolved { ok := true, json := .ok data })
          (some u) userJson
        = [.setError "", .setLoading true,
           .fetch { method := "POST"
                    url := API_BASE_URL ++ "/auth/login/"
                    body := some (.obj [("username", .str username),
                                        ("password", .str password)])
                    csrf := false },
           .setItem "user" userJson,
           .navigate (Login.landingPath (some r)),
           .setLoading false]) ∧
    Login.landingPath (some r) = "/" ++ r ++ "-dashboard" ∧
    (∀ roles, r ∉ roles →
      ProtectedRoute (some u) (some roles) = .navigate (Login.landingPath (some r))) ∧
    App.render (Login.landingPath (some r)) (some u) = some .children ∧
    (∀ p ∈ App.protectedPaths,
      App.render p (some u) = some .children ∨
      ∃ q, App.render p (some u) = some (.navigate q) ∧
        App.render q (some u) = some .children) := by
  refine ⟨?_, ?_, ?_, ?_, ?_⟩
  · intro username password userJson data
    simp [Login.handleLogin, hrole]
  · rcases hr with h | h | h <;> subst h <;> decide
  · intro roles hmem
    rcases hr with h | h | h <;> subst h <;>
      simp [ProtectedRoute, hname, hrole, hmem, Login.landingPath]
  · rcases hr with h | h | h <;> subst h <;>
      simp [App.render, App.routes, List.lookup, Login.landingPath, ProtectedRoute, hname,
        hrole]
  · intro p hp
    simp only [App.protectedPaths, App.routes, List.filter, List.map, Option.isSome,
      List.mem_cons, List.mem_singleton, List.not_mem_nil, or_false] at hp
    rcases hr with h | h | h <;> subst h <;> rcases hp with hp | hp | hp <;> subst hp <;>
      simp [App.render, App.routes, List.lookup, ProtectedRoute, hname, hrole]

/-- Witness for C26: a vendor logs in and is taken to the vendor dashboard,
which `App` renders for the user. -/
theorem C26_role_routing_witness :
    Login.handleLogin "acme" "secret" okResult
        (some { username := some "acme", role := some "vendor" }) "user-json"
      = [.setError "", .setLoading true,
         .fetch { method := "POST"
                  url := API_BASE_URL ++ "/auth/login/"
                  body := some (.obj [("username", .str "acme"), ("password", .str "secret")])
                  csrf := false },
         .setItem "user" "user-json",
         .navigate (Login.landingPath (some "vendor")),
         .setLoading false] ∧
    App.render (Login.landingPath (some "vendor"))
      (some { username := some "acme", role := some "vendor" }) = some .children :=
  ⟨(C26_role_routing { username := some "acme", role := some "vendor" } "vendor"
      (by decide) rfl (Or.inr (Or.inr rfl))).1 "acme" "secret" "user-json"
      { message := none, stringified := "\x7b\x7d" },
   (C26_role_routing { username := some "acme", role := some "vendor" } "vendor"
      (by decide) rfl (Or.inr (Or.inr rfl))).2.2.2.1⟩

end Procurement
